import Mathlib

/-!
# OpenRTX user interface: state machine of `openrtx/src/ui/ui.c`

A shallow embedding of the key-event state machine `ui_updateFSM` and of the
helpers it calls, followed by theorems about them.

Conventions of the embedding
* C globals (`state`, `ui_state`, `macro_menu`) and the out-parameter
  `*sync_rtx` are the four fields of `ui_globals`; every C function that
  touches them becomes a function `ui_globals → ui_globals`.
* Unsigned machine integers are `Nat`, reduced with an explicit `%` at every
  place where the C arithmetic can leave the range of the destination type
  (`uint8_t`: 256, `uint16_t`: 65536, `freq_t` = `uint32_t`: 2 ^ 32).
* Compile-time switches (`#ifdef HAS_GPS`, ...) and the constants of the
  headers (`FREQ_DIGITS`, ...) are the fields of `build_cfg`.
* Calls into other modules (platform, storage, input classifier) read their
  answer from `platform_env` or from the decoded key message; output-only
  calls (backlight, contrast, GPS thread, RTC write, shutdown) have no effect
  on the modelled state and are left out.
-/

/-! ## Data model -/

/-- Storage moduli (2 ^ width) of the bit-fields declared in headers. -/
structure field_mod where
  tone : Nat
  bandwidth : Nat
  date : Nat
  month : Nat
  year : Nat
  hour : Nat
  minute : Nat
  deriving DecidableEq, Repr

/-- Compile-time configuration: header constants and `#ifdef` switches. -/
structure build_cfg where
  FREQ_DIGITS : Nat
  TIMEDATE_DIGITS : Nat
  MAX_TONE_INDEX : Nat
  HAS_GPS : Bool
  HAS_RTC : Bool
  SCREEN_CONTRAST : Bool
  HAS_ABSOLUTE_KNOB : Bool
  fields : field_mod
  deriving DecidableEq, Repr

/-- Screens of the user interface (`enum uiScreen`). -/
inductive uiScreen where
  | MAIN_VFO
  | MAIN_VFO_INPUT
  | MAIN_MEM
  | MENU_TOP
  | MENU_ZONE
  | MENU_CHANNEL
  | MENU_CONTACTS
  | MENU_GPS
  | MENU_SETTINGS
  | MENU_INFO
  | MENU_ABOUT
  | SETTINGS_TIMEDATE
  | SETTINGS_TIMEDATE_SET
  | SETTINGS_DISPLAY
  | SETTINGS_GPS
  | LOW_BAT
  deriving DecidableEq, Repr

open uiScreen

/-- Target of the frequency entry (`enum SetRxTx`). -/
inductive SetRxTx where
  | SET_RX
  | SET_TX
  deriving DecidableEq, Repr

open SetRxTx

/-- Kind of an event delivered to the state machine. -/
inductive eventType where
  | EVENT_KBD
  | EVENT_STATUS
  deriving DecidableEq, Repr

open eventType

/-- Tone settings of an FM channel (`channel.fm`). -/
structure fmInfo_t where
  rxToneEn : Bool
  rxTone : Nat
  txToneEn : Bool
  txTone : Nat
  deriving DecidableEq, Repr

/-- Operating mode constant `FM`. -/
def FM : Nat := 0

/-- Operating mode constant `DMR`. -/
def DMR : Nat := 1

/-- Channel record: the fields the user interface reads or writes; `power` is
the transmit power in watt (a float in C, only ever 1.0 or 5.0 here). -/
structure channel_t where
  mode : Nat
  bandwidth : Nat
  power : Int
  rx_frequency : Nat
  tx_frequency : Nat
  fm : fmInfo_t
  deriving DecidableEq, Repr

/-- Zone record: its name and the channel numbers of its member slots, each a
16-bit channel number like the `uint16_t channel_index` it is assigned to. -/
structure zone_t where
  name : List Nat
  member : List Nat
  deriving DecidableEq, Repr

/-- Calendar time as entered by the user and as kept in `state.time`. -/
structure curTime_t where
  hour : Nat
  minute : Nat
  second : Nat
  day : Nat
  date : Nat
  month : Nat
  year : Nat
  deriving DecidableEq, Repr

/-- Persistent settings (`state.settings`). -/
structure settings_t where
  brightness : Nat
  contrast : Nat
  gps_enabled : Bool
  gps_set_time : Bool
  utc_timezone : Int
  deriving DecidableEq, Repr

/-- Radio state shared with the rest of the firmware (global `state`);
`charge` is the battery charge, of which only the test `charge <= 0` is used. -/
structure state_t where
  time : curTime_t
  charge : Int
  ui_screen : uiScreen
  channel_index : Nat
  channel : channel_t
  vfo_channel : channel_t
  zone_enabled : Bool
  zone : zone_t
  sqlLevel : Nat
  emergency : Bool
  settings : settings_t
  deriving DecidableEq, Repr

/-- Private state of the user interface (global `ui_state`). -/
structure ui_state_t where
  menu_selected : Nat
  input_number : Nat
  input_position : Nat
  input_set : SetRxTx
  last_main_state : uiScreen
  new_rx_frequency : Nat
  new_tx_frequency : Nat
  new_timedate : curTime_t
  edit_mode : Bool
  deriving DecidableEq, Repr

/-- Everything `ui.c` mutates: the globals and the flag behind `sync_rtx`. -/
structure ui_globals where
  state : state_t
  ui_state : ui_state_t
  macro_menu : Bool
  sync_rtx : Bool
  deriving DecidableEq, Repr

/-- Hardware description returned by `platform_getHwInfo`; bounds in MHz. -/
structure hwInfo_t where
  vhf_maxFreq : Nat
  vhf_minFreq : Nat
  vhf_band : Bool
  uhf_maxFreq : Nat
  uhf_minFreq : Nat
  uhf_band : Bool
  deriving DecidableEq, Repr

/-- Keyboard message as decoded by the input module: `value` is the raw word,
each `KEY_X` field is the truth value of `msg.keys & KEY_X`, and the last two
fields are the answers of `input_isNumberPressed` and
`input_getPressedNumber`. -/
structure kbd_msg_t where
  value : Nat
  KEY_UP : Bool
  KEY_DOWN : Bool
  KEY_LEFT : Bool
  KEY_RIGHT : Bool
  KEY_ENTER : Bool
  KEY_ESC : Bool
  KEY_MONI : Bool
  isNumberPressed : Bool
  pressedNumber : Nat
  deriving DecidableEq, Repr

/-- Event handed to `ui_updateFSM`; the payload is read as a key message. -/
structure event_t where
  type : eventType
  payload : kbd_msg_t
  deriving DecidableEq, Repr

/-- Answer of a storage read: the returned code (-1 on a miss) and what the
call left in its out-parameter. -/
structure nvm_answer (α : Type) where
  result : Int
  data : α

/-- Answers of the collaborators while one event is processed. -/
structure platform_env where
  pwrButtonStatus : Bool
  pttStatus : Bool
  chSelector : Int
  hwInfo : hwInfo_t
  nvm_readChannelData : Nat → nvm_answer channel_t
  nvm_readZoneData : Nat → nvm_answer zone_t
  nvm_readContactData : Nat → Int
  state_getUTCTime : curTime_t → curTime_t
  newzone_init : zone_t

/-! ## Digit entry and limit check -/

/-- Loop of `_ui_freq_add_digit`: `n` times `coefficient *= 10` on a `freq_t`. -/
def freq_coefficient : Nat → Nat → Nat
  | 0, coefficient => coefficient
  | n + 1, coefficient => freq_coefficient n (coefficient * 10 % 2 ^ 32)

/-- Adds `number` at entry position `pos` to `freq` (`_ui_freq_add_digit`). -/
def _ui_freq_add_digit (cfg : build_cfg) (freq pos number : Nat) : Nat :=
  (freq + number * freq_coefficient (cfg.FREQ_DIGITS - pos) 10 % 2 ^ 32) % 2 ^ 32

/-- Adds `number` to the two-digit field selected by `pos`
(`_ui_timedate_add_digit`). -/
def _ui_timedate_add_digit (cfg : build_cfg) (timedate : curTime_t) (pos number : Nat) :
    curTime_t :=
  match pos with
  | 1 => { timedate with date := (timedate.date + number * 10) % cfg.fields.date }
  | 2 => { timedate with date := (timedate.date + number) % cfg.fields.date }
  | 3 => { timedate with month := (timedate.month + number * 10) % cfg.fields.month }
  | 4 => { timedate with month := (timedate.month + number) % cfg.fields.month }
  | 5 => { timedate with year := (timedate.year + number * 10) % cfg.fields.year }
  | 6 => { timedate with year := (timedate.year + number) % cfg.fields.year }
  | 7 => { timedate with hour := (timedate.hour + number * 10) % cfg.fields.hour }
  | 8 => { timedate with hour := (timedate.hour + number) % cfg.fields.hour }
  | 9 => { timedate with minute := (timedate.minute + number * 10) % cfg.fields.minute }
  | 10 => { timedate with minute := (timedate.minute + number) % cfg.fields.minute }
  | _ => timedate

/-- Band check of a frequency in Hz (`_ui_freq_check_limits`); the products
are compared as 32-bit unsigned values. -/
def _ui_freq_check_limits (hwinfo : hwInfo_t) (freq : Nat) : Bool :=
  let valid := false
  let valid :=
    if hwinfo.vhf_band then
      if freq ≥ hwinfo.vhf_minFreq * 1000000 % 2 ^ 32 ∧
         freq ≤ hwinfo.vhf_maxFreq * 1000000 % 2 ^ 32 then true else valid
    else valid
  let valid :=
    if hwinfo.uhf_band then
      if freq ≥ hwinfo.uhf_minFreq * 1000000 % 2 ^ 32 ∧
         freq ≤ hwinfo.uhf_maxFreq * 1000000 % 2 ^ 32 then true else valid
    else valid
  valid

/-- A channel is valid when both its frequencies are (`_ui_channel_valid`). -/
def _ui_channel_valid (hwinfo : hwInfo_t) (channel : channel_t) : Bool :=
  _ui_freq_check_limits hwinfo channel.rx_frequency &&
  _ui_freq_check_limits hwinfo channel.tx_frequency

/-! ## Helpers of the state machine -/

/-- Loads the channel at `zone_index` (through the active zone when one is
enabled) and returns the storage code (`_ui_fsm_loadChannel`). -/
def _ui_fsm_loadChannel (e : platform_env) (zone_index : Nat) (g : ui_globals) :
    Int × ui_globals :=
  let zone_size := g.state.zone.member.length % 256
  if g.state.zone_enabled ∧ (zone_index ≤ 0 ∨ zone_index > zone_size) then
    (-1, g)
  else
    let channel_index :=
      if g.state.zone_enabled then g.state.zone.member.getD (zone_index - 1) 0
      else zone_index
    let answer := e.nvm_readChannelData channel_index
    if answer.result ≠ -1 ∧ _ui_channel_valid e.hwInfo answer.data = true then
      (answer.result,
       { g with
         state := { g.state with channel_index := zone_index, channel := answer.data }
         sync_rtx := true })
    else
      (answer.result, g)

/-- ENTER on the frequency entry screen (`_ui_fsm_confirmVFOInput`). -/
def _ui_fsm_confirmVFOInput (e : platform_env) (g : ui_globals) : ui_globals :=
  match g.ui_state.input_set with
  | SET_RX =>
    { g with ui_state := { g.ui_state with input_set := SET_TX, input_position := 0 } }
  | SET_TX =>
    let g1 : ui_globals :=
      if g.ui_state.new_tx_frequency = 0 then
        { g with ui_state :=
            { g.ui_state with new_tx_frequency := g.ui_state.new_rx_frequency } }
      else g
    let g2 : ui_globals :=
      if _ui_freq_check_limits e.hwInfo g1.ui_state.new_rx_frequency = true ∧
         _ui_freq_check_limits e.hwInfo g1.ui_state.new_tx_frequency = true then
        { g1 with
          state := { g1.state with channel :=
            { g1.state.channel with
              rx_frequency := g1.ui_state.new_rx_frequency
              tx_frequency := g1.ui_state.new_tx_frequency } }
          sync_rtx := true }
      else g1
    { g2 with state := { g2.state with ui_screen := MAIN_VFO } }

/-- A digit key on the frequency entry screen (`_ui_fsm_insertVFONumber`). -/
def _ui_fsm_insertVFONumber (cfg : build_cfg) (e : platform_env) (msg : kbd_msg_t)
    (g : ui_globals) : ui_globals :=
  let pos := (g.ui_state.input_position + 1) % 256
  let g0 : ui_globals :=
    { g with ui_state :=
        { g.ui_state with input_position := pos, input_number := msg.pressedNumber } }
  match g0.ui_state.input_set with
  | SET_RX =>
    let g1 : ui_globals :=
      if pos = 1 then { g0 with ui_state := { g0.ui_state with new_rx_frequency := 0 } }
      else g0
    let new_rx := _ui_freq_add_digit cfg g1.ui_state.new_rx_frequency pos msg.pressedNumber
    let g2 : ui_globals :=
      { g1 with ui_state := { g1.ui_state with new_rx_frequency := new_rx } }
    if pos ≥ cfg.FREQ_DIGITS then
      { g2 with ui_state :=
          { g2.ui_state with input_set := SET_TX, input_position := 0,
                             new_tx_frequency := 0 } }
    else g2
  | SET_TX =>
    let g1 : ui_globals :=
      if pos = 1 then { g0 with ui_state := { g0.ui_state with new_tx_frequency := 0 } }
      else g0
    let new_tx := _ui_freq_add_digit cfg g1.ui_state.new_tx_frequency pos msg.pressedNumber
    let g2 : ui_globals :=
      { g1 with ui_state := { g1.ui_state with new_tx_frequency := new_tx } }
    if pos ≥ cfg.FREQ_DIGITS then
      let g3 : ui_globals :=
        if _ui_freq_check_limits e.hwInfo g2.ui_state.new_rx_frequency = true ∧
           _ui_freq_check_limits e.hwInfo g2.ui_state.new_tx_frequency = true then
          { g2 with
            state := { g2.state with channel :=
              { g2.state.channel with
                rx_frequency := g2.ui_state.new_rx_frequency
                tx_frequency := g2.ui_state.new_tx_frequency } }
            sync_rtx := true }
        else g2
      { g3 with state := { g3.state with ui_screen := MAIN_VFO } }
    else g2

/-- Saturating change of an 8-bit level by a signed `variation`, the
expression shared by `_ui_changeBrightness` and `_ui_changeContrast`. -/
def level_change (level : Nat) (variation : Int) : Nat :=
  if variation ≥ 0 then
    if 255 - (level : Int) < variation then 255
    else (((level : Int) + variation) % 256).toNat
  else
    if (level : Int) < -variation then 0
    else (((level : Int) + variation) % 256).toNat

/-- Changes the display brightness (`_ui_changeBrightness`). -/
def _ui_changeBrightness (variation : Int) (g : ui_globals) : ui_globals :=
  { g with state := { g.state with settings :=
      { g.state.settings with
        brightness := level_change g.state.settings.brightness variation } } }

/-- Changes the display contrast (`_ui_changeContrast`). -/
def _ui_changeContrast (variation : Int) (g : ui_globals) : ui_globals :=
  { g with state := { g.state with settings :=
      { g.state.settings with
        contrast := level_change g.state.settings.contrast variation } } }

/-- Replaces the active channel (assignments to `state.channel` fields). -/
def set_channel (g : ui_globals) (channel : channel_t) : ui_globals :=
  { g with state := { g.state with channel := channel } }

/-- Digit part of the macro menu: the `switch` of `_ui_fsm_menuMacro`. -/
def menuMacro_number (cfg : build_cfg) (g : ui_globals) : ui_globals :=
  let tone_tx_enable := g.state.channel.fm.txToneEn
  let tone_rx_enable := g.state.channel.fm.rxToneEn
  let tone_flags : Nat :=
    ((if tone_tx_enable then 1 else 0) <<< 1) ||| (if tone_rx_enable then 1 else 0)
  match g.ui_state.input_number with
  | 1 =>
    let txTone := (g.state.channel.fm.txTone + 1) % cfg.fields.tone % cfg.MAX_TONE_INDEX
    { set_channel g { g.state.channel with
        fm := { g.state.channel.fm with txTone := txTone, rxTone := txTone } }
      with sync_rtx := true }
  | 2 =>
    let tone_flags := (tone_flags + 1) % 256 % 4
    { set_channel g { g.state.channel with
        fm := { g.state.channel.fm with
                txToneEn := decide (tone_flags >>> 1 ≠ 0)
                rxToneEn := decide (tone_flags &&& 1 ≠ 0) } }
      with sync_rtx := true }
  | 3 =>
    { set_channel g { g.state.channel with
        power := if g.state.channel.power = 1 then 5 else 1 }
      with sync_rtx := true }
  | 4 =>
    { set_channel g { g.state.channel with
        bandwidth := (g.state.channel.bandwidth + 1) % cfg.fields.bandwidth % 3 }
      with sync_rtx := true }
  | 5 =>
    { set_channel g { g.state.channel with
        mode := if g.state.channel.mode = FM then DMR
                else if g.state.channel.mode = DMR then FM
                else g.state.channel.mode }
      with sync_rtx := true }
  | 7 => _ui_changeBrightness 25 g
  | 8 => _ui_changeBrightness (-25) g
  | _ => g

/-- Squelch part of the macro menu: the `#ifdef HAS_ABSOLUTE_KNOB` block. -/
def menuMacro_squelch (cfg : build_cfg) (e : platform_env) (msg : kbd_msg_t)
    (g : ui_globals) : ui_globals :=
  if cfg.HAS_ABSOLUTE_KNOB then
    if msg.KEY_LEFT ∨ msg.KEY_RIGHT then
      { g with
        state := { g.state with sqlLevel := ((e.chSelector - 1) % 256).toNat }
        sync_rtx := true }
    else g
  else
    if msg.KEY_LEFT ∨ msg.KEY_DOWN then
      { g with
        state := { g.state with sqlLevel :=
          if g.state.sqlLevel = 0 then 0 else (g.state.sqlLevel - 1) % 256 }
        sync_rtx := true }
    else if msg.KEY_RIGHT ∨ msg.KEY_UP then
      { g with
        state := { g.state with sqlLevel :=
          if g.state.sqlLevel = 15 then 15 else (g.state.sqlLevel + 1) % 256 }
        sync_rtx := true }
    else g

/-- Quick settings while MONI is held (`_ui_fsm_menuMacro`). -/
def _ui_fsm_menuMacro (cfg : build_cfg) (e : platform_env) (msg : kbd_msg_t)
    (g : ui_globals) : ui_globals :=
  let g0 : ui_globals :=
    { g with ui_state := { g.ui_state with input_number := msg.pressedNumber } }
  menuMacro_squelch cfg e msg (menuMacro_number cfg g0)

/-- Moves the menu cursor up, wrapping to the last entry (`_ui_menuUp`). -/
def _ui_menuUp (menu_entries : Nat) (g : ui_globals) : ui_globals :=
  if g.ui_state.menu_selected > 0 then
    { g with ui_state :=
        { g.ui_state with menu_selected := g.ui_state.menu_selected - 1 } }
  else
    { g with ui_state :=
        { g.ui_state with menu_selected := (menu_entries + 255) % 256 } }

/-- Moves the menu cursor down, wrapping to the first entry (`_ui_menuDown`). -/
def _ui_menuDown (menu_entries : Nat) (g : ui_globals) : ui_globals :=
  if (g.ui_state.menu_selected : Int) < (menu_entries : Int) - 1 then
    { g with ui_state :=
        { g.ui_state with menu_selected := (g.ui_state.menu_selected + 1) % 256 } }
  else
    { g with ui_state := { g.ui_state with menu_selected := 0 } }

/-- Leaves edit mode, or else returns to `prev_state` (`_ui_menuBack`). -/
def _ui_menuBack (prev_state : uiScreen) (g : ui_globals) : ui_globals :=
  if g.ui_state.edit_mode then
    { g with ui_state := { g.ui_state with edit_mode := false } }
  else
    { g with
      state := { g.state with ui_screen := prev_state }
      ui_state := { g.ui_state with menu_selected := 0 } }

/-! ## Menu tables -/

/-- Number of entries of `menu_items`. -/
def menu_num (cfg : build_cfg) : Nat := if cfg.HAS_GPS then 7 else 6

/-- Number of entries of `settings_items`. -/
def settings_num (cfg : build_cfg) : Nat :=
  1 + (if cfg.HAS_RTC then 1 else 0) + (if cfg.HAS_GPS then 1 else 0)

/-- Number of entries of `display_items`. -/
def display_num (cfg : build_cfg) : Nat := if cfg.SCREEN_CONTRAST then 2 else 1

/-- Number of entries of `settings_gps_items`. -/
def settings_gps_num : Nat := 3

/-- Number of entries of `info_items`. -/
def info_num : Nat := 9

/-- Index of "Zone" in `menu_items`. -/
def M_ZONE : Nat := 0

/-- Index of "Channels" in `menu_items`. -/
def M_CHANNEL : Nat := 1

/-- Index of "Contacts" in `menu_items`. -/
def M_CONTACTS : Nat := 2

/-- Index of "GPS" in `menu_items` (present with `HAS_GPS` only). -/
def M_GPS : Nat := 3

/-- Index of "Settings" in `menu_items`. -/
def M_SETTINGS (cfg : build_cfg) : Nat := if cfg.HAS_GPS then 4 else 3

/-- Index of "Info" in `menu_items`. -/
def M_INFO (cfg : build_cfg) : Nat := M_SETTINGS cfg + 1

/-- Index of "About" in `menu_items`. -/
def M_ABOUT (cfg : build_cfg) : Nat := M_SETTINGS cfg + 2

/-- Index of "Display" in `settings_items`. -/
def S_DISPLAY : Nat := 0

/-- Index of "Time & Date" in `settings_items` (present with `HAS_RTC` only). -/
def S_TIMEDATE : Nat := 1

/-- Index of "GPS" in `settings_items` (present with `HAS_GPS` only). -/
def S_GPS (cfg : build_cfg) : Nat := if cfg.HAS_RTC then 2 else 1

/-- Index of "Brightness" in `display_items`. -/
def D_BRIGHTNESS : Nat := 0

/-- Index of "Contrast" in `display_items` (with `SCREEN_CONTRAST` only). -/
def D_CONTRAST : Nat := 1

/-- Index of "GPS Enabled" in `settings_gps_items`. -/
def G_ENABLED : Nat := 0

/-- Index of "GPS Set Time" in `settings_gps_items`. -/
def G_SET_TIME : Nat := 1

/-- Index of "UTC Timezone" in `settings_gps_items`. -/
def G_TIMEZONE : Nat := 2

/-- Stores an `int` into the signed 8-bit `utc_timezone`. -/
def int8_store (x : Int) : Int := (x + 128) % 256 - 128

/-- Sets `state.ui_screen`. -/
def set_screen (g : ui_globals) (screen : uiScreen) : ui_globals :=
  { g with state := { g.state with ui_screen := screen } }

/-! ## The state machine, one definition per `case` of `ui_updateFSM` -/

/-- The sum `freq + 12500` computed on a `freq_t`: one 12.5 kHz step up. -/
def freq_step_up (freq : Nat) : Nat := (freq + 12500) % 2 ^ 32

/-- The difference `freq - 12500` computed on a `freq_t`: one 12.5 kHz step
down, wrapping below zero. -/
def freq_step_down (freq : Nat) : Nat := (freq + (2 ^ 32 - 12500)) % 2 ^ 32

/-- Screen `MAIN_VFO`. -/
def case_MAIN_VFO (cfg : build_cfg) (e : platform_env) (msg : kbd_msg_t)
    (g : ui_globals) : ui_globals :=
  if msg.KEY_UP then
    let rx := freq_step_up g.state.channel.rx_frequency
    let tx := freq_step_up g.state.channel.tx_frequency
    if _ui_freq_check_limits e.hwInfo rx = true ∧
       _ui_freq_check_limits e.hwInfo tx = true then
      { set_channel g { g.state.channel with rx_frequency := rx, tx_frequency := tx }
        with sync_rtx := true }
    else g
  else if msg.KEY_DOWN then
    let rx := freq_step_down g.state.channel.rx_frequency
    let tx := freq_step_down g.state.channel.tx_frequency
    if _ui_freq_check_limits e.hwInfo rx = true ∧
       _ui_freq_check_limits e.hwInfo tx = true then
      { set_channel g { g.state.channel with rx_frequency := rx, tx_frequency := tx }
        with sync_rtx := true }
    else g
  else if msg.KEY_ENTER then
    let g1 : ui_globals :=
      { g with ui_state := { g.ui_state with last_main_state := g.state.ui_screen } }
    set_screen g1 MENU_TOP
  else if msg.KEY_ESC then
    let g1 : ui_globals := { g with state := { g.state with vfo_channel := g.state.channel } }
    let r := _ui_fsm_loadChannel e g1.state.channel_index g1
    if r.1 ≠ -1 then set_screen r.2 MAIN_MEM else r.2
  else if msg.isNumberPressed then
    let g1 := set_screen g MAIN_VFO_INPUT
    let new_rx := _ui_freq_add_digit cfg 0 1 msg.pressedNumber
    { g1 with ui_state :=
        { g1.ui_state with
          input_position := 1
          input_set := SET_RX
          new_tx_frequency := 0
          input_number := msg.pressedNumber
          new_rx_frequency := new_rx } }
  else g

/-- Screen `MAIN_VFO_INPUT`. -/
def case_MAIN_VFO_INPUT (cfg : build_cfg) (e : platform_env) (msg : kbd_msg_t)
    (g : ui_globals) : ui_globals :=
  if msg.KEY_ENTER then _ui_fsm_confirmVFOInput e g
  else if msg.KEY_ESC then set_screen g MAIN_VFO
  else if msg.KEY_UP ∨ msg.KEY_DOWN then
    let input_set :=
      match g.ui_state.input_set with
      | SET_RX => SET_TX
      | SET_TX => SET_RX
    { g with ui_state := { g.ui_state with input_set := input_set, input_position := 0 } }
  else if msg.isNumberPressed then _ui_fsm_insertVFONumber cfg e msg g
  else g

/-- Screen `MAIN_MEM`. -/
def case_MAIN_MEM (e : platform_env) (msg : kbd_msg_t) (g : ui_globals) : ui_globals :=
  if msg.KEY_ENTER then
    let g1 : ui_globals :=
      { g with ui_state := { g.ui_state with last_main_state := g.state.ui_screen } }
    set_screen g1 MENU_TOP
  else if msg.KEY_ESC then
    let g1 : ui_globals :=
      { g with state := { g.state with channel := g.state.vfo_channel }, sync_rtx := true }
    set_screen g1 MAIN_VFO
  else if msg.KEY_UP then
    (_ui_fsm_loadChannel e ((g.state.channel_index + 1) % 65536) g).2
  else if msg.KEY_DOWN then
    (_ui_fsm_loadChannel e ((g.state.channel_index + 65535) % 65536) g).2
  else g

/-- The `switch` on the selected entry of the top menu. -/
def menu_top_screen (cfg : build_cfg) (selected : Nat) (current : uiScreen) : uiScreen :=
  if selected = M_ZONE then MENU_ZONE
  else if selected = M_CHANNEL then MENU_CHANNEL
  else if selected = M_CONTACTS then MENU_CONTACTS
  else if cfg.HAS_GPS = true ∧ selected = M_GPS then MENU_GPS
  else if selected = M_SETTINGS cfg then MENU_SETTINGS
  else if selected = M_INFO cfg then MENU_INFO
  else if selected = M_ABOUT cfg then MENU_ABOUT
  else current

/-- Screen `MENU_TOP`. -/
def case_MENU_TOP (cfg : build_cfg) (msg : kbd_msg_t) (g : ui_globals) : ui_globals :=
  if msg.KEY_UP then _ui_menuUp (menu_num cfg) g
  else if msg.KEY_DOWN then _ui_menuDown (menu_num cfg) g
  else if msg.KEY_ENTER then
    let g1 := set_screen g (menu_top_screen cfg g.ui_state.menu_selected g.state.ui_screen)
    { g1 with ui_state := { g1.ui_state with menu_selected := 0 } }
  else if msg.KEY_ESC then _ui_menuBack g.ui_state.last_main_state g
  else g

/-- Cursor increment shared by the three list screens. -/
def menu_advance (g : ui_globals) : ui_globals :=
  { g with ui_state :=
      { g.ui_state with menu_selected := (g.ui_state.menu_selected + 1) % 256 } }

/-- DOWN on `MENU_ZONE`, `MENU_CHANNEL`, `MENU_CONTACTS`: probe the next record. -/
def menu_list_down (e : platform_env) (g : ui_globals) : ui_globals :=
  if g.state.ui_screen = MENU_ZONE then
    if (e.nvm_readZoneData (g.ui_state.menu_selected + 1)).result ≠ -1 then menu_advance g
    else g
  else if g.state.ui_screen = MENU_CHANNEL then
    if (e.nvm_readChannelData (g.ui_state.menu_selected + 2)).result ≠ -1 then menu_advance g
    else g
  else if g.state.ui_screen = MENU_CONTACTS then
    if e.nvm_readContactData (g.ui_state.menu_selected + 2) ≠ -1 then menu_advance g
    else g
  else g

/-- Saves the active channel as VFO channel when the menu was opened from
`MAIN_VFO`. -/
def save_vfo_channel (g : ui_globals) : ui_globals :=
  if g.ui_state.last_main_state = MAIN_VFO then
    { g with state := { g.state with vfo_channel := g.state.channel } }
  else g

/-- ENTER on `MENU_ZONE`: the first `if` of the ENTER branch. -/
def menu_zone_enter (e : platform_env) (g : ui_globals) : ui_globals :=
  let answer : nvm_answer zone_t :=
    if g.ui_state.menu_selected = 0 then { result := 0, data := e.newzone_init }
    else e.nvm_readZoneData g.ui_state.menu_selected
  let g1 : ui_globals :=
    { g with state :=
        { g.state with zone_enabled := decide (g.ui_state.menu_selected ≠ 0) } }
  if answer.result ≠ -1 then
    let g2 : ui_globals := { g1 with state := { g1.state with zone := answer.data } }
    let g3 := save_vfo_channel g2
    set_screen (_ui_fsm_loadChannel e 1 g3).2 MAIN_MEM
  else g1

/-- ENTER on `MENU_CHANNEL`: the second `if` of the ENTER branch. -/
def menu_channel_enter (e : platform_env) (g : ui_globals) : ui_globals :=
  let g1 := save_vfo_channel g
  set_screen (_ui_fsm_loadChannel e (g1.ui_state.menu_selected + 1) g1).2 MAIN_MEM

/-- Screens `MENU_ZONE`, `MENU_CHANNEL` and `MENU_CONTACTS`. -/
def case_MENU_LIST (e : platform_env) (msg : kbd_msg_t) (g : ui_globals) : ui_globals :=
  if msg.KEY_UP then _ui_menuUp 1 g
  else if msg.KEY_DOWN then menu_list_down e g
  else if msg.KEY_ENTER then
    let g1 := if g.state.ui_screen = MENU_ZONE then menu_zone_enter e g else g
    if g1.state.ui_screen = MENU_CHANNEL then menu_channel_enter e g1 else g1
  else if msg.KEY_ESC then _ui_menuBack MENU_TOP g
  else g

/-- Screens `MENU_GPS` and `MENU_ABOUT`: only ESC is handled. -/
def case_MENU_ESC_ONLY (msg : kbd_msg_t) (g : ui_globals) : ui_globals :=
  if msg.KEY_ESC then _ui_menuBack MENU_TOP g else g

/-- The `switch` on the selected entry of the settings menu. -/
def menu_settings_screen (cfg : build_cfg) (selected : Nat) : uiScreen :=
  if selected = S_DISPLAY then SETTINGS_DISPLAY
  else if cfg.HAS_RTC = true ∧ selected = S_TIMEDATE then SETTINGS_TIMEDATE
  else if cfg.HAS_GPS = true ∧ selected = S_GPS cfg then SETTINGS_GPS
  else MENU_SETTINGS

/-- Screen `MENU_SETTINGS`. -/
def case_MENU_SETTINGS (cfg : build_cfg) (msg : kbd_msg_t) (g : ui_globals) : ui_globals :=
  if msg.KEY_UP then _ui_menuUp (settings_num cfg) g
  else if msg.KEY_DOWN then _ui_menuDown (settings_num cfg) g
  else if msg.KEY_ENTER then
    let g1 := set_screen g (menu_settings_screen cfg g.ui_state.menu_selected)
    { g1 with ui_state := { g1.ui_state with menu_selected := 0 } }
  else if msg.KEY_ESC then _ui_menuBack MENU_TOP g
  else g

/-- Screen `MENU_INFO`. -/
def case_MENU_INFO (msg : kbd_msg_t) (g : ui_globals) : ui_globals :=
  if msg.KEY_UP then _ui_menuUp info_num g
  else if msg.KEY_DOWN then _ui_menuDown info_num g
  else if msg.KEY_ESC then _ui_menuBack MENU_TOP g
  else g

/-- All-zero time and date (`memset` of `new_timedate`). -/
def curTime_zero : curTime_t :=
  { hour := 0, minute := 0, second := 0, day := 0, date := 0, month := 0, year := 0 }

/-- Screen `SETTINGS_TIMEDATE` (with `HAS_RTC`). -/
def case_SETTINGS_TIMEDATE (msg : kbd_msg_t) (g : ui_globals) : ui_globals :=
  if msg.KEY_ENTER then
    let g1 := set_screen g SETTINGS_TIMEDATE_SET
    { g1 with ui_state :=
        { g1.ui_state with input_position := 0, new_timedate := curTime_zero } }
  else if msg.KEY_ESC then _ui_menuBack MENU_SETTINGS g
  else g

/-- Screen `SETTINGS_TIMEDATE_SET` (with `HAS_RTC`). -/
def case_SETTINGS_TIMEDATE_SET (cfg : build_cfg) (e : platform_env) (msg : kbd_msg_t)
    (g : ui_globals) : ui_globals :=
  if msg.KEY_ENTER then
    if g.ui_state.input_position < cfg.TIMEDATE_DIGITS then g
    else
      let utc_time := e.state_getUTCTime g.ui_state.new_timedate
      set_screen { g with state := { g.state with time := utc_time } } SETTINGS_TIMEDATE
  else if msg.KEY_ESC then _ui_menuBack SETTINGS_TIMEDATE g
  else if msg.isNumberPressed then
    if g.ui_state.input_position > cfg.TIMEDATE_DIGITS then g
    else
      let pos := (g.ui_state.input_position + 1) % 256
      let timedate := _ui_timedate_add_digit cfg g.ui_state.new_timedate pos msg.pressedNumber
      { g with ui_state :=
          { g.ui_state with
            input_position := pos
            input_number := msg.pressedNumber
            new_timedate := timedate } }
  else g

/-- The `switch` of `SETTINGS_DISPLAY` applied with the steps `brightness`
and `contrast`; its `default` re-assigns the current screen. -/
def display_adjust (cfg : build_cfg) (brightness contrast : Int) (g : ui_globals) :
    ui_globals :=
  if g.ui_state.menu_selected = D_BRIGHTNESS then _ui_changeBrightness brightness g
  else if cfg.SCREEN_CONTRAST = true ∧ g.ui_state.menu_selected = D_CONTRAST then
    _ui_changeContrast contrast g
  else set_screen g SETTINGS_DISPLAY

/-- Screen `SETTINGS_DISPLAY`. -/
def case_SETTINGS_DISPLAY (cfg : build_cfg) (msg : kbd_msg_t) (g : ui_globals) :
    ui_globals :=
  if msg.KEY_LEFT ∨ (msg.KEY_DOWN ∧ g.ui_state.edit_mode) then
    display_adjust cfg (-25) (-4) g
  else if msg.KEY_RIGHT ∨ (msg.KEY_UP ∧ g.ui_state.edit_mode) then
    display_adjust cfg 25 4 g
  else if msg.KEY_UP then _ui_menuUp (display_num cfg) g
  else if msg.KEY_DOWN then _ui_menuDown (display_num cfg) g
  else if msg.KEY_ENTER then
    { g with ui_state := { g.ui_state with edit_mode := !g.ui_state.edit_mode } }
  else if msg.KEY_ESC then _ui_menuBack MENU_SETTINGS g
  else g

/-- Replaces `state.settings`. -/
def set_settings (g : ui_globals) (settings : settings_t) : ui_globals :=
  { g with state := { g.state with settings := settings } }

/-- The `switch` of `SETTINGS_GPS` on the selected entry. -/
def gps_adjust (msg : kbd_msg_t) (g : ui_globals) : ui_globals :=
  if g.ui_state.menu_selected = G_ENABLED then
    set_settings g { g.state.settings with gps_enabled := !g.state.settings.gps_enabled }
  else if g.ui_state.menu_selected = G_SET_TIME then
    set_settings g { g.state.settings with gps_set_time := !g.state.settings.gps_set_time }
  else if g.ui_state.menu_selected = G_TIMEZONE then
    if msg.KEY_LEFT ∨ msg.KEY_UP then
      set_settings g { g.state.settings with
        utc_timezone := int8_store (g.state.settings.utc_timezone - 1) }
    else if msg.KEY_RIGHT ∨ msg.KEY_DOWN then
      set_settings g { g.state.settings with
        utc_timezone := int8_store (g.state.settings.utc_timezone + 1) }
    else g
  else set_screen g SETTINGS_GPS

/-- Screen `SETTINGS_GPS` (with `HAS_GPS`). -/
def case_SETTINGS_GPS (msg : kbd_msg_t) (g : ui_globals) : ui_globals :=
  if msg.KEY_LEFT ∨ msg.KEY_RIGHT ∨
     ((msg.KEY_UP ∨ msg.KEY_DOWN) ∧ g.ui_state.edit_mode) then
    gps_adjust msg g
  else if msg.KEY_UP then _ui_menuUp settings_gps_num g
  else if msg.KEY_DOWN then _ui_menuDown settings_gps_num g
  else if msg.KEY_ENTER then
    { g with ui_state := { g.ui_state with edit_mode := !g.ui_state.edit_mode } }
  else if msg.KEY_ESC then _ui_menuBack MENU_SETTINGS g
  else g

/-- The `switch (state.ui_screen)` of `ui_updateFSM`; screens of features that
are compiled out, and `LOW_BAT`, have no `case`. -/
def fsm_dispatch (cfg : build_cfg) (e : platform_env) (msg : kbd_msg_t)
    (g : ui_globals) : ui_globals :=
  match g.state.ui_screen with
  | MAIN_VFO => case_MAIN_VFO cfg e msg g
  | MAIN_VFO_INPUT => case_MAIN_VFO_INPUT cfg e msg g
  | MAIN_MEM => case_MAIN_MEM e msg g
  | MENU_TOP => case_MENU_TOP cfg msg g
  | MENU_ZONE => case_MENU_LIST e msg g
  | MENU_CHANNEL => case_MENU_LIST e msg g
  | MENU_CONTACTS => case_MENU_LIST e msg g
  | MENU_GPS => if cfg.HAS_GPS then case_MENU_ESC_ONLY msg g else g
  | MENU_SETTINGS => case_MENU_SETTINGS cfg msg g
  | MENU_INFO => case_MENU_INFO msg g
  | MENU_ABOUT => case_MENU_ESC_ONLY msg g
  | SETTINGS_TIMEDATE => if cfg.HAS_RTC then case_SETTINGS_TIMEDATE msg g else g
  | SETTINGS_TIMEDATE_SET =>
    if cfg.HAS_RTC then case_SETTINGS_TIMEDATE_SET cfg e msg g else g
  | SETTINGS_DISPLAY => case_SETTINGS_DISPLAY cfg msg g
  | SETTINGS_GPS => if cfg.HAS_GPS then case_SETTINGS_GPS msg g else g
  | LOW_BAT => g

/-- The low-battery test of `ui_updateFSM`. -/
def low_battery (e : platform_env) (g : ui_globals) : Bool :=
  !g.state.emergency && !e.pttStatus && decide (g.state.charge ≤ 0)

/-- One event of the user interface state machine (`ui_updateFSM`). -/
def ui_updateFSM (cfg : build_cfg) (e : platform_env) (event : event_t)
    (g : ui_globals) : ui_globals :=
  if !e.pwrButtonStatus then g
  else if low_battery e g then
    let g1 := set_screen g LOW_BAT
    if event.type = EVENT_KBD ∧ event.payload.value ≠ 0 then
      { g1 with state := { g1.state with ui_screen := MAIN_VFO, emergency := true } }
    else g1
  else if event.type = EVENT_KBD then
    let msg := event.payload
    if msg.KEY_MONI then
      _ui_fsm_menuMacro cfg e msg { g with macro_menu := true }
    else
      fsm_dispatch cfg e msg { g with macro_menu := false }
  else g

/-- The `ui_state` after `ui_init`: every field zero. -/
def ui_state_zero : ui_state_t :=
  { menu_selected := 0, input_number := 0, input_position := 0, input_set := SET_RX,
    last_main_state := MAIN_VFO, new_rx_frequency := 0, new_tx_frequency := 0,
    new_timedate := curTime_zero, edit_mode := false }

/-- Processes a list of events, each with the answers of its collaborators. -/
def ui_run (cfg : build_cfg) (events : List (platform_env × event_t)) (g : ui_globals) :
    ui_globals :=
  events.foldl (fun acc x => ui_updateFSM cfg x.1 x.2 acc) g

/-! ## Layout -/

/-- Font sizes used by the layout; `FONT_ZERO` is the enumeration value 0 that
the source writes for the rows a display does not have. -/
inductive fontSize_t where
  | FONT_ZERO
  | FONT_SIZE_6PT
  | FONT_SIZE_8PT
  | FONT_SIZE_10PT
  | FONT_SIZE_12PT
  | FONT_SIZE_16PT
  deriving DecidableEq, Repr

open fontSize_t

/-- A print position. -/
structure point_t where
  x : Nat
  y : Nat
  deriving DecidableEq, Repr

/-- The constants chosen by the `#if SCREEN_HEIGHT` block of
`_ui_calculateLayout`. -/
structure layout_consts where
  top_h : Nat
  top_pad : Nat
  line1_h : Nat
  line2_h : Nat
  line3_h : Nat
  menu_h : Nat
  bottom_h : Nat
  bottom_pad : Nat
  status_v_pad : Nat
  small_line_v_pad : Nat
  big_line_v_pad : Nat
  horizontal_pad : Nat
  top_font : fontSize_t
  line1_font : fontSize_t
  line2_font : fontSize_t
  line3_font : fontSize_t
  bottom_font : fontSize_t
  input_font : fontSize_t
  menu_font : fontSize_t
  deriving DecidableEq, Repr

/-- The layout record returned by `_ui_calculateLayout`. -/
structure layout_t where
  hline_h : Nat
  top_h : Nat
  line1_h : Nat
  line2_h : Nat
  line3_h : Nat
  menu_h : Nat
  bottom_h : Nat
  status_v_pad : Nat
  horizontal_pad : Nat
  text_v_offset : Nat
  top_pos : point_t
  line1_pos : point_t
  line2_pos : point_t
  line3_pos : point_t
  bottom_pos : point_t
  top_font : fontSize_t
  line1_font : fontSize_t
  line2_font : fontSize_t
  line3_font : fontSize_t
  bottom_font : fontSize_t
  input_font : fontSize_t
  menu_font : fontSize_t
  deriving DecidableEq, Repr

/-- The three geometry classes of `_ui_calculateLayout`; `none` is the
`#error` branch for an unsupported vertical resolution. -/
def layout_constants (SCREEN_HEIGHT : Nat) : Option layout_consts :=
  if SCREEN_HEIGHT > 127 then
    some { top_h := 16, top_pad := 4, line1_h := 20, line2_h := 20, line3_h := 40,
           menu_h := 16, bottom_h := 20, bottom_pad := 4, status_v_pad := 2,
           small_line_v_pad := 2, big_line_v_pad := 6, horizontal_pad := 4,
           top_font := FONT_SIZE_8PT, line1_font := FONT_SIZE_8PT,
           line2_font := FONT_SIZE_8PT, line3_font := FONT_SIZE_16PT,
           bottom_font := FONT_SIZE_8PT, input_font := FONT_SIZE_12PT,
           menu_font := FONT_SIZE_8PT }
  else if SCREEN_HEIGHT > 63 then
    some { top_h := 11, top_pad := 1, line1_h := 10, line2_h := 10, line3_h := 16,
           menu_h := 10, bottom_h := 8, bottom_pad := 0, status_v_pad := 1,
           small_line_v_pad := 1, big_line_v_pad := 0, horizontal_pad := 4,
           top_font := FONT_SIZE_6PT, line1_font := FONT_SIZE_6PT,
           line2_font := FONT_SIZE_6PT, line3_font := FONT_SIZE_10PT,
           bottom_font := FONT_SIZE_6PT, input_font := FONT_SIZE_8PT,
           menu_font := FONT_SIZE_6PT }
  else if SCREEN_HEIGHT > 47 then
    some { top_h := 11, top_pad := 1, line1_h := 0, line2_h := 10, line3_h := 18,
           menu_h := 10, bottom_h := 0, bottom_pad := 0, status_v_pad := 1,
           small_line_v_pad := 1, big_line_v_pad := 0, horizontal_pad := 4,
           top_font := FONT_SIZE_6PT, line1_font := FONT_ZERO,
           line2_font := FONT_SIZE_6PT, line3_font := FONT_SIZE_12PT,
           bottom_font := FONT_ZERO, input_font := FONT_SIZE_8PT,
           menu_font := FONT_SIZE_6PT }
  else none

/-- Row heights, print positions and fonts for a display of `SCREEN_HEIGHT`
rows (`_ui_calculateLayout`). The coordinates of a `point_t` are stored in
fields of a fixed width, which hold values below `point_mod` (256 for 8-bit
coordinates): each coordinate computed in `int` is reduced modulo
`point_mod` by the store. -/
def _ui_calculateLayout (point_mod SCREEN_HEIGHT : Nat) : Option layout_t :=
  let hline_h := 1
  let text_v_offset := 1
  match layout_constants SCREEN_HEIGHT with
  | none => none
  | some c =>
    some
      { hline_h := hline_h
        top_h := c.top_h
        line1_h := c.line1_h
        line2_h := c.line2_h
        line3_h := c.line3_h
        menu_h := c.menu_h
        bottom_h := c.bottom_h
        status_v_pad := c.status_v_pad
        horizontal_pad := c.horizontal_pad
        text_v_offset := text_v_offset
        top_pos :=
          { x := c.horizontal_pad % point_mod
            y := (c.top_h - c.status_v_pad - text_v_offset) % point_mod }
        line1_pos :=
          { x := c.horizontal_pad % point_mod
            y := (c.top_h + c.top_pad + c.line1_h - c.small_line_v_pad - text_v_offset) %
                 point_mod }
        line2_pos :=
          { x := c.horizontal_pad % point_mod
            y := (c.top_h + c.top_pad + c.line1_h + c.line2_h - c.small_line_v_pad -
                  text_v_offset) % point_mod }
        line3_pos :=
          { x := c.horizontal_pad % point_mod
            y := (c.top_h + c.top_pad + c.line1_h + c.line2_h + c.line3_h -
                  c.big_line_v_pad - text_v_offset) % point_mod }
        bottom_pos :=
          { x := c.horizontal_pad % point_mod
            y := (SCREEN_HEIGHT - c.bottom_pad - c.status_v_pad - text_v_offset) %
                 point_mod }
        top_font := c.top_font
        line1_font := c.line1_font
        line2_font := c.line2_font
        line3_font := c.line3_font
        bottom_font := c.bottom_font
        input_font := c.input_font
        menu_font := c.menu_font }

/-! ## Vocabulary of the statements -/

/-- Value built by `_ui_freq_add_digit` from `freq` when the digits of the
list are entered at positions `pos`, `pos + 1`, ... -/
def freq_entry_from (cfg : build_cfg) : Nat → Nat → List Nat → Nat
  | freq, _, [] => freq
  | freq, pos, d :: ds => freq_entry_from cfg (_ui_freq_add_digit cfg freq pos d) (pos + 1) ds

/-- Value built by `_ui_freq_add_digit` from 0 for digits entered at
positions 1, 2, ... -/
def freq_entry (cfg : build_cfg) (digits : List Nat) : Nat :=
  freq_entry_from cfg 0 1 digits

/-- A digit list read as a base-10 number, most significant digit first. -/
def decimal_value (digits : List Nat) : Nat :=
  digits.foldl (fun acc d => acc * 10 + d) 0

/-- The power and battery checks at the head of `ui_updateFSM` both pass. -/
def checks_pass (e : platform_env) (g : ui_globals) : Prop :=
  e.pwrButtonStatus = true ∧ low_battery e g = false

instance (e : platform_env) (g : ui_globals) : Decidable (checks_pass e g) := by
  unfold checks_pass; infer_instance

/-- A key message that reaches the digit branch of `MAIN_VFO` and of
`MAIN_VFO_INPUT`: a number key and none of UP, DOWN, ENTER, ESC, MONI. -/
def is_digit_key (msg : kbd_msg_t) : Prop :=
  msg.isNumberPressed = true ∧ msg.KEY_UP = false ∧ msg.KEY_DOWN = false ∧
  msg.KEY_ENTER = false ∧ msg.KEY_ESC = false ∧ msg.KEY_MONI = false

instance (msg : kbd_msg_t) : Decidable (is_digit_key msg) := by
  unfold is_digit_key; infer_instance

/-- A key message with ESC and no other navigation or MONI key. -/
def is_esc_key (msg : kbd_msg_t) : Prop :=
  msg.KEY_ESC = true ∧ msg.KEY_UP = false ∧ msg.KEY_DOWN = false ∧
  msg.KEY_LEFT = false ∧ msg.KEY_RIGHT = false ∧ msg.KEY_ENTER = false ∧
  msg.KEY_MONI = false

instance (msg : kbd_msg_t) : Decidable (is_esc_key msg) := by
  unfold is_esc_key; infer_instance

/-- Both frequencies of the active channel and of the VFO channel pass
`_ui_freq_check_limits`. -/
def band_valid (hwinfo : hwInfo_t) (g : ui_globals) : Prop :=
  _ui_freq_check_limits hwinfo g.state.channel.rx_frequency = true ∧
  _ui_freq_check_limits hwinfo g.state.channel.tx_frequency = true ∧
  _ui_freq_check_limits hwinfo g.state.vfo_channel.rx_frequency = true ∧
  _ui_freq_check_limits hwinfo g.state.vfo_channel.tx_frequency = true

instance (hwinfo : hwInfo_t) (g : ui_globals) : Decidable (band_valid hwinfo g) := by
  unfold band_valid; infer_instance

/-- Either the channel, the squelch level and the resync flag are untouched,
or the resync flag is raised. -/
def sync_ok (g g1 : ui_globals) : Prop :=
  (g1.state.channel = g.state.channel ∧ g1.state.sqlLevel = g.state.sqlLevel ∧
    g1.sync_rtx = g.sync_rtx) ∨
  g1.sync_rtx = true

instance (g g1 : ui_globals) : Decidable (sync_ok g g1) := by
  unfold sync_ok; infer_instance

/-- What every step of the state machine guarantees under the band limits
`hwinfo`: the resync rule, and band validity of both channels is kept. -/
def step_ok (hwinfo : hwInfo_t) (g g1 : ui_globals) : Prop :=
  sync_ok g g1 ∧ (band_valid hwinfo g → band_valid hwinfo g1)

/-- Progress of a frequency entry started from `g0`: `g` is on
`MAIN_VFO_INPUT` with the given target, position and pending values, and the
channel, the battery inputs and the resync flag are those of `g0`. -/
def entry_at (g0 g : ui_globals) (set : SetRxTx) (pos rx tx : Nat) : Prop :=
  g.state.ui_screen = MAIN_VFO_INPUT ∧ g.ui_state.input_set = set ∧
  g.ui_state.input_position = pos ∧ g.ui_state.new_rx_frequency = rx ∧
  g.ui_state.new_tx_frequency = tx ∧ g.state.channel = g0.state.channel ∧
  g.state.emergency = g0.state.emergency ∧ g.state.charge = g0.state.charge ∧
  g.sync_rtx = g0.sync_rtx

instance (g0 g : ui_globals) (set : SetRxTx) (pos rx tx : Nat) :
    Decidable (entry_at g0 g set pos rx tx) := by
  unfold entry_at; infer_instance

/-- A run of macro-menu key events (`_ui_fsm_menuMacro` once per message). -/
def macro_run (cfg : build_cfg) (events : List (platform_env × kbd_msg_t))
    (g : ui_globals) : ui_globals :=
  events.foldl (fun acc x => _ui_fsm_menuMacro cfg x.1 x.2 acc) g

/-- The value the digits of the list give when entered at positions `pos`,
`pos + 1`, ... on top of `freq`, computed in unbounded arithmetic: each digit
weighs `10 ^ (FREQ_DIGITS - pos + 1)`. -/
def freq_exact_from (cfg : build_cfg) : Nat → Nat → List Nat → Nat
  | freq, _, [] => freq
  | freq, pos, d :: ds =>
    freq_exact_from cfg (freq + d * 10 ^ (cfg.FREQ_DIGITS - pos + 1)) (pos + 1) ds

/-- The last main screen remembered by the menu is `MAIN_VFO` or `MAIN_MEM`. -/
def main_inv (g : ui_globals) : Prop :=
  g.ui_state.last_main_state = MAIN_VFO ∨ g.ui_state.last_main_state = MAIN_MEM

instance (g : ui_globals) : Decidable (main_inv g) := by
  unfold main_inv; infer_instance

/-- On `MAIN_VFO_INPUT` the entry position is below `FREQ_DIGITS`. -/
def entry_inv (cfg : build_cfg) (g : ui_globals) : Prop :=
  g.state.ui_screen = MAIN_VFO_INPUT → g.ui_state.input_position < cfg.FREQ_DIGITS

instance (cfg : build_cfg) (g : ui_globals) : Decidable (entry_inv cfg g) := by
  unfold entry_inv; infer_instance

/-- What the per-screen dispatch and the macro menu leave alone or preserve:
the emergency flag, the charge, the macro-menu flag, the remembered main
screen being a main screen, the screen not being `LOW_BAT`, and the bound on
the entry position. -/
def frame_ok (cfg : build_cfg) (g g1 : ui_globals) : Prop :=
  g1.state.emergency = g.state.emergency ∧ g1.state.charge = g.state.charge ∧
  g1.macro_menu = g.macro_menu ∧
  (main_inv g → main_inv g1) ∧
  (main_inv g → g.state.ui_screen ≠ LOW_BAT → g1.state.ui_screen ≠ LOW_BAT) ∧
  (2 ≤ cfg.FREQ_DIGITS → cfg.FREQ_DIGITS ≤ 255 → main_inv g → entry_inv cfg g →
    entry_inv cfg g1)

/-- States the user interface can be in: after `ui_init` on `MAIN_VFO`, after
any event with any answers of the collaborators, after the battery monitor
changed the charge, and after the caller cleared or set the resync flag. -/
inductive reachable (cfg : build_cfg) : ui_globals → Prop where
  | init (s : state_t) (sync : Bool) (h : s.ui_screen = MAIN_VFO) :
      reachable cfg
        { state := s, ui_state := ui_state_zero, macro_menu := false, sync_rtx := sync }
  | event (g : ui_globals) (e : platform_env) (event : event_t) (h : reachable cfg g) :
      reachable cfg (ui_updateFSM cfg e event g)
  | battery (g : ui_globals) (charge : Int) (h : reachable cfg g) :
      reachable cfg { g with state := { g.state with charge := charge } }
  | resync (g : ui_globals) (sync : Bool) (h : reachable cfg g) :
      reachable cfg { g with sync_rtx := sync }

/-! ## Concrete values -/

/-- Band limits set by `platform_init` of the Linux target. -/
def linux_hwInfo : hwInfo_t :=
  { vhf_maxFreq := 174, vhf_minFreq := 136, vhf_band := true,
    uhf_maxFreq := 480, uhf_minFreq := 400, uhf_band := true }

/-- Band limits of a radio whose UHF range starts where its VHF range ends. -/
def adjacent_hwInfo : hwInfo_t :=
  { vhf_maxFreq := 174, vhf_minFreq := 136, vhf_band := true,
    uhf_maxFreq := 480, uhf_minFreq := 174, uhf_band := true }

/-- A description with only VHF reported, its two bounds swapped. -/
def swapped_hwInfo : hwInfo_t :=
  { vhf_maxFreq := 136, vhf_minFreq := 174, vhf_band := true,
    uhf_maxFreq := 0, uhf_minFreq := 0, uhf_band := false }

/-- A build with 8 frequency digits, RTC, no GPS, no contrast, no knob. -/
def demo_cfg : build_cfg :=
  { FREQ_DIGITS := 8, TIMEDATE_DIGITS := 10, MAX_TONE_INDEX := 50,
    HAS_GPS := false, HAS_RTC := true, SCREEN_CONTRAST := false,
    HAS_ABSOLUTE_KNOB := false,
    fields := { tone := 128, bandwidth := 4, date := 32, month := 16, year := 128,
                hour := 32, minute := 64 } }

/-- A 70 cm simplex channel. -/
def demo_channel : channel_t :=
  { mode := FM, bandwidth := 0, power := 1, rx_frequency := 430000000,
    tx_frequency := 430000000,
    fm := { rxToneEn := false, rxTone := 0, txToneEn := false, txTone := 0 } }

/-- An empty zone. -/
def demo_zone : zone_t := { name := [], member := [] }

/-- Linux platform, power on, no transmission, empty storage. -/
def demo_env : platform_env :=
  { pwrButtonStatus := true, pttStatus := false, chSelector := 0,
    hwInfo := linux_hwInfo,
    nvm_readChannelData := fun _ => { result := -1, data := demo_channel },
    nvm_readZoneData := fun _ => { result := -1, data := demo_zone },
    nvm_readContactData := fun _ => -1,
    state_getUTCTime := fun t => t,
    newzone_init := demo_zone }

/-- State after start-up: `MAIN_VFO`, charged battery, zeroed `ui_state`. -/
def demo_globals : ui_globals :=
  { state :=
      { time := curTime_zero, charge := 100, ui_screen := MAIN_VFO, channel_index := 1,
        channel := demo_channel, vfo_channel := demo_channel, zone_enabled := false,
        zone := demo_zone, sqlLevel := 3, emergency := false,
        settings := { brightness := 255, contrast := 0, gps_enabled := false,
                      gps_set_time := false, utc_timezone := 0 } },
    ui_state := ui_state_zero, macro_menu := false, sync_rtx := false }

/-- No key pressed. -/
def key_none : kbd_msg_t :=
  { value := 0, KEY_UP := false, KEY_DOWN := false, KEY_LEFT := false,
    KEY_RIGHT := false, KEY_ENTER := false, KEY_ESC := false, KEY_MONI := false,
    isNumberPressed := false, pressedNumber := 0 }

/-- The number key `d` alone. -/
def key_digit (d : Nat) : kbd_msg_t :=
  { key_none with value := 1, isNumberPressed := true, pressedNumber := d }

/-- The ESC key alone. -/
def key_esc : kbd_msg_t := { key_none with value := 1, KEY_ESC := true }

/-- The UP key alone. -/
def key_up : kbd_msg_t := { key_none with value := 1, KEY_UP := true }

/-- MONI held together with RIGHT. -/
def key_moni_right : kbd_msg_t :=
  { key_none with value := 1, KEY_MONI := true, KEY_RIGHT := true }

/-- The demonstration state on `SETTINGS_DISPLAY` with edit mode set. -/
def demo_display_edit : ui_globals :=
  { demo_globals with
    state := { demo_globals.state with ui_screen := SETTINGS_DISPLAY }
    ui_state := { ui_state_zero with edit_mode := true } }

/-- Sixteen digit key events on the Linux platform: 1,4,5,0,0,0,0,0 for rx and
1,4,5,6,0,0,0,0 for tx. -/
def demo_entry_events : List (platform_env × kbd_msg_t) :=
  [1, 4, 5, 0, 0, 0, 0, 0, 1, 4, 5, 6, 0, 0, 0, 0].map fun d => (demo_env, key_digit d)

/-- A key message with UP or DOWN and none of ENTER, ESC, MONI: it reaches the
UP or DOWN branch of `MAIN_MEM`. -/
def is_updown_key (msg : kbd_msg_t) : Prop :=
  (msg.KEY_UP = true ∨ msg.KEY_DOWN = true) ∧ msg.KEY_ENTER = false ∧
  msg.KEY_ESC = false ∧ msg.KEY_MONI = false

instance (msg : kbd_msg_t) : Decidable (is_updown_key msg) := by
  unfold is_updown_key; infer_instance

/-- Channel number that `_ui_fsm_loadChannel` asks storage for, when the zone
check lets it read at all. -/
def loadChannel_read_index (g : ui_globals) (zone_index : Nat) : Nat :=
  if g.state.zone_enabled then g.state.zone.member.getD (zone_index - 1) 0 else zone_index

/-- The read made by `_ui_fsm_loadChannel` misses or returns a channel outside
the band limits. -/
def load_fails (e : platform_env) (g : ui_globals) (zone_index : Nat) : Prop :=
  (e.nvm_readChannelData (loadChannel_read_index g zone_index)).result = -1 ∨
  _ui_channel_valid e.hwInfo
    (e.nvm_readChannelData (loadChannel_read_index g zone_index)).data = false

instance (e : platform_env) (g : ui_globals) (zone_index : Nat) :
    Decidable (load_fails e g zone_index) := by
  unfold load_fails; infer_instance

/-- Stored channel `i` of the demonstration storage: a 2 m repeater channel. -/
def stored_channel (i : Nat) : channel_t :=
  { demo_channel with
    rx_frequency := 145000000 + i * 12500
    tx_frequency := 144400000 + i * 12500 }

/-- A channel record outside both Linux bands (50 MHz). -/
def out_of_band_channel : channel_t :=
  { demo_channel with rx_frequency := 50000000, tx_frequency := 50000000 }

/-- Linux platform with three stored channels (1..3) and one zone (1) whose
members are the channels 2 and 3. -/
def stored_env : platform_env :=
  { demo_env with
    nvm_readChannelData := fun i =>
      if 1 ≤ i ∧ i ≤ 3 then { result := 0, data := stored_channel i }
      else { result := -1, data := demo_channel }
    nvm_readZoneData := fun i =>
      if i = 1 then { result := 0, data := { name := [], member := [2, 3] } }
      else { result := -1, data := demo_zone } }

/-- Linux platform whose storage answers every channel read with a record at
50 MHz, outside both bands. -/
def out_of_band_env : platform_env :=
  { demo_env with
    nvm_readChannelData := fun _ => { result := 0, data := out_of_band_channel } }

/-- The DOWN key alone. -/
def key_down : kbd_msg_t := { key_none with value := 1, KEY_DOWN := true }

/-- The ENTER key alone. -/
def key_enter : kbd_msg_t := { key_none with value := 1, KEY_ENTER := true }

/-- The LEFT key alone. -/
def key_left : kbd_msg_t := { key_none with value := 1, KEY_LEFT := true }

/-- The demonstration state moved to `screen`. -/
def demo_on (screen : uiScreen) : ui_globals :=
  { demo_globals with state := { demo_globals.state with ui_screen := screen } }

/-- A build like `demo_cfg` but with an absolute-position knob. -/
def knob_cfg : build_cfg := { demo_cfg with HAS_ABSOLUTE_KNOB := true }

/-- MONI held together with LEFT. -/
def key_moni_left : kbd_msg_t :=
  { key_none with value := 1, KEY_MONI := true, KEY_LEFT := true }

/-- MONI held together with the number key `d`. -/
def key_moni_digit (d : Nat) : kbd_msg_t :=
  { key_none with value := 1, KEY_MONI := true, isNumberPressed := true,
                  pressedNumber := d }

/-- The demonstration state on the settings menu with an empty battery. -/
def demo_flat : ui_globals :=
  { demo_on MENU_SETTINGS with state := { (demo_on MENU_SETTINGS).state with charge := 0 } }

/-- A keyboard event carrying `msg`. -/
def kbd_event (msg : kbd_msg_t) : event_t := { type := EVENT_KBD, payload := msg }

/-- The time and date built by `_ui_timedate_add_digit` from `timedate` when
the digits of the list are entered at positions `pos`, `pos + 1`, ... -/
def timedate_entry_from (cfg : build_cfg) : curTime_t → Nat → List Nat → curTime_t
  | timedate, _, [] => timedate
  | timedate, pos, d :: ds =>
    timedate_entry_from cfg (_ui_timedate_add_digit cfg timedate pos d) (pos + 1) ds

/-- The demonstration state on `SETTINGS_TIMEDATE_SET` after ten digits: the
entry position is 10 and the pending time is the 24th of month 12 of year 20
at 18:30. -/
def demo_timedate_full : ui_globals :=
  { demo_on SETTINGS_TIMEDATE_SET with
    ui_state :=
      { (demo_on SETTINGS_TIMEDATE_SET).ui_state with
        input_position := 10
        new_timedate :=
          { hour := 18, minute := 30, second := 0, day := 0, date := 24, month := 12,
            year := 20 } } }

/-- The demonstration platform with the channel selector at `position`. -/
def knob_env (position : Int) : platform_env := { demo_env with chSelector := position }

/-- The demonstration state with the zone of channels 2 and 3 active. -/
def demo_zoned : ui_globals :=
  { demo_on MAIN_MEM with
    state :=
      { (demo_on MAIN_MEM).state with
        zone_enabled := true
        zone := { name := [], member := [2, 3] } } }

/-- The state after a key press overrode the low-battery lockout: `MAIN_VFO`
with the emergency flag set and the battery still empty. -/
def demo_emergency : ui_globals :=
  { demo_globals with state := { demo_globals.state with charge := 0, emergency := true } }

/-- The demonstration platform with a zone stored at every index. -/
def all_zones_env : platform_env :=
  { demo_env with nvm_readZoneData := fun _ => { result := 0, data := demo_zone } }

/-- The demonstration state on `MENU_ZONE` with the cursor at 255. -/
def demo_zone_last : ui_globals :=
  { demo_on MENU_ZONE with ui_state := { ui_state_zero with menu_selected := 255 } }

/-- The demonstration state with the tx tone index at 127, the highest value
of a 7-bit field. -/
def demo_tone_top : ui_globals :=
  { demo_globals with
    state :=
      { demo_globals.state with
        channel :=
          { demo_channel with
            fm := { rxToneEn := false, rxTone := 0, txToneEn := false, txTone := 127 } } } }

/-- Key events that lead from the start-up state to `SETTINGS_TIMEDATE_SET`
(ENTER, three times DOWN, ENTER, DOWN, ENTER, ENTER in the build without GPS
and with the real-time clock) followed by the ten digits 2,4,1,2,2,0,1,8,3,0. -/
def timedate_entry_keys : List (platform_env × event_t) :=
  ([key_enter, key_down, key_down, key_down, key_enter, key_down, key_enter, key_enter] ++
    [2, 4, 1, 2, 2, 0, 1, 8, 3, 0].map key_digit).map
    fun m => (demo_env, { type := EVENT_KBD, payload := m })

/-! ## Digit entry accumulator -/

/-- With eight frequency digits the weight of position `p` is `10 ^ (9 - p)`. -/
theorem add_digit_eight (cfg : build_cfg) (h : cfg.FREQ_DIGITS = 8) (freq number : Nat) :
    _ui_freq_add_digit cfg freq 1 number = (freq + number * 100000000 % 2 ^ 32) % 2 ^ 32 ∧
    _ui_freq_add_digit cfg freq 2 number = (freq + number * 10000000 % 2 ^ 32) % 2 ^ 32 ∧
    _ui_freq_add_digit cfg freq 3 number = (freq + number * 1000000 % 2 ^ 32) % 2 ^ 32 ∧
    _ui_freq_add_digit cfg freq 4 number = (freq + number * 100000 % 2 ^ 32) % 2 ^ 32 ∧
    _ui_freq_add_digit cfg freq 5 number = (freq + number * 10000 % 2 ^ 32) % 2 ^ 32 ∧
    _ui_freq_add_digit cfg freq 6 number = (freq + number * 1000 % 2 ^ 32) % 2 ^ 32 ∧
    _ui_freq_add_digit cfg freq 7 number = (freq + number * 100 % 2 ^ 32) % 2 ^ 32 ∧
    _ui_freq_add_digit cfg freq 8 number = (freq + number * 10 % 2 ^ 32) % 2 ^ 32 := by
  simp [_ui_freq_add_digit, h, freq_coefficient]

/-- Claim C2, as stated, fails: entering 1,4,5,0,0,0,0,0 with eight frequency
digits gives 145000000, not the digits read as the number 14500000. -/
theorem freq_entry_not_decimal :
    demo_cfg.FREQ_DIGITS = 8 ∧
    freq_entry demo_cfg [1, 4, 5, 0, 0, 0, 0, 0] = 145000000 ∧
    decimal_value [1, 4, 5, 0, 0, 0, 0, 0] = 14500000 ∧
    freq_entry demo_cfg [1, 4, 5, 0, 0, 0, 0, 0] ≠ decimal_value [1, 4, 5, 0, 0, 0, 0, 0] := by
  decide

/-- Claim C2, amended: with eight frequency digits, digits `d1 .. d8` (each
0..9) entered at positions 1..8 from 0 give ten times the digits read as a
base-10 number, that is `d1 * 10 ^ 8 + ... + d8 * 10`; the digits
1,4,5,0,0,0,0,0 give 145000000. -/
theorem freq_entry_eight (cfg : build_cfg) (h : cfg.FREQ_DIGITS = 8)
    (d1 d2 d3 d4 d5 d6 d7 d8 : Nat)
    (h1 : d1 ≤ 9) (h2 : d2 ≤ 9) (h3 : d3 ≤ 9) (h4 : d4 ≤ 9)
    (h5 : d5 ≤ 9) (h6 : d6 ≤ 9) (h7 : d7 ≤ 9) (h8 : d8 ≤ 9) :
    freq_entry cfg [d1, d2, d3, d4, d5, d6, d7, d8] =
      10 * decimal_value [d1, d2, d3, d4, d5, d6, d7, d8] ∧
    freq_entry cfg [d1, d2, d3, d4, d5, d6, d7, d8] =
      d1 * 10 ^ 8 + d2 * 10 ^ 7 + d3 * 10 ^ 6 + d4 * 10 ^ 5 + d5 * 10 ^ 4 + d6 * 10 ^ 3 +
      d7 * 10 ^ 2 + d8 * 10 ∧
    freq_entry cfg [1, 4, 5, 0, 0, 0, 0, 0] = 145000000 := by
  have A := add_digit_eight cfg h
  simp only [freq_entry, freq_entry_from, decimal_value, List.foldl, (A _ _).1, (A _ _).2.1,
    (A _ _).2.2.1, (A _ _).2.2.2.1, (A _ _).2.2.2.2.1, (A _ _).2.2.2.2.2.1,
    (A _ _).2.2.2.2.2.2.1, (A _ _).2.2.2.2.2.2.2]
  refine ⟨?_, ?_, ?_⟩
  · omega
  · norm_num
    omega
  · norm_num

/-- Claim C2, amended, at the digits 4,3,0,1,2,5,0,0 of the demonstration
build. -/
theorem freq_entry_eight_witness :
    freq_entry demo_cfg [4, 3, 0, 1, 2, 5, 0, 0] = 10 * decimal_value [4, 3, 0, 1, 2, 5, 0, 0] ∧
    freq_entry demo_cfg [4, 3, 0, 1, 2, 5, 0, 0] =
      4 * 10 ^ 8 + 3 * 10 ^ 7 + 0 * 10 ^ 6 + 1 * 10 ^ 5 + 2 * 10 ^ 4 + 5 * 10 ^ 3 +
      0 * 10 ^ 2 + 0 * 10 ∧
    freq_entry demo_cfg [1, 4, 5, 0, 0, 0, 0, 0] = 145000000 :=
  freq_entry_eight demo_cfg rfl 4 3 0 1 2 5 0 0 (by decide) (by decide) (by decide)
    (by decide) (by decide) (by decide) (by decide) (by decide)

/-! ## Limit validator -/

/-- The limit check accepts exactly the union of the two supported ranges,
the bounds being the 32-bit products computed by the code. -/
theorem check_limits_iff (hwinfo : hwInfo_t) (freq : Nat) :
    _ui_freq_check_limits hwinfo freq = true ↔
      (hwinfo.vhf_band = true ∧ hwinfo.vhf_minFreq * 1000000 % 2 ^ 32 ≤ freq ∧
        freq ≤ hwinfo.vhf_maxFreq * 1000000 % 2 ^ 32) ∨
      (hwinfo.uhf_band = true ∧ hwinfo.uhf_minFreq * 1000000 % 2 ^ 32 ≤ freq ∧
        freq ≤ hwinfo.uhf_maxFreq * 1000000 % 2 ^ 32) := by
  unfold _ui_freq_check_limits
  cases hwinfo.vhf_band <;> cases hwinfo.uhf_band <;> simp
  exact or_comm

/-- The limit check when the four bounds in Hz fit in 32 bits. -/
theorem check_limits_fit (hwinfo : hwInfo_t)
    (h1 : hwinfo.vhf_minFreq * 1000000 < 2 ^ 32) (h2 : hwinfo.vhf_maxFreq * 1000000 < 2 ^ 32)
    (h3 : hwinfo.uhf_minFreq * 1000000 < 2 ^ 32) (h4 : hwinfo.uhf_maxFreq * 1000000 < 2 ^ 32)
    (f : Nat) :
    _ui_freq_check_limits hwinfo f = true ↔
      (hwinfo.vhf_band = true ∧ hwinfo.vhf_minFreq * 1000000 ≤ f ∧
        f ≤ hwinfo.vhf_maxFreq * 1000000) ∨
      (hwinfo.uhf_band = true ∧ hwinfo.uhf_minFreq * 1000000 ≤ f ∧
        f ≤ hwinfo.uhf_maxFreq * 1000000) := by
  rw [check_limits_iff, Nat.mod_eq_of_lt h1, Nat.mod_eq_of_lt h2, Nat.mod_eq_of_lt h3,
    Nat.mod_eq_of_lt h4]

/-- Claim C3: when the four band bounds in MHz times 1000000 fit in 32 bits,
`_ui_freq_check_limits` accepts a frequency `f` in Hz exactly when VHF is
supported and `f` lies between the VHF bounds, or UHF is supported and `f`
lies between the UHF bounds; with neither band supported it rejects every
frequency. -/
theorem freq_check_limits_spec (hwinfo : hwInfo_t)
    (h1 : hwinfo.vhf_minFreq * 1000000 < 2 ^ 32) (h2 : hwinfo.vhf_maxFreq * 1000000 < 2 ^ 32)
    (h3 : hwinfo.uhf_minFreq * 1000000 < 2 ^ 32) (h4 : hwinfo.uhf_maxFreq * 1000000 < 2 ^ 32) :
    (∀ f : Nat, _ui_freq_check_limits hwinfo f = true ↔
      (hwinfo.vhf_band = true ∧ hwinfo.vhf_minFreq * 1000000 ≤ f ∧
        f ≤ hwinfo.vhf_maxFreq * 1000000) ∨
      (hwinfo.uhf_band = true ∧ hwinfo.uhf_minFreq * 1000000 ≤ f ∧
        f ≤ hwinfo.uhf_maxFreq * 1000000)) ∧
    (hwinfo.vhf_band = false → hwinfo.uhf_band = false →
      ∀ f : Nat, _ui_freq_check_limits hwinfo f = false) := by
  constructor
  · exact check_limits_fit hwinfo h1 h2 h3 h4
  · intro hv hu f
    have := check_limits_iff hwinfo f
    simp [hv, hu] at this
    exact this

/-- Claim C3 at the band limits of the Linux target, whose bounds fit. -/
theorem freq_check_limits_spec_witness :
    (linux_hwInfo.vhf_minFreq * 1000000 < 2 ^ 32 ∧
     linux_hwInfo.vhf_maxFreq * 1000000 < 2 ^ 32 ∧
     linux_hwInfo.uhf_minFreq * 1000000 < 2 ^ 32 ∧
     linux_hwInfo.uhf_maxFreq * 1000000 < 2 ^ 32) ∧
    (∀ f : Nat, _ui_freq_check_limits linux_hwInfo f = true ↔
      (linux_hwInfo.vhf_band = true ∧ linux_hwInfo.vhf_minFreq * 1000000 ≤ f ∧
        f ≤ linux_hwInfo.vhf_maxFreq * 1000000) ∨
      (linux_hwInfo.uhf_band = true ∧ linux_hwInfo.uhf_minFreq * 1000000 ≤ f ∧
        f ≤ linux_hwInfo.uhf_maxFreq * 1000000)) :=
  ⟨by decide,
   (freq_check_limits_spec linux_hwInfo (by decide) (by decide) (by decide) (by decide)).1⟩

/-- Claim C4, as stated, fails. With UHF starting where VHF ends, the
frequency one Hz above the VHF maximum is accepted (it is a UHF frequency);
and a supported band whose bounds are swapped does not accept its own
minimum. -/
theorem band_edges_fail :
    adjacent_hwInfo.vhf_band = true ∧
    adjacent_hwInfo.vhf_maxFreq * 1000000 + 1 = 174000001 ∧
    _ui_freq_check_limits adjacent_hwInfo 174000001 = true ∧
    swapped_hwInfo.vhf_band = true ∧
    swapped_hwInfo.vhf_minFreq * 1000000 = 174000000 ∧
    _ui_freq_check_limits swapped_hwInfo 174000000 = false := by
  decide

/-- Claim C4, amended: when the bounds in Hz fit in 32 bits, every supported
band with minimum at most maximum has both bounds accepted; the frequency one
Hz below the minimum, or one Hz above the maximum, of a supported band is
accepted exactly when it lies in the range of the other band and that band is
supported, and rejected otherwise. With the Linux limits the four bounds are
accepted and the four frequencies one Hz outside are rejected. -/
theorem band_edges (hwinfo : hwInfo_t)
    (h1 : hwinfo.vhf_minFreq * 1000000 < 2 ^ 32) (h2 : hwinfo.vhf_maxFreq * 1000000 < 2 ^ 32)
    (h3 : hwinfo.uhf_minFreq * 1000000 < 2 ^ 32) (h4 : hwinfo.uhf_maxFreq * 1000000 < 2 ^ 32) :
    (hwinfo.vhf_band = true → hwinfo.vhf_minFreq ≤ hwinfo.vhf_maxFreq →
      _ui_freq_check_limits hwinfo (hwinfo.vhf_minFreq * 1000000) = true ∧
      _ui_freq_check_limits hwinfo (hwinfo.vhf_maxFreq * 1000000) = true) ∧
    (hwinfo.uhf_band = true → hwinfo.uhf_minFreq ≤ hwinfo.uhf_maxFreq →
      _ui_freq_check_limits hwinfo (hwinfo.uhf_minFreq * 1000000) = true ∧
      _ui_freq_check_limits hwinfo (hwinfo.uhf_maxFreq * 1000000) = true) ∧
    (hwinfo.vhf_band = true → ∀ f : Nat,
      f + 1 = hwinfo.vhf_minFreq * 1000000 ∨ f = hwinfo.vhf_maxFreq * 1000000 + 1 →
      (_ui_freq_check_limits hwinfo f = true ↔
        hwinfo.uhf_band = true ∧ hwinfo.uhf_minFreq * 1000000 ≤ f ∧
        f ≤ hwinfo.uhf_maxFreq * 1000000)) ∧
    (hwinfo.uhf_band = true → ∀ f : Nat,
      f + 1 = hwinfo.uhf_minFreq * 1000000 ∨ f = hwinfo.uhf_maxFreq * 1000000 + 1 →
      (_ui_freq_check_limits hwinfo f = true ↔
        hwinfo.vhf_band = true ∧ hwinfo.vhf_minFreq * 1000000 ≤ f ∧
        f ≤ hwinfo.vhf_maxFreq * 1000000)) ∧
    (_ui_freq_check_limits linux_hwInfo 136000000 = true ∧
     _ui_freq_check_limits linux_hwInfo 174000000 = true ∧
     _ui_freq_check_limits linux_hwInfo 400000000 = true ∧
     _ui_freq_check_limits linux_hwInfo 480000000 = true ∧
     _ui_freq_check_limits linux_hwInfo 135999999 = false ∧
     _ui_freq_check_limits linux_hwInfo 174000001 = false ∧
     _ui_freq_check_limits linux_hwInfo 399999999 = false ∧
     _ui_freq_check_limits linux_hwInfo 480000001 = false) := by
  have S := check_limits_fit hwinfo h1 h2 h3 h4
  refine ⟨?_, ?_, ?_, ?_, by decide⟩
  · intro hv hle
    rw [S, S]
    constructor
    · left; exact ⟨hv, le_refl _, Nat.mul_le_mul_right _ hle⟩
    · left; exact ⟨hv, Nat.mul_le_mul_right _ hle, le_refl _⟩
  · intro hu hle
    rw [S, S]
    constructor
    · right; exact ⟨hu, le_refl _, Nat.mul_le_mul_right _ hle⟩
    · right; exact ⟨hu, Nat.mul_le_mul_right _ hle, le_refl _⟩
  · intro hv f hf
    rw [S]
    constructor
    · rintro (⟨_, ha, hb⟩ | h)
      · omega
      · exact h
    · intro h
      right; exact h
  · intro hu f hf
    rw [S]
    constructor
    · rintro (h | ⟨_, ha, hb⟩)
      · exact h
      · omega
    · intro h
      left; exact h

/-- Claim C4, amended, at the Linux limits: the bounds fit, VHF is supported
with minimum below maximum, and 135999999 is one Hz below the VHF minimum. -/
theorem band_edges_witness :
    (linux_hwInfo.vhf_minFreq * 1000000 < 2 ^ 32 ∧
     linux_hwInfo.vhf_maxFreq * 1000000 < 2 ^ 32 ∧
     linux_hwInfo.uhf_minFreq * 1000000 < 2 ^ 32 ∧
     linux_hwInfo.uhf_maxFreq * 1000000 < 2 ^ 32) ∧
    (_ui_freq_check_limits linux_hwInfo (linux_hwInfo.vhf_minFreq * 1000000) = true ∧
     _ui_freq_check_limits linux_hwInfo (linux_hwInfo.vhf_maxFreq * 1000000) = true) ∧
    (_ui_freq_check_limits linux_hwInfo 135999999 = true ↔
        linux_hwInfo.uhf_band = true ∧ linux_hwInfo.uhf_minFreq * 1000000 ≤ 135999999 ∧
        135999999 ≤ linux_hwInfo.uhf_maxFreq * 1000000) :=
  ⟨by decide,
   (band_edges linux_hwInfo (by decide) (by decide) (by decide) (by decide)).1
     (by decide) (by decide),
   (band_edges linux_hwInfo (by decide) (by decide) (by decide) (by decide)).2.2.1
     (by decide) 135999999 (Or.inl (by decide))⟩

/-! ## Brightness -/

/-- The saturating level change is the clamp of `level + variation` to 0..255. -/
theorem level_change_clamp (level : Nat) (variation : Int) (h : level ≤ 255) :
    ((level_change level variation : Nat) : Int) = min 255 (max 0 ((level : Int) + variation)) := by
  unfold level_change
  split_ifs <;> omega

/-- A step of +25 on a level. -/
theorem level_change_up (level : Nat) (h : level ≤ 255) :
    level_change level 25 = min 255 (level + 25) := by
  have := level_change_clamp level 25 h
  omega

/-- A step of -25 on a level (truncated subtraction stops at 0). -/
theorem level_change_down (level : Nat) (h : level ≤ 255) :
    level_change level (-25) = level - 25 := by
  have := level_change_clamp level (-25) h
  omega

/-- Repeating `_ui_changeBrightness` repeats the level change on the brightness. -/
theorem changeBrightness_iterate (v : Int) (n : Nat) (g : ui_globals) :
    (Nat.iterate (_ui_changeBrightness v) n g).state.settings.brightness =
      Nat.iterate (fun b => level_change b v) n g.state.settings.brightness := by
  induction n generalizing g with
  | zero => rfl
  | succ n ih => simp [Function.iterate_succ, ih, _ui_changeBrightness]

/-- Claim C7: for a brightness `b` in 0..255 and every `int` variation `v` other
than the minimum, `_ui_changeBrightness v` stores `min 255 (max 0 (b + v))`; `n`
steps of +25 give `min 255 (b + 25 n)` and `n` steps of -25 give `b - 25 n`
stopped at 0, so the stored value saturates and never wraps modulo 256. -/
theorem changeBrightness_saturates (g : ui_globals) (hb : g.state.settings.brightness ≤ 255) :
    (∀ v : Int, -2 ^ 31 < v → v < 2 ^ 31 →
      (((_ui_changeBrightness v g).state.settings.brightness : Nat) : Int) =
        min 255 (max 0 ((g.state.settings.brightness : Int) + v))) ∧
    (∀ n : Nat, (Nat.iterate (_ui_changeBrightness 25) n g).state.settings.brightness =
        min 255 (g.state.settings.brightness + 25 * n)) ∧
    (∀ n : Nat, (Nat.iterate (_ui_changeBrightness (-25)) n g).state.settings.brightness =
        g.state.settings.brightness - 25 * n) := by
  refine ⟨?_, ?_, ?_⟩
  · intro v _ _
    exact level_change_clamp _ v hb
  · intro n
    rw [changeBrightness_iterate]
    generalize g.state.settings.brightness = b at hb
    induction n with
    | zero => simp; omega
    | succ n ih =>
      rw [Function.iterate_succ_apply', ih, level_change_up _ (by omega)]
      omega
  · intro n
    rw [changeBrightness_iterate]
    generalize g.state.settings.brightness = b at hb
    induction n with
    | zero => simp
    | succ n ih =>
      rw [Function.iterate_succ_apply', ih, level_change_down _ (by omega)]
      omega

/-- Claim C7 at brightness 255 and variation -300: the result is 0. -/
theorem changeBrightness_saturates_witness :
    demo_globals.state.settings.brightness ≤ 255 ∧
    (((_ui_changeBrightness (-300) demo_globals).state.settings.brightness : Nat) : Int) =
      min 255 (max 0 ((demo_globals.state.settings.brightness : Int) + (-300))) :=
  ⟨by decide,
   (changeBrightness_saturates demo_globals (by decide)).1 (-300) (by decide) (by decide)⟩

/-! ## Macro menu -/

/-- The digit part of the macro menu leaves the squelch level alone. -/
theorem menuMacro_number_sqlLevel (cfg : build_cfg) (g : ui_globals) :
    (menuMacro_number cfg g).state.sqlLevel = g.state.sqlLevel := by
  unfold menuMacro_number
  split <;> simp [set_channel, _ui_changeBrightness]

/-- Squelch level after the squelch part of the macro menu, without knob. -/
theorem menuMacro_squelch_sqlLevel (cfg : build_cfg) (e : platform_env) (msg : kbd_msg_t)
    (g : ui_globals) (hk : cfg.HAS_ABSOLUTE_KNOB = false) :
    (menuMacro_squelch cfg e msg g).state.sqlLevel =
      if msg.KEY_LEFT = true ∨ msg.KEY_DOWN = true then
        (if g.state.sqlLevel = 0 then 0 else (g.state.sqlLevel - 1) % 256)
      else if msg.KEY_RIGHT = true ∨ msg.KEY_UP = true then
        (if g.state.sqlLevel = 15 then 15 else (g.state.sqlLevel + 1) % 256)
      else g.state.sqlLevel := by
  unfold menuMacro_squelch
  simp only [hk, Bool.false_eq_true, ↓reduceIte]
  split_ifs <;> rfl

/-- Squelch level after one macro-menu event, without knob. -/
theorem menuMacro_sqlLevel (cfg : build_cfg) (e : platform_env) (msg : kbd_msg_t)
    (g : ui_globals) (hk : cfg.HAS_ABSOLUTE_KNOB = false) :
    (_ui_fsm_menuMacro cfg e msg g).state.sqlLevel =
      if msg.KEY_LEFT = true ∨ msg.KEY_DOWN = true then
        (if g.state.sqlLevel = 0 then 0 else (g.state.sqlLevel - 1) % 256)
      else if msg.KEY_RIGHT = true ∨ msg.KEY_UP = true then
        (if g.state.sqlLevel = 15 then 15 else (g.state.sqlLevel + 1) % 256)
      else g.state.sqlLevel := by
  unfold _ui_fsm_menuMacro
  rw [menuMacro_squelch_sqlLevel cfg e msg _ hk, menuMacro_number_sqlLevel]

/-- Without knob a run of macro-menu events keeps the squelch level in 0..15. -/
theorem macro_run_sqlLevel (cfg : build_cfg) (hk : cfg.HAS_ABSOLUTE_KNOB = false)
    (events : List (platform_env × kbd_msg_t)) (g : ui_globals) (h : g.state.sqlLevel ≤ 15) :
    (macro_run cfg events g).state.sqlLevel ≤ 15 := by
  induction events generalizing g with
  | nil => exact h
  | cons x xs ih =>
    simp only [macro_run, List.foldl_cons]
    apply ih
    rw [menuMacro_sqlLevel cfg x.1 x.2 g hk]
    split_ifs <;> omega

/-- Claim C8: in the build without absolute knob, from a squelch level in 0..15,
after every prefix of every sequence of macro-menu key events (any keys, any
digit) the level is still in 0..15. For one event: with LEFT or DOWN set the
level stays 0 at 0 and otherwise drops by exactly one; with RIGHT or UP set
(and neither LEFT nor DOWN, which the code tests first) it stays 15 at 15 and
otherwise rises by exactly one; with none of the four keys it is unchanged. -/
theorem macro_squelch_bounds (cfg : build_cfg) (hk : cfg.HAS_ABSOLUTE_KNOB = false)
    (g : ui_globals) (h : g.state.sqlLevel ≤ 15) :
    (∀ (events : List (platform_env × kbd_msg_t)) (k : Nat),
      (macro_run cfg (events.take k) g).state.sqlLevel ≤ 15) ∧
    (∀ (e : platform_env) (msg : kbd_msg_t),
      (msg.KEY_LEFT = true ∨ msg.KEY_DOWN = true →
        (g.state.sqlLevel = 0 → (_ui_fsm_menuMacro cfg e msg g).state.sqlLevel = 0) ∧
        (g.state.sqlLevel ≠ 0 →
          (_ui_fsm_menuMacro cfg e msg g).state.sqlLevel + 1 = g.state.sqlLevel)) ∧
      (¬(msg.KEY_LEFT = true ∨ msg.KEY_DOWN = true) →
        msg.KEY_RIGHT = true ∨ msg.KEY_UP = true →
        (g.state.sqlLevel = 15 → (_ui_fsm_menuMacro cfg e msg g).state.sqlLevel = 15) ∧
        (g.state.sqlLevel ≠ 15 →
          (_ui_fsm_menuMacro cfg e msg g).state.sqlLevel = g.state.sqlLevel + 1)) ∧
      (¬(msg.KEY_LEFT = true ∨ msg.KEY_DOWN = true) →
        ¬(msg.KEY_RIGHT = true ∨ msg.KEY_UP = true) →
        (_ui_fsm_menuMacro cfg e msg g).state.sqlLevel = g.state.sqlLevel)) := by
  refine ⟨fun events k => macro_run_sqlLevel cfg hk _ g h, fun e msg => ⟨?_, ?_, ?_⟩⟩
  · intro hd
    rw [menuMacro_sqlLevel cfg e msg g hk, if_pos hd]
    constructor
    · intro h0; simp [h0]
    · intro h0; rw [if_neg h0]; omega
  · intro hd hu
    rw [menuMacro_sqlLevel cfg e msg g hk, if_neg hd, if_pos hu]
    constructor
    · intro h0; simp [h0]
    · intro h0; rw [if_neg h0]; omega
  · intro hd hu
    rw [menuMacro_sqlLevel cfg e msg g hk, if_neg hd, if_neg hu]

/-- Claim C8 at the demonstration state (level 3) and two MONI+RIGHT events. -/
theorem macro_squelch_bounds_witness :
    demo_cfg.HAS_ABSOLUTE_KNOB = false ∧ demo_globals.state.sqlLevel ≤ 15 ∧
    (macro_run demo_cfg ([(demo_env, key_moni_right), (demo_env, key_moni_right)].take 2)
      demo_globals).state.sqlLevel ≤ 15 :=
  ⟨rfl, by decide,
   (macro_squelch_bounds demo_cfg rfl demo_globals (by decide)).1
     [(demo_env, key_moni_right), (demo_env, key_moni_right)] 2⟩

/-! ## Dispatch -/

/-- A keyboard event without MONI that passes the power and battery checks
clears the macro-menu flag and goes to the `switch` on the screen. -/
theorem ui_updateFSM_dispatch (cfg : build_cfg) (e : platform_env) (msg : kbd_msg_t)
    (g : ui_globals) (hc : checks_pass e g) (hm : msg.KEY_MONI = false) :
    ui_updateFSM cfg e { type := EVENT_KBD, payload := msg } g =
      fsm_dispatch cfg e msg { g with macro_menu := false } := by
  obtain ⟨hp, hb⟩ := hc
  simp [ui_updateFSM, hp, hb, hm]

/-- Claim C9: on `SETTINGS_DISPLAY`, or on `SETTINGS_GPS` in a build with GPS,
with edit mode set, an ESC key event (dispatched, that is with the power and
battery checks passing) clears edit mode and leaves the screen and the menu
cursor unchanged; a second ESC key event then sets the screen to
`MENU_SETTINGS` and the menu cursor to 0. -/
theorem settings_double_esc (cfg : build_cfg) (e1 e2 : platform_env) (msg1 msg2 : kbd_msg_t)
    (g : ui_globals)
    (hscreen : g.state.ui_screen = SETTINGS_DISPLAY ∨
      (cfg.HAS_GPS = true ∧ g.state.ui_screen = SETTINGS_GPS))
    (hedit : g.ui_state.edit_mode = true)
    (hc1 : checks_pass e1 g) (hk1 : is_esc_key msg1)
    (hc2 : checks_pass e2 (ui_updateFSM cfg e1 { type := EVENT_KBD, payload := msg1 } g))
    (hk2 : is_esc_key msg2) :
    (ui_updateFSM cfg e1 { type := EVENT_KBD, payload := msg1 } g).ui_state.edit_mode = false ∧
    (ui_updateFSM cfg e1 { type := EVENT_KBD, payload := msg1 } g).state.ui_screen =
      g.state.ui_screen ∧
    (ui_updateFSM cfg e1 { type := EVENT_KBD, payload := msg1 } g).ui_state.menu_selected =
      g.ui_state.menu_selected ∧
    (ui_updateFSM cfg e2 { type := EVENT_KBD, payload := msg2 }
      (ui_updateFSM cfg e1 { type := EVENT_KBD, payload := msg1 } g)).state.ui_screen =
      MENU_SETTINGS ∧
    (ui_updateFSM cfg e2 { type := EVENT_KBD, payload := msg2 }
      (ui_updateFSM cfg e1 { type := EVENT_KBD, payload := msg1 } g)).ui_state.menu_selected =
      0 := by
  obtain ⟨a1, a2, a3, a4, a5, a6, a7⟩ := hk1
  obtain ⟨b1, b2, b3, b4, b5, b6, b7⟩ := hk2
  rw [ui_updateFSM_dispatch cfg e2 msg2 _ hc2 b7]
  rw [ui_updateFSM_dispatch cfg e1 msg1 _ hc1 a7]
  rcases hscreen with hs | ⟨hg, hs⟩
  · simp [fsm_dispatch, hs, case_SETTINGS_DISPLAY, _ui_menuBack, hedit, a1, a2, a3, a4, a5, a6,
      b1, b2, b3, b4, b5, b6]
  · simp [fsm_dispatch, hs, hg, case_SETTINGS_GPS, _ui_menuBack, hedit, a1, a2, a3, a4, a5, a6,
      b1, b2, b3, b4, b5, b6]

/-- Claim C10: on `MAIN_VFO`, a dispatched key event with a digit `d` and none
of UP, DOWN, ENTER, ESC, MONI sets the screen to `MAIN_VFO_INPUT`, the entry
target to `SET_RX`, the entry position to 1, the pending tx frequency to 0 and
the pending rx frequency to `_ui_freq_add_digit 0 1 d`, and leaves the channel
and the resync flag unchanged. -/
theorem vfo_digit_opens_input (cfg : build_cfg) (e : platform_env) (msg : kbd_msg_t)
    (g : ui_globals) (hscreen : g.state.ui_screen = MAIN_VFO) (hc : checks_pass e g)
    (hk : is_digit_key msg) :
    (ui_updateFSM cfg e { type := EVENT_KBD, payload := msg } g).state.ui_screen =
      MAIN_VFO_INPUT ∧
    (ui_updateFSM cfg e { type := EVENT_KBD, payload := msg } g).ui_state.input_set = SET_RX ∧
    (ui_updateFSM cfg e { type := EVENT_KBD, payload := msg } g).ui_state.input_position = 1 ∧
    (ui_updateFSM cfg e { type := EVENT_KBD, payload := msg } g).ui_state.new_tx_frequency = 0 ∧
    (ui_updateFSM cfg e { type := EVENT_KBD, payload := msg } g).ui_state.new_rx_frequency =
      _ui_freq_add_digit cfg 0 1 msg.pressedNumber ∧
    (ui_updateFSM cfg e { type := EVENT_KBD, payload := msg } g).state.channel =
      g.state.channel ∧
    (ui_updateFSM cfg e { type := EVENT_KBD, payload := msg } g).sync_rtx = g.sync_rtx := by
  obtain ⟨a1, a2, a3, a4, a5, a6⟩ := hk
  rw [ui_updateFSM_dispatch cfg e msg _ hc a6]
  simp [fsm_dispatch, hscreen, case_MAIN_VFO, set_screen, a1, a2, a3, a4, a5]

/-- Claim C9 at the demonstration state on `SETTINGS_DISPLAY` in edit mode,
with two ESC key events. -/
theorem settings_double_esc_witness :
    (demo_display_edit.state.ui_screen = SETTINGS_DISPLAY ∧
     demo_display_edit.ui_state.edit_mode = true ∧
     checks_pass demo_env demo_display_edit ∧ is_esc_key key_esc) ∧
    (ui_updateFSM demo_cfg demo_env { type := EVENT_KBD, payload := key_esc }
      demo_display_edit).ui_state.edit_mode = false ∧
    (ui_updateFSM demo_cfg demo_env { type := EVENT_KBD, payload := key_esc }
      (ui_updateFSM demo_cfg demo_env { type := EVENT_KBD, payload := key_esc }
        demo_display_edit)).state.ui_screen = MENU_SETTINGS :=
  have h := settings_double_esc demo_cfg demo_env demo_env key_esc key_esc demo_display_edit
    (Or.inl rfl) rfl (by decide) (by decide) (by decide) (by decide)
  ⟨by decide, h.1, h.2.2.2.1⟩

/-- Claim C10 at the demonstration state and the digit key 4: the pending rx
frequency becomes 400000000. -/
theorem vfo_digit_opens_input_witness :
    (demo_globals.state.ui_screen = MAIN_VFO ∧ checks_pass demo_env demo_globals ∧
     is_digit_key (key_digit 4)) ∧
    (ui_updateFSM demo_cfg demo_env { type := EVENT_KBD, payload := key_digit 4 }
      demo_globals).state.ui_screen = MAIN_VFO_INPUT ∧
    (ui_updateFSM demo_cfg demo_env { type := EVENT_KBD, payload := key_digit 4 }
      demo_globals).ui_state.new_rx_frequency = 400000000 :=
  have h := vfo_digit_opens_input demo_cfg demo_env (key_digit 4) demo_globals rfl (by decide)
    (by decide)
  ⟨by decide, h.1, h.2.2.2.2.1.trans (by decide)⟩

/-! ## Resync rule and band validity, step by step -/

theorem step_ok_refl (hwinfo : hwInfo_t) (g : ui_globals) : step_ok hwinfo g g :=
  ⟨Or.inl ⟨rfl, rfl, rfl⟩, fun h => h⟩

theorem step_ok_trans (hwinfo : hwInfo_t) (g g1 g2 : ui_globals)
    (h1 : step_ok hwinfo g g1) (h2 : step_ok hwinfo g1 g2) : step_ok hwinfo g g2 := by
  obtain ⟨s1, b1⟩ := h1
  obtain ⟨s2, b2⟩ := h2
  refine ⟨?_, fun h => b2 (b1 h)⟩
  rcases s1 with ⟨c1, q1, r1⟩ | t1
  · rcases s2 with ⟨c2, q2, r2⟩ | t2
    · exact Or.inl ⟨c2.trans c1, q2.trans q1, r2.trans r1⟩
    · exact Or.inr t2
  · rcases s2 with ⟨c2, q2, r2⟩ | t2
    · exact Or.inr (r2.trans t1)
    · exact Or.inr t2

/-- A step that keeps both channels, the squelch level and the resync flag. -/
theorem step_ok_of_frame (hwinfo : hwInfo_t) (g g1 : ui_globals)
    (hc : g1.state.channel = g.state.channel) (hv : g1.state.vfo_channel = g.state.vfo_channel)
    (hq : g1.state.sqlLevel = g.state.sqlLevel) (hs : g1.sync_rtx = g.sync_rtx) :
    step_ok hwinfo g g1 := by
  refine ⟨Or.inl ⟨hc, hq, hs⟩, ?_⟩
  unfold band_valid
  rw [hc, hv]
  exact fun h => h

theorem loadChannel_cases (e : platform_env) (zone_index : Nat) (g : ui_globals) :
    (_ui_fsm_loadChannel e zone_index g).2 = g ∨
    ∃ channel : channel_t, _ui_channel_valid e.hwInfo channel = true ∧
      (_ui_fsm_loadChannel e zone_index g).2 =
        { g with
          state := { g.state with channel_index := zone_index, channel := channel }
          sync_rtx := true } := by
  unfold _ui_fsm_loadChannel
  dsimp only
  by_cases h1 : g.state.zone_enabled = true ∧
      (zone_index ≤ 0 ∨ zone_index > g.state.zone.member.length % 256)
  · rw [if_pos h1]; left; rfl
  · rw [if_neg h1]
    generalize e.nvm_readChannelData _ = answer
    split_ifs with h2
    · right; exact ⟨_, h2.2, rfl⟩
    · left; rfl

theorem step_ok_loadChannel (e : platform_env) (zone_index : Nat) (g : ui_globals) :
    step_ok e.hwInfo g (_ui_fsm_loadChannel e zone_index g).2 := by
  rcases loadChannel_cases e zone_index g with h | ⟨channel, hv, h⟩
  · rw [h]; exact step_ok_refl _ _
  · rw [h]
    refine ⟨Or.inr rfl, ?_⟩
    unfold _ui_channel_valid at hv
    simp only [Bool.and_eq_true] at hv
    unfold band_valid
    intro hb
    exact ⟨hv.1, hv.2, hb.2.2.1, hb.2.2.2⟩

theorem step_ok_set_screen (hwinfo : hwInfo_t) (g : ui_globals) (screen : uiScreen) :
    step_ok hwinfo g (set_screen g screen) :=
  step_ok_of_frame hwinfo g _ rfl rfl rfl rfl

theorem step_ok_menuUp (hwinfo : hwInfo_t) (n : Nat) (g : ui_globals) :
    step_ok hwinfo g (_ui_menuUp n g) := by
  unfold _ui_menuUp
  split_ifs <;> exact step_ok_of_frame hwinfo g _ rfl rfl rfl rfl

theorem step_ok_menuDown (hwinfo : hwInfo_t) (n : Nat) (g : ui_globals) :
    step_ok hwinfo g (_ui_menuDown n g) := by
  unfold _ui_menuDown
  split_ifs <;> exact step_ok_of_frame hwinfo g _ rfl rfl rfl rfl

theorem step_ok_menuBack (hwinfo : hwInfo_t) (prev : uiScreen) (g : ui_globals) :
    step_ok hwinfo g (_ui_menuBack prev g) := by
  unfold _ui_menuBack
  split_ifs <;> exact step_ok_of_frame hwinfo g _ rfl rfl rfl rfl

theorem step_ok_changeBrightness (hwinfo : hwInfo_t) (v : Int) (g : ui_globals) :
    step_ok hwinfo g (_ui_changeBrightness v g) :=
  step_ok_of_frame hwinfo g _ rfl rfl rfl rfl

theorem step_ok_changeContrast (hwinfo : hwInfo_t) (v : Int) (g : ui_globals) :
    step_ok hwinfo g (_ui_changeContrast v g) :=
  step_ok_of_frame hwinfo g _ rfl rfl rfl rfl

theorem step_ok_save_vfo (hwinfo : hwInfo_t) (g : ui_globals) :
    step_ok hwinfo g (save_vfo_channel g) := by
  unfold save_vfo_channel
  split_ifs
  · refine ⟨Or.inl ⟨rfl, rfl, rfl⟩, ?_⟩
    intro hb
    exact ⟨hb.1, hb.2.1, hb.1, hb.2.1⟩
  · exact step_ok_refl _ _

/-- A step that raises the resync flag and keeps the four frequencies. -/
theorem step_ok_of_sync (hwinfo : hwInfo_t) (g g1 : ui_globals)
    (hs : g1.sync_rtx = true)
    (hr : g1.state.channel.rx_frequency = g.state.channel.rx_frequency)
    (ht : g1.state.channel.tx_frequency = g.state.channel.tx_frequency)
    (hv : g1.state.vfo_channel = g.state.vfo_channel) :
    step_ok hwinfo g g1 := by
  refine ⟨Or.inr hs, ?_⟩
  unfold band_valid
  rw [hr, ht, hv]
  exact fun h => h

theorem step_ok_menuMacro_number (hwinfo : hwInfo_t) (cfg : build_cfg) (g : ui_globals) :
    step_ok hwinfo g (menuMacro_number cfg g) := by
  unfold menuMacro_number
  split
  · exact step_ok_of_sync hwinfo g _ rfl rfl rfl rfl
  · exact step_ok_of_sync hwinfo g _ rfl rfl rfl rfl
  · exact step_ok_of_sync hwinfo g _ rfl rfl rfl rfl
  · exact step_ok_of_sync hwinfo g _ rfl rfl rfl rfl
  · exact step_ok_of_sync hwinfo g _ rfl rfl rfl rfl
  · exact step_ok_changeBrightness _ _ _
  · exact step_ok_changeBrightness _ _ _
  · exact step_ok_refl _ _

theorem step_ok_menuMacro_squelch (hwinfo : hwInfo_t) (cfg : build_cfg) (e : platform_env)
    (msg : kbd_msg_t) (g : ui_globals) :
    step_ok hwinfo g (menuMacro_squelch cfg e msg g) := by
  unfold menuMacro_squelch
  split_ifs
  all_goals first
    | exact step_ok_refl _ _
    | exact step_ok_of_sync hwinfo g _ rfl rfl rfl rfl

theorem step_ok_menuMacro (hwinfo : hwInfo_t) (cfg : build_cfg) (e : platform_env)
    (msg : kbd_msg_t) (g : ui_globals) :
    step_ok hwinfo g (_ui_fsm_menuMacro cfg e msg g) := by
  unfold _ui_fsm_menuMacro
  refine step_ok_trans hwinfo g _ _ ?_ (step_ok_menuMacro_squelch _ _ _ _ _)
  refine step_ok_trans hwinfo g _ _ ?_ (step_ok_menuMacro_number _ _ _)
  exact step_ok_of_frame hwinfo g _ rfl rfl rfl rfl

/-- A step that writes two accepted frequencies and raises the resync flag. -/
theorem step_ok_of_commit (hwinfo : hwInfo_t) (g g1 : ui_globals)
    (hs : g1.sync_rtx = true)
    (hr : _ui_freq_check_limits hwinfo g1.state.channel.rx_frequency = true)
    (ht : _ui_freq_check_limits hwinfo g1.state.channel.tx_frequency = true)
    (hv : g1.state.vfo_channel = g.state.vfo_channel) :
    step_ok hwinfo g g1 := by
  refine ⟨Or.inr hs, ?_⟩
  unfold band_valid
  rw [hv]
  exact fun h => ⟨hr, ht, h.2.2.1, h.2.2.2⟩

theorem step_ok_confirmVFOInput (e : platform_env) (g : ui_globals) :
    step_ok e.hwInfo g (_ui_fsm_confirmVFOInput e g) := by
  unfold _ui_fsm_confirmVFOInput
  split
  · exact step_ok_of_frame _ g _ rfl rfl rfl rfl
  · dsimp only
    split_ifs with h1 h2 h3
    · exact step_ok_of_commit _ g _ rfl h2.1 h2.2 rfl
    · exact step_ok_of_frame _ g _ rfl rfl rfl rfl
    · exact step_ok_of_commit _ g _ rfl h3.1 h3.2 rfl
    · exact step_ok_of_frame _ g _ rfl rfl rfl rfl

theorem step_ok_insertVFONumber (cfg : build_cfg) (e : platform_env) (msg : kbd_msg_t)
    (g : ui_globals) :
    step_ok e.hwInfo g (_ui_fsm_insertVFONumber cfg e msg g) := by
  unfold _ui_fsm_insertVFONumber
  dsimp only
  split
  · split_ifs <;> exact step_ok_of_frame _ g _ rfl rfl rfl rfl
  · split_ifs
    all_goals first
      | exact step_ok_of_frame _ g _ rfl rfl rfl rfl
      | (rename_i h; exact step_ok_of_commit _ g _ rfl h.1 h.2 rfl)

theorem step_ok_ite (hwinfo : hwInfo_t) (g : ui_globals) (c : Prop) [Decidable c]
    (a b : ui_globals) (ha : c → step_ok hwinfo g a) (hb : ¬c → step_ok hwinfo g b) :
    step_ok hwinfo g (if c then a else b) := by
  split_ifs with h
  · exact ha h
  · exact hb h

/-- Writing two accepted frequencies into the channel and raising the flag. -/
theorem step_ok_set_freqs (hwinfo : hwInfo_t) (g : ui_globals) (rx tx : Nat)
    (hr : _ui_freq_check_limits hwinfo rx = true)
    (ht : _ui_freq_check_limits hwinfo tx = true) :
    step_ok hwinfo g
      { set_channel g { g.state.channel with rx_frequency := rx, tx_frequency := tx }
        with sync_rtx := true } :=
  ⟨Or.inr rfl, fun hb => ⟨hr, ht, hb.2.2.1, hb.2.2.2⟩⟩

theorem step_ok_MAIN_VFO (cfg : build_cfg) (e : platform_env) (msg : kbd_msg_t)
    (g : ui_globals) : step_ok e.hwInfo g (case_MAIN_VFO cfg e msg g) := by
  rw [case_MAIN_VFO]
  refine step_ok_ite _ _ _ _ _ (fun _ => ?_) (fun _ => ?_)
  · refine step_ok_ite _ _ _ _ _ (fun h => ?_) (fun _ => step_ok_refl _ _)
    exact step_ok_set_freqs _ g _ _ h.1 h.2
  refine step_ok_ite _ _ _ _ _ (fun _ => ?_) (fun _ => ?_)
  · refine step_ok_ite _ _ _ _ _ (fun h => ?_) (fun _ => step_ok_refl _ _)
    exact step_ok_set_freqs _ g _ _ h.1 h.2
  refine step_ok_ite _ _ _ _ _ (fun _ => ?_) (fun _ => ?_)
  · exact step_ok_of_frame _ g _ rfl rfl rfl rfl
  refine step_ok_ite _ _ _ _ _ (fun _ => ?_) (fun _ => ?_)
  · have hsave : step_ok e.hwInfo g
        { g with state := { g.state with vfo_channel := g.state.channel } } :=
      ⟨Or.inl ⟨rfl, rfl, rfl⟩, fun hb => ⟨hb.1, hb.2.1, hb.1, hb.2.1⟩⟩
    have hload := step_ok_trans _ g _ _ hsave
      (step_ok_loadChannel e g.state.channel_index
        { g with state := { g.state with vfo_channel := g.state.channel } })
    refine step_ok_ite _ _ _ _ _ (fun _ => ?_) (fun _ => hload)
    exact step_ok_trans _ g _ _ hload (step_ok_set_screen _ _ _)
  refine step_ok_ite _ _ _ _ _ (fun _ => ?_) (fun _ => step_ok_refl _ _)
  exact step_ok_of_frame _ g _ rfl rfl rfl rfl

theorem step_ok_MAIN_VFO_INPUT (cfg : build_cfg) (e : platform_env) (msg : kbd_msg_t)
    (g : ui_globals) : step_ok e.hwInfo g (case_MAIN_VFO_INPUT cfg e msg g) := by
  unfold case_MAIN_VFO_INPUT
  split_ifs
  · exact step_ok_confirmVFOInput e g
  · exact step_ok_set_screen _ _ _
  · exact step_ok_of_frame _ g _ rfl rfl rfl rfl
  · exact step_ok_insertVFONumber cfg e msg g
  · exact step_ok_refl _ _

theorem step_ok_MAIN_MEM (e : platform_env) (msg : kbd_msg_t) (g : ui_globals) :
    step_ok e.hwInfo g (case_MAIN_MEM e msg g) := by
  unfold case_MAIN_MEM
  split_ifs
  · exact step_ok_of_frame _ g _ rfl rfl rfl rfl
  · exact ⟨Or.inr rfl, fun hb => ⟨hb.2.2.1, hb.2.2.2, hb.2.2.1, hb.2.2.2⟩⟩
  · exact step_ok_loadChannel e _ g
  · exact step_ok_loadChannel e _ g
  · exact step_ok_refl _ _

theorem step_ok_MENU_TOP (hwinfo : hwInfo_t) (cfg : build_cfg) (msg : kbd_msg_t)
    (g : ui_globals) : step_ok hwinfo g (case_MENU_TOP cfg msg g) := by
  unfold case_MENU_TOP
  split_ifs
  · exact step_ok_menuUp _ _ _
  · exact step_ok_menuDown _ _ _
  · exact step_ok_of_frame _ g _ rfl rfl rfl rfl
  · exact step_ok_menuBack _ _ _
  · exact step_ok_refl _ _

theorem step_ok_menu_list_down (hwinfo : hwInfo_t) (e : platform_env) (g : ui_globals) :
    step_ok hwinfo g (menu_list_down e g) := by
  unfold menu_list_down
  split_ifs
  all_goals first
    | exact step_ok_refl _ _

theorem step_ok_menu_zone_enter (e : platform_env) (g : ui_globals) :
    step_ok e.hwInfo g (menu_zone_enter e g) := by
  unfold menu_zone_enter
  dsimp only
  split_ifs
  all_goals first
    | exact step_ok_of_frame _ g _ rfl rfl rfl rfl
    | (refine step_ok_trans _ g _ _ ?_ (step_ok_set_screen _ _ _)
       refine step_ok_trans _ g _ _ ?_ (step_ok_loadChannel e _ _)
       refine step_ok_trans _ g _ _ ?_ (step_ok_save_vfo _ _)
       exact step_ok_of_frame _ g _ rfl rfl rfl rfl)

theorem step_ok_menu_channel_enter (e : platform_env) (g : ui_globals) :
    step_ok e.hwInfo g (menu_channel_enter e g) := by
  unfold menu_channel_enter
  refine step_ok_trans _ g _ _ ?_ (step_ok_set_screen _ _ _)
  exact step_ok_trans _ g _ _ (step_ok_save_vfo _ _) (step_ok_loadChannel e _ _)

theorem step_ok_MENU_LIST (e : platform_env) (msg : kbd_msg_t) (g : ui_globals) :
    step_ok e.hwInfo g (case_MENU_LIST e msg g) := by
  unfold case_MENU_LIST
  dsimp only
  have hz : step_ok e.hwInfo g
      (if g.state.ui_screen = MENU_ZONE then menu_zone_enter e g else g) := by
    split_ifs
    · exact step_ok_menu_zone_enter e g
    · exact step_ok_refl _ _
  split_ifs
  all_goals first
    | exact step_ok_menuUp _ _ _
    | exact step_ok_menu_list_down _ _ _
    | exact step_ok_menuBack _ _ _
    | exact step_ok_refl _ _
    | exact step_ok_menu_zone_enter e g
    | exact step_ok_trans _ g _ _ (step_ok_menu_zone_enter e g) (step_ok_menu_channel_enter e _)
    | exact step_ok_menu_channel_enter e _

theorem step_ok_MENU_ESC_ONLY (hwinfo : hwInfo_t) (msg : kbd_msg_t) (g : ui_globals) :
    step_ok hwinfo g (case_MENU_ESC_ONLY msg g) := by
  unfold case_MENU_ESC_ONLY
  split_ifs
  · exact step_ok_menuBack _ _ _
  · exact step_ok_refl _ _

theorem step_ok_MENU_SETTINGS (hwinfo : hwInfo_t) (cfg : build_cfg) (msg : kbd_msg_t)
    (g : ui_globals) : step_ok hwinfo g (case_MENU_SETTINGS cfg msg g) := by
  unfold case_MENU_SETTINGS
  split_ifs
  · exact step_ok_menuUp _ _ _
  · exact step_ok_menuDown _ _ _
  · exact step_ok_of_frame _ g _ rfl rfl rfl rfl
  · exact step_ok_menuBack _ _ _
  · exact step_ok_refl _ _

theorem step_ok_MENU_INFO (hwinfo : hwInfo_t) (msg : kbd_msg_t) (g : ui_globals) :
    step_ok hwinfo g (case_MENU_INFO msg g) := by
  unfold case_MENU_INFO
  split_ifs
  · exact step_ok_menuUp _ _ _
  · exact step_ok_menuDown _ _ _
  · exact step_ok_menuBack _ _ _
  · exact step_ok_refl _ _

theorem step_ok_SETTINGS_TIMEDATE (hwinfo : hwInfo_t) (msg : kbd_msg_t) (g : ui_globals) :
    step_ok hwinfo g (case_SETTINGS_TIMEDATE msg g) := by
  unfold case_SETTINGS_TIMEDATE
  split_ifs
  · exact step_ok_of_frame _ g _ rfl rfl rfl rfl
  · exact step_ok_menuBack _ _ _
  · exact step_ok_refl _ _

theorem step_ok_SETTINGS_TIMEDATE_SET (hwinfo : hwInfo_t) (cfg : build_cfg)
    (e : platform_env) (msg : kbd_msg_t) (g : ui_globals) :
    step_ok hwinfo g (case_SETTINGS_TIMEDATE_SET cfg e msg g) := by
  unfold case_SETTINGS_TIMEDATE_SET
  split_ifs
  all_goals first
    | exact step_ok_refl _ _
    | exact step_ok_menuBack _ _ _

theorem step_ok_display_adjust (hwinfo : hwInfo_t) (cfg : build_cfg) (b c : Int)
    (g : ui_globals) : step_ok hwinfo g (display_adjust cfg b c g) := by
  unfold display_adjust
  split_ifs
  · exact step_ok_changeBrightness _ _ _
  · exact step_ok_changeContrast _ _ _
  · exact step_ok_set_screen _ _ _

theorem step_ok_SETTINGS_DISPLAY (hwinfo : hwInfo_t) (cfg : build_cfg) (msg : kbd_msg_t)
    (g : ui_globals) : step_ok hwinfo g (case_SETTINGS_DISPLAY cfg msg g) := by
  unfold case_SETTINGS_DISPLAY
  split_ifs
  all_goals first
    | exact step_ok_display_adjust _ _ _ _ _
    | exact step_ok_menuUp _ _ _
    | exact step_ok_menuDown _ _ _
    | exact step_ok_menuBack _ _ _
    | exact step_ok_refl _ _

theorem step_ok_gps_adjust (hwinfo : hwInfo_t) (msg : kbd_msg_t) (g : ui_globals) :
    step_ok hwinfo g (gps_adjust msg g) := by
  unfold gps_adjust
  split_ifs
  all_goals first
    | exact step_ok_refl _ _

theorem step_ok_SETTINGS_GPS (hwinfo : hwInfo_t) (msg : kbd_msg_t) (g : ui_globals) :
    step_ok hwinfo g (case_SETTINGS_GPS msg g) := by
  unfold case_SETTINGS_GPS
  split_ifs
  all_goals first
    | exact step_ok_gps_adjust _ _ _
    | exact step_ok_menuUp _ _ _
    | exact step_ok_menuDown _ _ _
    | exact step_ok_menuBack _ _ _
    | exact step_ok_refl _ _

theorem step_ok_dispatch (cfg : build_cfg) (e : platform_env) (msg : kbd_msg_t)
    (g : ui_globals) : step_ok e.hwInfo g (fsm_dispatch cfg e msg g) := by
  unfold fsm_dispatch
  split
  · exact step_ok_MAIN_VFO cfg e msg g
  · exact step_ok_MAIN_VFO_INPUT cfg e msg g
  · exact step_ok_MAIN_MEM e msg g
  · exact step_ok_MENU_TOP _ cfg msg g
  · exact step_ok_MENU_LIST e msg g
  · exact step_ok_MENU_LIST e msg g
  · exact step_ok_MENU_LIST e msg g
  · split_ifs
    · exact step_ok_MENU_ESC_ONLY _ msg g
    · exact step_ok_refl _ _
  · exact step_ok_MENU_SETTINGS _ cfg msg g
  · exact step_ok_MENU_INFO _ msg g
  · exact step_ok_MENU_ESC_ONLY _ msg g
  · split_ifs
    · exact step_ok_SETTINGS_TIMEDATE _ msg g
    · exact step_ok_refl _ _
  · split_ifs
    · exact step_ok_SETTINGS_TIMEDATE_SET _ cfg e msg g
    · exact step_ok_refl _ _
  · exact step_ok_SETTINGS_DISPLAY _ cfg msg g
  · split_ifs
    · exact step_ok_SETTINGS_GPS _ msg g
    · exact step_ok_refl _ _
  · exact step_ok_refl _ _

theorem step_ok_updateFSM (cfg : build_cfg) (e : platform_env) (event : event_t)
    (g : ui_globals) : step_ok e.hwInfo g (ui_updateFSM cfg e event g) := by
  unfold ui_updateFSM
  dsimp only
  split_ifs
  · exact step_ok_refl _ _
  · exact step_ok_of_frame _ g _ rfl rfl rfl rfl
  · exact step_ok_of_frame _ g _ rfl rfl rfl rfl
  · refine step_ok_trans _ g _ _ ?_ (step_ok_menuMacro _ cfg e _ _)
    exact step_ok_of_frame _ g _ rfl rfl rfl rfl
  · refine step_ok_trans _ g _ _ ?_ (step_ok_dispatch cfg e _ _)
    exact step_ok_of_frame _ g _ rfl rfl rfl rfl
  · exact step_ok_refl _ _

/-- Claim C5: for every event processed by `ui_updateFSM` from every state, if
the channel (any field) or the squelch level after the event differs from its
value before, then the resync flag is set after the event. -/
theorem resync_contract (cfg : build_cfg) (e : platform_env) (event : event_t)
    (g : ui_globals)
    (h : (ui_updateFSM cfg e event g).state.channel ≠ g.state.channel ∨
         (ui_updateFSM cfg e event g).state.sqlLevel ≠ g.state.sqlLevel) :
    (ui_updateFSM cfg e event g).sync_rtx = true := by
  rcases (step_ok_updateFSM cfg e event g).1 with ⟨hc, hq, _⟩ | hs
  · rcases h with h | h
    · exact absurd hc h
    · exact absurd hq h
  · exact hs

/-- Claim C5 at the demonstration state with MONI and RIGHT held: the squelch
level changes and the resync flag is set. -/
theorem resync_contract_witness :
    (ui_updateFSM demo_cfg demo_env { type := EVENT_KBD, payload := key_moni_right }
      demo_globals).state.sqlLevel ≠ demo_globals.state.sqlLevel ∧
    (ui_updateFSM demo_cfg demo_env { type := EVENT_KBD, payload := key_moni_right }
      demo_globals).sync_rtx = true :=
  ⟨by decide,
   resync_contract demo_cfg demo_env { type := EVENT_KBD, payload := key_moni_right }
     demo_globals (Or.inr (by decide))⟩

/-- Claim C6: band validity is an invariant of the state machine. If the rx
and tx frequencies of both `state.channel` and `state.vfo_channel` pass
`_ui_freq_check_limits` under the band limits `hwinfo`, then after any event,
with any storage answers and the same band limits, they still do; hence also
after any sequence of events. -/
theorem band_valid_invariant (cfg : build_cfg) (hwinfo : hwInfo_t) (g : ui_globals)
    (h : band_valid hwinfo g) :
    (∀ (e : platform_env) (event : event_t), e.hwInfo = hwinfo →
      band_valid hwinfo (ui_updateFSM cfg e event g)) ∧
    (∀ events : List (platform_env × event_t), (∀ x ∈ events, x.1.hwInfo = hwinfo) →
      band_valid hwinfo (ui_run cfg events g)) := by
  have step : ∀ (e : platform_env) (event : event_t) (g1 : ui_globals),
      e.hwInfo = hwinfo → band_valid hwinfo g1 →
      band_valid hwinfo (ui_updateFSM cfg e event g1) := by
    intro e event g1 he hb
    have := (step_ok_updateFSM cfg e event g1).2
    rw [he] at this
    exact this hb
  refine ⟨fun e event he => step e event g he h, ?_⟩
  intro events
  induction events generalizing g with
  | nil => intro _; exact h
  | cons x xs ih =>
    intro hx
    simp only [ui_run, List.foldl_cons]
    exact ih _ (step x.1 x.2 g (hx x (List.mem_cons_self _ _)) h)
      (fun y hy => hx y (List.mem_cons_of_mem _ hy))

/-- Claim C6 at the demonstration state and an UP key event under the Linux
band limits. -/
theorem band_valid_invariant_witness :
    band_valid linux_hwInfo demo_globals ∧
    band_valid linux_hwInfo
      (ui_updateFSM demo_cfg demo_env { type := EVENT_KBD, payload := key_up } demo_globals) :=
  ⟨by decide,
   (band_valid_invariant demo_cfg linux_hwInfo demo_globals (by decide)).1 demo_env
     { type := EVENT_KBD, payload := key_up } rfl⟩

/-! ## Frequency entry, digit by digit -/

theorem checks_pass_of_entry (e : platform_env) (g0 g : ui_globals) (set : SetRxTx)
    (p rx tx : Nat) (h : entry_at g0 g set p rx tx) (hc : checks_pass e g0) :
    checks_pass e g := by
  obtain ⟨_, _, _, _, _, _, he, hch, _⟩ := h
  obtain ⟨hp, hb⟩ := hc
  refine ⟨hp, ?_⟩
  unfold low_battery at hb ⊢
  rw [he, hch]
  exact hb

theorem entry_at_macro_menu (g0 g : ui_globals) (set : SetRxTx) (p rx tx : Nat) (b : Bool)
    (h : entry_at g0 g set p rx tx) : entry_at g0 { g with macro_menu := b } set p rx tx :=
  h

theorem dispatch_MAIN_VFO (cfg : build_cfg) (e : platform_env) (msg : kbd_msg_t)
    (g : ui_globals) (h : g.state.ui_screen = MAIN_VFO) :
    fsm_dispatch cfg e msg g = case_MAIN_VFO cfg e msg g := by
  simp only [fsm_dispatch, h]

theorem dispatch_MAIN_VFO_INPUT (cfg : build_cfg) (e : platform_env) (msg : kbd_msg_t)
    (g : ui_globals) (h : g.state.ui_screen = MAIN_VFO_INPUT) :
    fsm_dispatch cfg e msg g = case_MAIN_VFO_INPUT cfg e msg g := by
  simp only [fsm_dispatch, h]

theorem dispatch_MAIN_MEM (cfg : build_cfg) (e : platform_env) (msg : kbd_msg_t)
    (g : ui_globals) (h : g.state.ui_screen = MAIN_MEM) :
    fsm_dispatch cfg e msg g = case_MAIN_MEM e msg g := by
  simp only [fsm_dispatch, h]

theorem dispatch_MENU_TOP (cfg : build_cfg) (e : platform_env) (msg : kbd_msg_t)
    (g : ui_globals) (h : g.state.ui_screen = MENU_TOP) :
    fsm_dispatch cfg e msg g = case_MENU_TOP cfg msg g := by
  simp only [fsm_dispatch, h]

theorem dispatch_MENU_LIST (cfg : build_cfg) (e : platform_env) (msg : kbd_msg_t)
    (g : ui_globals)
    (h : g.state.ui_screen = MENU_ZONE ∨ g.state.ui_screen = MENU_CHANNEL ∨
      g.state.ui_screen = MENU_CONTACTS) :
    fsm_dispatch cfg e msg g = case_MENU_LIST e msg g := by
  rcases h with h | h | h <;> simp only [fsm_dispatch, h]

theorem input_digit_step (cfg : build_cfg) (e : platform_env) (msg : kbd_msg_t)
    (g0 g : ui_globals) (set : SetRxTx) (p rx tx : Nat) (h : entry_at g0 g set p rx tx)
    (hc : checks_pass e g0) (hk : is_digit_key msg) :
    ui_updateFSM cfg e { type := EVENT_KBD, payload := msg } g =
      _ui_fsm_insertVFONumber cfg e msg { g with macro_menu := false } := by
  obtain ⟨a1, a2, a3, a4, a5, a6⟩ := hk
  rw [ui_updateFSM_dispatch cfg e msg g (checks_pass_of_entry e g0 g set p rx tx h hc) a6]
  rw [dispatch_MAIN_VFO_INPUT cfg e msg { g with macro_menu := false } h.1,
    case_MAIN_VFO_INPUT]
  simp [a1, a2, a3, a4, a5]

theorem insert_rx (cfg : build_cfg) (e : platform_env) (msg : kbd_msg_t) (g0 g : ui_globals)
    (p rx tx : Nat) (h : entry_at g0 g SET_RX p rx tx) (hp1 : 1 ≤ p)
    (hp2 : p + 1 < cfg.FREQ_DIGITS) (hp3 : p < 255) :
    entry_at g0 (_ui_fsm_insertVFONumber cfg e msg g) SET_RX (p + 1)
      (_ui_freq_add_digit cfg rx (p + 1) msg.pressedNumber) tx := by
  obtain ⟨h1, h2, h3, h4, h5, h6, h7, h8, h9⟩ := h
  have hm : (p + 1) % 256 = p + 1 := Nat.mod_eq_of_lt (by omega)
  have hne : ¬ (p + 1 = 1) := by omega
  have hlt : ¬ (p + 1 ≥ cfg.FREQ_DIGITS) := by omega
  unfold entry_at
  simp [_ui_fsm_insertVFONumber, h1, h2, h3, h4, h5, h6, h7, h8, h9, hm, hne, hlt]

theorem insert_rx_last (cfg : build_cfg) (e : platform_env) (msg : kbd_msg_t)
    (g0 g : ui_globals) (p rx tx : Nat) (h : entry_at g0 g SET_RX p rx tx) (hp1 : 1 ≤ p)
    (hp2 : p + 1 = cfg.FREQ_DIGITS) (hp3 : p < 255) :
    entry_at g0 (_ui_fsm_insertVFONumber cfg e msg g) SET_TX 0
      (_ui_freq_add_digit cfg rx (p + 1) msg.pressedNumber) 0 := by
  obtain ⟨h1, h2, h3, h4, h5, h6, h7, h8, h9⟩ := h
  have hm : (p + 1) % 256 = p + 1 := Nat.mod_eq_of_lt (by omega)
  have hne : ¬ (p + 1 = 1) := by omega
  have hge : p + 1 ≥ cfg.FREQ_DIGITS := by omega
  unfold entry_at
  simp [_ui_fsm_insertVFONumber, h1, h2, h3, h4, h5, h6, h7, h8, h9, hm, hne, hge]

theorem insert_tx_first (cfg : build_cfg) (e : platform_env) (msg : kbd_msg_t)
    (g0 g : ui_globals) (rx tx : Nat) (h : entry_at g0 g SET_TX 0 rx tx)
    (hp2 : 1 < cfg.FREQ_DIGITS) :
    entry_at g0 (_ui_fsm_insertVFONumber cfg e msg g) SET_TX 1 rx
      (_ui_freq_add_digit cfg 0 1 msg.pressedNumber) := by
  obtain ⟨h1, h2, h3, h4, h5, h6, h7, h8, h9⟩ := h
  have hlt : ¬ (1 ≥ cfg.FREQ_DIGITS) := by omega
  unfold entry_at
  simp [_ui_fsm_insertVFONumber, h1, h2, h3, h4, h5, h6, h7, h8, h9, hlt]

theorem insert_tx (cfg : build_cfg) (e : platform_env) (msg : kbd_msg_t) (g0 g : ui_globals)
    (p rx tx : Nat) (h : entry_at g0 g SET_TX p rx tx) (hp1 : 1 ≤ p)
    (hp2 : p + 1 < cfg.FREQ_DIGITS) (hp3 : p < 255) :
    entry_at g0 (_ui_fsm_insertVFONumber cfg e msg g) SET_TX (p + 1) rx
      (_ui_freq_add_digit cfg tx (p + 1) msg.pressedNumber) := by
  obtain ⟨h1, h2, h3, h4, h5, h6, h7, h8, h9⟩ := h
  have hm : (p + 1) % 256 = p + 1 := Nat.mod_eq_of_lt (by omega)
  have hne : ¬ (p + 1 = 1) := by omega
  have hlt : ¬ (p + 1 ≥ cfg.FREQ_DIGITS) := by omega
  unfold entry_at
  simp [_ui_fsm_insertVFONumber, h1, h2, h3, h4, h5, h6, h7, h8, h9, hm, hne, hlt]

theorem insert_tx_last (cfg : build_cfg) (e : platform_env) (msg : kbd_msg_t)
    (g0 g : ui_globals) (p rx tx : Nat) (h : entry_at g0 g SET_TX p rx tx) (hp1 : 1 ≤ p)
    (hp2 : p + 1 = cfg.FREQ_DIGITS) (hp3 : p < 255) :
    (_ui_fsm_insertVFONumber cfg e msg g).state.ui_screen = MAIN_VFO ∧
    (_ui_freq_check_limits e.hwInfo rx = true ∧
      _ui_freq_check_limits e.hwInfo
        (_ui_freq_add_digit cfg tx (p + 1) msg.pressedNumber) = true →
      (_ui_fsm_insertVFONumber cfg e msg g).state.channel.rx_frequency = rx ∧
      (_ui_fsm_insertVFONumber cfg e msg g).state.channel.tx_frequency =
        _ui_freq_add_digit cfg tx (p + 1) msg.pressedNumber ∧
      (_ui_fsm_insertVFONumber cfg e msg g).sync_rtx = true) ∧
    (¬(_ui_freq_check_limits e.hwInfo rx = true ∧
      _ui_freq_check_limits e.hwInfo
        (_ui_freq_add_digit cfg tx (p + 1) msg.pressedNumber) = true) →
      (_ui_fsm_insertVFONumber cfg e msg g).state.channel = g0.state.channel ∧
      (_ui_fsm_insertVFONumber cfg e msg g).sync_rtx = g0.sync_rtx) := by
  obtain ⟨h1, h2, h3, h4, h5, h6, h7, h8, h9⟩ := h
  have hm : (p + 1) % 256 = p + 1 := Nat.mod_eq_of_lt (by omega)
  have hne : ¬ (p + 1 = 1) := by omega
  have hge : p + 1 ≥ cfg.FREQ_DIGITS := by omega
  refine ⟨?_, ?_, ?_⟩
  · simp [_ui_fsm_insertVFONumber, h2, h3, hm, hne, hge]
  · intro hv
    simp [_ui_fsm_insertVFONumber, h2, h3, h4, h5, hm, hne, hge, hv.1, hv.2]
  · intro hv
    simp [_ui_fsm_insertVFONumber, h2, h3, h4, h5, h6, h9, hm, hne, hge, hv]

theorem open_entry (cfg : build_cfg) (e : platform_env) (msg : kbd_msg_t) (g : ui_globals)
    (hscreen : g.state.ui_screen = MAIN_VFO) (hc : checks_pass e g) (hk : is_digit_key msg) :
    entry_at g (ui_updateFSM cfg e { type := EVENT_KBD, payload := msg } g) SET_RX 1
      (_ui_freq_add_digit cfg 0 1 msg.pressedNumber) 0 := by
  obtain ⟨a1, a2, a3, a4, a5, a6⟩ := hk
  rw [ui_updateFSM_dispatch cfg e msg g hc a6,
    dispatch_MAIN_VFO cfg e msg { g with macro_menu := false } hscreen, case_MAIN_VFO]
  unfold entry_at
  simp [set_screen, a1, a2, a3, a4, a5]

theorem step_rx (cfg : build_cfg) (e : platform_env) (msg : kbd_msg_t) (g0 g : ui_globals)
    (p rx tx : Nat) (h : entry_at g0 g SET_RX p rx tx) (hc : checks_pass e g0)
    (hk : is_digit_key msg) (hp1 : 1 ≤ p) (hp2 : p + 1 < cfg.FREQ_DIGITS) (hp3 : p < 255) :
    entry_at g0 (ui_updateFSM cfg e { type := EVENT_KBD, payload := msg } g) SET_RX (p + 1)
      (_ui_freq_add_digit cfg rx (p + 1) msg.pressedNumber) tx := by
  rw [input_digit_step cfg e msg g0 g SET_RX p rx tx h hc hk]
  exact insert_rx cfg e msg g0 _ p rx tx (entry_at_macro_menu g0 g SET_RX p rx tx false h)
    hp1 hp2 hp3

theorem step_rx_last (cfg : build_cfg) (e : platform_env) (msg : kbd_msg_t)
    (g0 g : ui_globals) (p rx tx : Nat) (h : entry_at g0 g SET_RX p rx tx)
    (hc : checks_pass e g0) (hk : is_digit_key msg) (hp1 : 1 ≤ p)
    (hp2 : p + 1 = cfg.FREQ_DIGITS) (hp3 : p < 255) :
    entry_at g0 (ui_updateFSM cfg e { type := EVENT_KBD, payload := msg } g) SET_TX 0
      (_ui_freq_add_digit cfg rx (p + 1) msg.pressedNumber) 0 := by
  rw [input_digit_step cfg e msg g0 g SET_RX p rx tx h hc hk]
  exact insert_rx_last cfg e msg g0 _ p rx tx
    (entry_at_macro_menu g0 g SET_RX p rx tx false h) hp1 hp2 hp3

theorem step_tx_first (cfg : build_cfg) (e : platform_env) (msg : kbd_msg_t)
    (g0 g : ui_globals) (rx tx : Nat) (h : entry_at g0 g SET_TX 0 rx tx)
    (hc : checks_pass e g0) (hk : is_digit_key msg) (hp2 : 1 < cfg.FREQ_DIGITS) :
    entry_at g0 (ui_updateFSM cfg e { type := EVENT_KBD, payload := msg } g) SET_TX 1 rx
      (_ui_freq_add_digit cfg 0 1 msg.pressedNumber) := by
  rw [input_digit_step cfg e msg g0 g SET_TX 0 rx tx h hc hk]
  exact insert_tx_first cfg e msg g0 _ rx tx
    (entry_at_macro_menu g0 g SET_TX 0 rx tx false h) hp2

theorem step_tx (cfg : build_cfg) (e : platform_env) (msg : kbd_msg_t) (g0 g : ui_globals)
    (p rx tx : Nat) (h : entry_at g0 g SET_TX p rx tx) (hc : checks_pass e g0)
    (hk : is_digit_key msg) (hp1 : 1 ≤ p) (hp2 : p + 1 < cfg.FREQ_DIGITS) (hp3 : p < 255) :
    entry_at g0 (ui_updateFSM cfg e { type := EVENT_KBD, payload := msg } g) SET_TX (p + 1) rx
      (_ui_freq_add_digit cfg tx (p + 1) msg.pressedNumber) := by
  rw [input_digit_step cfg e msg g0 g SET_TX p rx tx h hc hk]
  exact insert_tx cfg e msg g0 _ p rx tx (entry_at_macro_menu g0 g SET_TX p rx tx false h)
    hp1 hp2 hp3

theorem step_tx_last (cfg : build_cfg) (e : platform_env) (msg : kbd_msg_t)
    (g0 g : ui_globals) (p rx tx : Nat) (h : entry_at g0 g SET_TX p rx tx)
    (hc : checks_pass e g0) (hk : is_digit_key msg) (hp1 : 1 ≤ p)
    (hp2 : p + 1 = cfg.FREQ_DIGITS) (hp3 : p < 255) :
    (ui_updateFSM cfg e { type := EVENT_KBD, payload := msg } g).state.ui_screen = MAIN_VFO ∧
    (_ui_freq_check_limits e.hwInfo rx = true ∧
      _ui_freq_check_limits e.hwInfo
        (_ui_freq_add_digit cfg tx (p + 1) msg.pressedNumber) = true →
      (ui_updateFSM cfg e { type := EVENT_KBD, payload := msg } g).state.channel.rx_frequency
        = rx ∧
      (ui_updateFSM cfg e { type := EVENT_KBD, payload := msg } g).state.channel.tx_frequency
        = _ui_freq_add_digit cfg tx (p + 1) msg.pressedNumber ∧
      (ui_updateFSM cfg e { type := EVENT_KBD, payload := msg } g).sync_rtx = true) ∧
    (¬(_ui_freq_check_limits e.hwInfo rx = true ∧
      _ui_freq_check_limits e.hwInfo
        (_ui_freq_add_digit cfg tx (p + 1) msg.pressedNumber) = true) →
      (ui_updateFSM cfg e { type := EVENT_KBD, payload := msg } g).state.channel =
        g0.state.channel ∧
      (ui_updateFSM cfg e { type := EVENT_KBD, payload := msg } g).sync_rtx = g0.sync_rtx) := by
  rw [input_digit_step cfg e msg g0 g SET_TX p rx tx h hc hk]
  exact insert_tx_last cfg e msg g0 _ p rx tx
    (entry_at_macro_menu g0 g SET_TX p rx tx false h) hp1 hp2 hp3

/-- Sixteen dispatched digit key events from `MAIN_VFO`, written out. -/
theorem sixteen_digits (cfg : build_cfg) (hw : hwInfo_t) (g : ui_globals)
    (x1 x2 x3 x4 x5 x6 x7 x8 x9 x10 x11 x12 x13 x14 x15 x16 : platform_env × kbd_msg_t)
    (hcfg : cfg.FREQ_DIGITS = 8) (hscreen : g.state.ui_screen = MAIN_VFO)
    (hev : ∀ x ∈ [x1, x2, x3, x4, x5, x6, x7, x8, x9, x10, x11, x12, x13, x14, x15, x16],
      checks_pass x.1 g ∧ x.1.hwInfo = hw ∧ is_digit_key x.2)
    (g1 : ui_globals)
    (hg1 : g1 = (ui_updateFSM cfg x16.1 { type := EVENT_KBD, payload := x16.2 }
      (ui_updateFSM cfg x15.1 { type := EVENT_KBD, payload := x15.2 }
      (ui_updateFSM cfg x14.1 { type := EVENT_KBD, payload := x14.2 }
      (ui_updateFSM cfg x13.1 { type := EVENT_KBD, payload := x13.2 }
      (ui_updateFSM cfg x12.1 { type := EVENT_KBD, payload := x12.2 }
      (ui_updateFSM cfg x11.1 { type := EVENT_KBD, payload := x11.2 }
      (ui_updateFSM cfg x10.1 { type := EVENT_KBD, payload := x10.2 }
      (ui_updateFSM cfg x9.1 { type := EVENT_KBD, payload := x9.2 }
      (ui_updateFSM cfg x8.1 { type := EVENT_KBD, payload := x8.2 }
      (ui_updateFSM cfg x7.1 { type := EVENT_KBD, payload := x7.2 }
      (ui_updateFSM cfg x6.1 { type := EVENT_KBD, payload := x6.2 }
      (ui_updateFSM cfg x5.1 { type := EVENT_KBD, payload := x5.2 }
      (ui_updateFSM cfg x4.1 { type := EVENT_KBD, payload := x4.2 }
      (ui_updateFSM cfg x3.1 { type := EVENT_KBD, payload := x3.2 }
      (ui_updateFSM cfg x2.1 { type := EVENT_KBD, payload := x2.2 }
      (ui_updateFSM cfg x1.1 { type := EVENT_KBD, payload := x1.2 }
      g))))))))))))))))) :
    g1.state.ui_screen = MAIN_VFO ∧
    (_ui_freq_check_limits hw (freq_entry cfg ([x1.2.pressedNumber, x2.2.pressedNumber, x3.2.pressedNumber, x4.2.pressedNumber, x5.2.pressedNumber, x6.2.pressedNumber, x7.2.pressedNumber, x8.2.pressedNumber])) = true ∧
     _ui_freq_check_limits hw (freq_entry cfg ([x9.2.pressedNumber, x10.2.pressedNumber, x11.2.pressedNumber, x12.2.pressedNumber, x13.2.pressedNumber, x14.2.pressedNumber, x15.2.pressedNumber, x16.2.pressedNumber])) = true →
      g1.state.channel.rx_frequency = freq_entry cfg ([x1.2.pressedNumber, x2.2.pressedNumber, x3.2.pressedNumber, x4.2.pressedNumber, x5.2.pressedNumber, x6.2.pressedNumber, x7.2.pressedNumber, x8.2.pressedNumber]) ∧
      g1.state.channel.tx_frequency = freq_entry cfg ([x9.2.pressedNumber, x10.2.pressedNumber, x11.2.pressedNumber, x12.2.pressedNumber, x13.2.pressedNumber, x14.2.pressedNumber, x15.2.pressedNumber, x16.2.pressedNumber]) ∧
      g1.sync_rtx = true) ∧
    (¬(_ui_freq_check_limits hw (freq_entry cfg ([x1.2.pressedNumber, x2.2.pressedNumber, x3.2.pressedNumber, x4.2.pressedNumber, x5.2.pressedNumber, x6.2.pressedNumber, x7.2.pressedNumber, x8.2.pressedNumber])) = true ∧
     _ui_freq_check_limits hw (freq_entry cfg ([x9.2.pressedNumber, x10.2.pressedNumber, x11.2.pressedNumber, x12.2.pressedNumber, x13.2.pressedNumber, x14.2.pressedNumber, x15.2.pressedNumber, x16.2.pressedNumber])) = true) →
      g1.state.channel = g.state.channel ∧ g1.sync_rtx = g.sync_rtx) := by
  have e1 := hev x1 (by simp)
  have e2 := hev x2 (by simp)
  have e3 := hev x3 (by simp)
  have e4 := hev x4 (by simp)
  have e5 := hev x5 (by simp)
  have e6 := hev x6 (by simp)
  have e7 := hev x7 (by simp)
  have e8 := hev x8 (by simp)
  have e9 := hev x9 (by simp)
  have e10 := hev x10 (by simp)
  have e11 := hev x11 (by simp)
  have e12 := hev x12 (by simp)
  have e13 := hev x13 (by simp)
  have e14 := hev x14 (by simp)
  have e15 := hev x15 (by simp)
  have e16 := hev x16 (by simp)
  have s1 := open_entry cfg x1.1 x1.2 g hscreen e1.1 e1.2.2
  have s2 := step_rx cfg x2.1 x2.2 g _ _ _ _ s1 e2.1 e2.2.2 (by omega) (by omega) (by omega)
  have s3 := step_rx cfg x3.1 x3.2 g _ _ _ _ s2 e3.1 e3.2.2 (by omega) (by omega) (by omega)
  have s4 := step_rx cfg x4.1 x4.2 g _ _ _ _ s3 e4.1 e4.2.2 (by omega) (by omega) (by omega)
  have s5 := step_rx cfg x5.1 x5.2 g _ _ _ _ s4 e5.1 e5.2.2 (by omega) (by omega) (by omega)
  have s6 := step_rx cfg x6.1 x6.2 g _ _ _ _ s5 e6.1 e6.2.2 (by omega) (by omega) (by omega)
  have s7 := step_rx cfg x7.1 x7.2 g _ _ _ _ s6 e7.1 e7.2.2 (by omega) (by omega) (by omega)
  have s8 := step_rx_last cfg x8.1 x8.2 g _ _ _ _ s7 e8.1 e8.2.2 (by omega) (by omega) (by omega)
  have s9 := step_tx_first cfg x9.1 x9.2 g _ _ _ s8 e9.1 e9.2.2 (by omega)
  have s10 := step_tx cfg x10.1 x10.2 g _ _ _ _ s9 e10.1 e10.2.2 (by omega) (by omega) (by omega)
  have s11 := step_tx cfg x11.1 x11.2 g _ _ _ _ s10 e11.1 e11.2.2 (by omega) (by omega) (by omega)
  have s12 := step_tx cfg x12.1 x12.2 g _ _ _ _ s11 e12.1 e12.2.2 (by omega) (by omega) (by omega)
  have s13 := step_tx cfg x13.1 x13.2 g _ _ _ _ s12 e13.1 e13.2.2 (by omega) (by omega) (by omega)
  have s14 := step_tx cfg x14.1 x14.2 g _ _ _ _ s13 e14.1 e14.2.2 (by omega) (by omega) (by omega)
  have s15 := step_tx cfg x15.1 x15.2 g _ _ _ _ s14 e15.1 e15.2.2 (by omega) (by omega) (by omega)
  have s16 := step_tx_last cfg x16.1 x16.2 g _ _ _ _ s15 e16.1 e16.2.2 (by omega) (by omega) (by omega)
  rw [e16.2.1, ← hg1] at s16
  exact s16

/-- Claim C1: with `FREQ_DIGITS = 8`, starting on `MAIN_VFO`, for every sequence
of 16 digit key events that reach the per-screen dispatch (power on and no
low-battery lockout, under fixed band limits), after the 16th event the screen
is `MAIN_VFO`. Digits 1-8 build the rx value and digits 9-16 the tx value with
`_ui_freq_add_digit`; if both values pass `_ui_freq_check_limits` the channel
holds exactly these two frequencies and the resync flag is set, and if either
fails both channel frequencies are what they were before the first digit. -/
theorem vfo_entry_sixteen_digits (cfg : build_cfg) (hw : hwInfo_t) (g : ui_globals)
    (events : List (platform_env × kbd_msg_t))
    (hcfg : cfg.FREQ_DIGITS = 8) (hscreen : g.state.ui_screen = MAIN_VFO)
    (hlen : events.length = 16)
    (hev : ∀ x ∈ events, checks_pass x.1 g ∧ x.1.hwInfo = hw ∧ is_digit_key x.2) :
    (ui_run cfg (events.map fun x => (x.1, { type := EVENT_KBD, payload := x.2 }))
      g).state.ui_screen = MAIN_VFO ∧
    (_ui_freq_check_limits hw
        (freq_entry cfg ((events.take 8).map fun x => x.2.pressedNumber)) = true ∧
     _ui_freq_check_limits hw
        (freq_entry cfg ((events.drop 8).map fun x => x.2.pressedNumber)) = true →
      (ui_run cfg (events.map fun x => (x.1, { type := EVENT_KBD, payload := x.2 }))
        g).state.channel.rx_frequency =
        freq_entry cfg ((events.take 8).map fun x => x.2.pressedNumber) ∧
      (ui_run cfg (events.map fun x => (x.1, { type := EVENT_KBD, payload := x.2 }))
        g).state.channel.tx_frequency =
        freq_entry cfg ((events.drop 8).map fun x => x.2.pressedNumber) ∧
      (ui_run cfg (events.map fun x => (x.1, { type := EVENT_KBD, payload := x.2 }))
        g).sync_rtx = true) ∧
    (¬(_ui_freq_check_limits hw
        (freq_entry cfg ((events.take 8).map fun x => x.2.pressedNumber)) = true ∧
     _ui_freq_check_limits hw
        (freq_entry cfg ((events.drop 8).map fun x => x.2.pressedNumber)) = true) →
      (ui_run cfg (events.map fun x => (x.1, { type := EVENT_KBD, payload := x.2 }))
        g).state.channel.rx_frequency = g.state.channel.rx_frequency ∧
      (ui_run cfg (events.map fun x => (x.1, { type := EVENT_KBD, payload := x.2 }))
        g).state.channel.tx_frequency = g.state.channel.tx_frequency) := by
  rcases events with _ | ⟨x1, events⟩
  · simp at hlen
  rcases events with _ | ⟨x2, events⟩
  · simp at hlen
  rcases events with _ | ⟨x3, events⟩
  · simp at hlen
  rcases events with _ | ⟨x4, events⟩
  · simp at hlen
  rcases events with _ | ⟨x5, events⟩
  · simp at hlen
  rcases events with _ | ⟨x6, events⟩
  · simp at hlen
  rcases events with _ | ⟨x7, events⟩
  · simp at hlen
  rcases events with _ | ⟨x8, events⟩
  · simp at hlen
  rcases events with _ | ⟨x9, events⟩
  · simp at hlen
  rcases events with _ | ⟨x10, events⟩
  · simp at hlen
  rcases events with _ | ⟨x11, events⟩
  · simp at hlen
  rcases events with _ | ⟨x12, events⟩
  · simp at hlen
  rcases events with _ | ⟨x13, events⟩
  · simp at hlen
  rcases events with _ | ⟨x14, events⟩
  · simp at hlen
  rcases events with _ | ⟨x15, events⟩
  · simp at hlen
  rcases events with _ | ⟨x16, events⟩
  · simp at hlen
  rcases events with _ | ⟨x17, events⟩
  swap
  · simp at hlen
  have key := sixteen_digits cfg hw g x1 x2 x3 x4 x5 x6 x7 x8 x9 x10 x11 x12 x13 x14 x15 x16 hcfg hscreen hev _ rfl
  refine ⟨key.1, key.2.1, fun hn => ?_⟩
  have hch := (key.2.2 hn).1
  exact ⟨congrArg channel_t.rx_frequency hch, congrArg channel_t.tx_frequency hch⟩

/-- Claim C1 at the demonstration state: entering 1,4,5,0,0,0,0,0 and
1,4,5,6,0,0,0,0 returns to `MAIN_VFO` with rx 145000000 Hz and tx 145600000 Hz. -/
theorem vfo_entry_sixteen_digits_witness :
    demo_cfg.FREQ_DIGITS = 8 ∧ demo_globals.state.ui_screen = MAIN_VFO ∧
    demo_entry_events.length = 16 ∧
    (ui_run demo_cfg
      (demo_entry_events.map fun x => (x.1, { type := EVENT_KBD, payload := x.2 }))
      demo_globals).state.ui_screen = MAIN_VFO ∧
    (ui_run demo_cfg
      (demo_entry_events.map fun x => (x.1, { type := EVENT_KBD, payload := x.2 }))
      demo_globals).state.channel.rx_frequency = 145000000 ∧
    (ui_run demo_cfg
      (demo_entry_events.map fun x => (x.1, { type := EVENT_KBD, payload := x.2 }))
      demo_globals).state.channel.tx_frequency = 145600000 :=
  have h := vfo_entry_sixteen_digits demo_cfg linux_hwInfo demo_globals demo_entry_events
    rfl rfl rfl (by decide)
  ⟨rfl, rfl, rfl, h.1, (h.2.1 (by decide)).1.trans (by decide),
    (h.2.1 (by decide)).2.1.trans (by decide)⟩

/-! ## Main screens -/

/-- A dispatched key event without MONI on `MAIN_VFO` runs `case_MAIN_VFO`. -/
theorem updateFSM_MAIN_VFO (cfg : build_cfg) (e : platform_env) (msg : kbd_msg_t)
    (g : ui_globals) (hscreen : g.state.ui_screen = MAIN_VFO) (hc : checks_pass e g)
    (hm : msg.KEY_MONI = false) :
    ui_updateFSM cfg e { type := EVENT_KBD, payload := msg } g =
      case_MAIN_VFO cfg e msg { g with macro_menu := false } := by
  rw [ui_updateFSM_dispatch cfg e msg g hc hm,
    dispatch_MAIN_VFO cfg e msg { g with macro_menu := false } hscreen]

theorem case_MAIN_VFO_up (cfg : build_cfg) (e : platform_env) (msg : kbd_msg_t)
    (g : ui_globals) (hup : msg.KEY_UP = true) :
    case_MAIN_VFO cfg e msg g =
      if _ui_freq_check_limits e.hwInfo (freq_step_up g.state.channel.rx_frequency) = true ∧
         _ui_freq_check_limits e.hwInfo (freq_step_up g.state.channel.tx_frequency) = true then
        { set_channel g { g.state.channel with
            rx_frequency := freq_step_up g.state.channel.rx_frequency
            tx_frequency := freq_step_up g.state.channel.tx_frequency }
          with sync_rtx := true }
      else g := by
  rw [case_MAIN_VFO, if_pos hup]

theorem case_MAIN_VFO_down (cfg : build_cfg) (e : platform_env) (msg : kbd_msg_t)
    (g : ui_globals) (hup : msg.KEY_UP = false) (hdown : msg.KEY_DOWN = true) :
    case_MAIN_VFO cfg e msg g =
      if _ui_freq_check_limits e.hwInfo (freq_step_down g.state.channel.rx_frequency) = true ∧
         _ui_freq_check_limits e.hwInfo (freq_step_down g.state.channel.tx_frequency) = true then
        { set_channel g { g.state.channel with
            rx_frequency := freq_step_down g.state.channel.rx_frequency
            tx_frequency := freq_step_down g.state.channel.tx_frequency }
          with sync_rtx := true }
      else g := by
  rw [case_MAIN_VFO, if_neg (by rw [hup]; exact Bool.false_ne_true), if_pos hdown]

/-- Projections of a state whose two frequencies were replaced. -/
theorem set_freqs_proj (g : ui_globals) (rx tx : Nat) :
    ({ set_channel g { g.state.channel with rx_frequency := rx, tx_frequency := tx }
       with sync_rtx := true } : ui_globals).state.ui_screen = g.state.ui_screen ∧
    ({ set_channel g { g.state.channel with rx_frequency := rx, tx_frequency := tx }
       with sync_rtx := true } : ui_globals).state.channel.rx_frequency = rx ∧
    ({ set_channel g { g.state.channel with rx_frequency := rx, tx_frequency := tx }
       with sync_rtx := true } : ui_globals).state.channel.tx_frequency = tx ∧
    ({ set_channel g { g.state.channel with rx_frequency := rx, tx_frequency := tx }
       with sync_rtx := true } : ui_globals).sync_rtx = true ∧
    ({ set_channel g { g.state.channel with rx_frequency := rx, tx_frequency := tx }
       with sync_rtx := true } : ui_globals).macro_menu = g.macro_menu :=
  ⟨rfl, rfl, rfl, rfl, rfl⟩

/-- Effect of the UP branch of `MAIN_VFO` on any state. -/
theorem vfo_step_up (cfg : build_cfg) (e : platform_env) (msg : kbd_msg_t)
    (g : ui_globals) (hup : msg.KEY_UP = true) :
    (case_MAIN_VFO cfg e msg g).state.ui_screen = g.state.ui_screen ∧
    (case_MAIN_VFO cfg e msg g).macro_menu = g.macro_menu ∧
    (_ui_freq_check_limits e.hwInfo (freq_step_up g.state.channel.rx_frequency) = true ∧
     _ui_freq_check_limits e.hwInfo (freq_step_up g.state.channel.tx_frequency) = true →
      (case_MAIN_VFO cfg e msg g).state.channel.rx_frequency =
        freq_step_up g.state.channel.rx_frequency ∧
      (case_MAIN_VFO cfg e msg g).state.channel.tx_frequency =
        freq_step_up g.state.channel.tx_frequency ∧
      (case_MAIN_VFO cfg e msg g).sync_rtx = true) ∧
    (¬(_ui_freq_check_limits e.hwInfo (freq_step_up g.state.channel.rx_frequency) = true ∧
     _ui_freq_check_limits e.hwInfo (freq_step_up g.state.channel.tx_frequency) = true) →
      case_MAIN_VFO cfg e msg g = g) := by
  rw [case_MAIN_VFO_up cfg e msg g hup]
  have P := set_freqs_proj g (freq_step_up g.state.channel.rx_frequency)
    (freq_step_up g.state.channel.tx_frequency)
  by_cases hv : _ui_freq_check_limits e.hwInfo (freq_step_up g.state.channel.rx_frequency)
      = true ∧
     _ui_freq_check_limits e.hwInfo (freq_step_up g.state.channel.tx_frequency) = true
  · rw [if_pos hv]
    exact ⟨P.1, P.2.2.2.2, fun _ => ⟨P.2.1, P.2.2.1, P.2.2.2.1⟩, fun hn => absurd hv hn⟩
  · rw [if_neg hv]
    exact ⟨rfl, rfl, fun h => absurd h hv, fun _ => rfl⟩

/-- Effect of the DOWN branch of `MAIN_VFO` on any state. -/
theorem vfo_step_down (cfg : build_cfg) (e : platform_env) (msg : kbd_msg_t)
    (g : ui_globals) (hup : msg.KEY_UP = false) (hdown : msg.KEY_DOWN = true) :
    (case_MAIN_VFO cfg e msg g).state.ui_screen = g.state.ui_screen ∧
    (case_MAIN_VFO cfg e msg g).macro_menu = g.macro_menu ∧
    (_ui_freq_check_limits e.hwInfo (freq_step_down g.state.channel.rx_frequency) = true ∧
     _ui_freq_check_limits e.hwInfo (freq_step_down g.state.channel.tx_frequency) = true →
      (case_MAIN_VFO cfg e msg g).state.channel.rx_frequency =
        freq_step_down g.state.channel.rx_frequency ∧
      (case_MAIN_VFO cfg e msg g).state.channel.tx_frequency =
        freq_step_down g.state.channel.tx_frequency ∧
      (case_MAIN_VFO cfg e msg g).sync_rtx = true) ∧
    (¬(_ui_freq_check_limits e.hwInfo (freq_step_down g.state.channel.rx_frequency) = true ∧
     _ui_freq_check_limits e.hwInfo (freq_step_down g.state.channel.tx_frequency) = true) →
      case_MAIN_VFO cfg e msg g = g) := by
  rw [case_MAIN_VFO_down cfg e msg g hup hdown]
  have P := set_freqs_proj g (freq_step_down g.state.channel.rx_frequency)
    (freq_step_down g.state.channel.tx_frequency)
  by_cases hv : _ui_freq_check_limits e.hwInfo (freq_step_down g.state.channel.rx_frequency)
      = true ∧
     _ui_freq_check_limits e.hwInfo (freq_step_down g.state.channel.tx_frequency) = true
  · rw [if_pos hv]
    exact ⟨P.1, P.2.2.2.2, fun _ => ⟨P.2.1, P.2.2.1, P.2.2.2.1⟩, fun hn => absurd hv hn⟩
  · rw [if_neg hv]
    exact ⟨rfl, rfl, fun h => absurd h hv, fun _ => rfl⟩

/-- Claim C11: on `MAIN_VFO`, a dispatched UP key event replaces both
frequencies by the frequency plus 12500 Hz (as 32-bit sums) and sets the resync
flag when both stepped frequencies pass `_ui_freq_check_limits`, and otherwise
leaves the channel and the flag unchanged; a DOWN key event (without UP) does
the same with minus 12500 Hz. In every case the screen stays `MAIN_VFO`. -/
theorem vfo_frequency_step (cfg : build_cfg) (e : platform_env) (msg : kbd_msg_t)
    (g : ui_globals) (hscreen : g.state.ui_screen = MAIN_VFO) (hc : checks_pass e g)
    (hm : msg.KEY_MONI = false) :
    (msg.KEY_UP = true →
      (ui_updateFSM cfg e { type := EVENT_KBD, payload := msg } g).state.ui_screen =
        MAIN_VFO ∧
      (_ui_freq_check_limits e.hwInfo (freq_step_up g.state.channel.rx_frequency) = true ∧
       _ui_freq_check_limits e.hwInfo (freq_step_up g.state.channel.tx_frequency) = true →
        (ui_updateFSM cfg e { type := EVENT_KBD, payload := msg }
          g).state.channel.rx_frequency = freq_step_up g.state.channel.rx_frequency ∧
        (ui_updateFSM cfg e { type := EVENT_KBD, payload := msg }
          g).state.channel.tx_frequency = freq_step_up g.state.channel.tx_frequency ∧
        (ui_updateFSM cfg e { type := EVENT_KBD, payload := msg } g).sync_rtx = true) ∧
      (¬(_ui_freq_check_limits e.hwInfo (freq_step_up g.state.channel.rx_frequency) = true ∧
       _ui_freq_check_limits e.hwInfo (freq_step_up g.state.channel.tx_frequency) = true) →
        (ui_updateFSM cfg e { type := EVENT_KBD, payload := msg } g).state.channel =
          g.state.channel ∧
        (ui_updateFSM cfg e { type := EVENT_KBD, payload := msg } g).sync_rtx =
          g.sync_rtx)) ∧
    (msg.KEY_UP = false → msg.KEY_DOWN = true →
      (ui_updateFSM cfg e { type := EVENT_KBD, payload := msg } g).state.ui_screen =
        MAIN_VFO ∧
      (_ui_freq_check_limits e.hwInfo (freq_step_down g.state.channel.rx_frequency) = true ∧
       _ui_freq_check_limits e.hwInfo (freq_step_down g.state.channel.tx_frequency) = true →
        (ui_updateFSM cfg e { type := EVENT_KBD, payload := msg }
          g).state.channel.rx_frequency = freq_step_down g.state.channel.rx_frequency ∧
        (ui_updateFSM cfg e { type := EVENT_KBD, payload := msg }
          g).state.channel.tx_frequency = freq_step_down g.state.channel.tx_frequency ∧
        (ui_updateFSM cfg e { type := EVENT_KBD, payload := msg } g).sync_rtx = true) ∧
      (¬(_ui_freq_check_limits e.hwInfo (freq_step_down g.state.channel.rx_frequency) = true ∧
       _ui_freq_check_limits e.hwInfo (freq_step_down g.state.channel.tx_frequency) = true) →
        (ui_updateFSM cfg e { type := EVENT_KBD, payload := msg } g).state.channel =
          g.state.channel ∧
        (ui_updateFSM cfg e { type := EVENT_KBD, payload := msg } g).sync_rtx =
          g.sync_rtx)) ∧
    (∀ f : Nat, f + 12500 < 2 ^ 32 → freq_step_up f = f + 12500) ∧
    (∀ f : Nat, 12500 ≤ f → f < 2 ^ 32 → freq_step_down f = f - 12500) := by
  rw [updateFSM_MAIN_VFO cfg e msg g hscreen hc hm]
  refine ⟨fun hup => ?_, fun hup hdown => ?_, ?_, ?_⟩
  · have U := vfo_step_up cfg e msg { g with macro_menu := false } hup
    refine ⟨U.1.trans hscreen, U.2.2.1, fun hv => ?_⟩
    rw [U.2.2.2 hv]
    exact ⟨rfl, rfl⟩
  · have D := vfo_step_down cfg e msg { g with macro_menu := false } hup hdown
    refine ⟨D.1.trans hscreen, D.2.2.1, fun hv => ?_⟩
    rw [D.2.2.2 hv]
    exact ⟨rfl, rfl⟩
  · intro f hf
    unfold freq_step_up
    exact Nat.mod_eq_of_lt hf
  · intro f h1 h2
    unfold freq_step_down
    omega

/-- Claim C11 at the demonstration state (430 MHz) and an UP key event: the
screen stays `MAIN_VFO` and rx becomes 430012500 Hz. -/
theorem vfo_frequency_step_witness :
    (demo_globals.state.ui_screen = MAIN_VFO ∧ checks_pass demo_env demo_globals ∧
     key_up.KEY_MONI = false ∧ key_up.KEY_UP = true) ∧
    (ui_updateFSM demo_cfg demo_env { type := EVENT_KBD, payload := key_up }
      demo_globals).state.ui_screen = MAIN_VFO ∧
    (ui_updateFSM demo_cfg demo_env { type := EVENT_KBD, payload := key_up }
      demo_globals).state.channel.rx_frequency = 430012500 :=
  have h := (vfo_frequency_step demo_cfg demo_env key_up demo_globals rfl (by decide) rfl).1 rfl
  ⟨by decide, h.1, (h.2.1 (by decide)).1.trans (by decide)⟩

/-- Claim C12 fails on the code: on `MAIN_VFO`, ESC with a storage read that
succeeds but returns a channel outside the band limits still switches to
`MAIN_MEM` (the test is on the read code alone), with the old channel kept. -/
theorem vfo_esc_accepts_invalid_channel :
    demo_globals.state.ui_screen = MAIN_VFO ∧
    (out_of_band_env.nvm_readChannelData demo_globals.state.channel_index).result ≠ -1 ∧
    _ui_channel_valid out_of_band_env.hwInfo
      (out_of_band_env.nvm_readChannelData demo_globals.state.channel_index).data = false ∧
    (ui_updateFSM demo_cfg out_of_band_env { type := EVENT_KBD, payload := key_esc }
      demo_globals).state.ui_screen = MAIN_MEM ∧
    (ui_updateFSM demo_cfg out_of_band_env { type := EVENT_KBD, payload := key_esc }
      demo_globals).state.channel = demo_globals.state.channel ∧
    (ui_updateFSM demo_cfg out_of_band_env { type := EVENT_KBD, payload := key_esc }
      demo_globals).state.vfo_channel = demo_globals.state.channel := by
  decide

/-- A dispatched key event without MONI on `MAIN_VFO_INPUT` runs
`case_MAIN_VFO_INPUT`. -/
theorem updateFSM_MAIN_VFO_INPUT (cfg : build_cfg) (e : platform_env) (msg : kbd_msg_t)
    (g : ui_globals) (hscreen : g.state.ui_screen = MAIN_VFO_INPUT) (hc : checks_pass e g)
    (hm : msg.KEY_MONI = false) :
    ui_updateFSM cfg e { type := EVENT_KBD, payload := msg } g =
      case_MAIN_VFO_INPUT cfg e msg { g with macro_menu := false } := by
  rw [ui_updateFSM_dispatch cfg e msg g hc hm,
    dispatch_MAIN_VFO_INPUT cfg e msg { g with macro_menu := false } hscreen]

/-- ENTER with the rx field as target. -/
theorem confirm_rx (e : platform_env) (g : ui_globals) (h : g.ui_state.input_set = SET_RX) :
    (_ui_fsm_confirmVFOInput e g).ui_state.input_set = SET_TX ∧
    (_ui_fsm_confirmVFOInput e g).ui_state.input_position = 0 ∧
    (_ui_fsm_confirmVFOInput e g).state = g.state ∧
    (_ui_fsm_confirmVFOInput e g).sync_rtx = g.sync_rtx := by
  simp [_ui_fsm_confirmVFOInput, h]

/-- ENTER with the tx field as target. -/
theorem confirm_tx (e : platform_env) (g : ui_globals) (h : g.ui_state.input_set = SET_TX)
    (tx : Nat)
    (htx : tx = if g.ui_state.new_tx_frequency = 0 then g.ui_state.new_rx_frequency
      else g.ui_state.new_tx_frequency) :
    (_ui_fsm_confirmVFOInput e g).state.ui_screen = MAIN_VFO ∧
    (_ui_freq_check_limits e.hwInfo g.ui_state.new_rx_frequency = true ∧
      _ui_freq_check_limits e.hwInfo tx = true →
      (_ui_fsm_confirmVFOInput e g).state.channel.rx_frequency =
        g.ui_state.new_rx_frequency ∧
      (_ui_fsm_confirmVFOInput e g).state.channel.tx_frequency = tx ∧
      (_ui_fsm_confirmVFOInput e g).sync_rtx = true) ∧
    (¬(_ui_freq_check_limits e.hwInfo g.ui_state.new_rx_frequency = true ∧
      _ui_freq_check_limits e.hwInfo tx = true) →
      (_ui_fsm_confirmVFOInput e g).state.channel = g.state.channel ∧
      (_ui_fsm_confirmVFOInput e g).sync_rtx = g.sync_rtx) := by
  subst htx
  by_cases h0 : g.ui_state.new_tx_frequency = 0
  · refine ⟨?_, fun hv => ?_, fun hv => ?_⟩
    · simp [_ui_fsm_confirmVFOInput, h, h0]
    · rw [if_pos h0] at hv
      simp [_ui_fsm_confirmVFOInput, h, h0, hv.1]
    · rw [if_pos h0] at hv
      have hv1 : ¬ _ui_freq_check_limits e.hwInfo g.ui_state.new_rx_frequency = true :=
        fun a => hv ⟨a, a⟩
      simp [_ui_fsm_confirmVFOInput, h, h0, hv1]
  · refine ⟨?_, fun hv => ?_, fun hv => ?_⟩
    · simp [_ui_fsm_confirmVFOInput, h, h0]
    · rw [if_neg h0] at hv
      simp [_ui_fsm_confirmVFOInput, h, h0, hv.1, hv.2]
    · rw [if_neg h0] at hv
      simp [_ui_fsm_confirmVFOInput, h, h0, hv]

/-- Claim C13: on `MAIN_VFO_INPUT`, a dispatched ENTER key event with target rx
sets the target to tx and the entry position to 0 and leaves the screen and
the channel unchanged; with target tx, the value `tx` to commit is the pending
tx value, or the pending rx value when the pending tx value is 0; both pending
values are written to the channel and the resync flag is set when both pass
`_ui_freq_check_limits`, otherwise channel and flag are unchanged; the screen
becomes `MAIN_VFO` either way. -/
theorem vfo_input_enter (cfg : build_cfg) (e : platform_env) (msg : kbd_msg_t)
    (g : ui_globals) (hscreen : g.state.ui_screen = MAIN_VFO_INPUT) (hc : checks_pass e g)
    (hm : msg.KEY_MONI = false) (he : msg.KEY_ENTER = true) :
    (g.ui_state.input_set = SET_RX →
      (ui_updateFSM cfg e { type := EVENT_KBD, payload := msg } g).ui_state.input_set =
        SET_TX ∧
      (ui_updateFSM cfg e { type := EVENT_KBD, payload := msg } g).ui_state.input_position =
        0 ∧
      (ui_updateFSM cfg e { type := EVENT_KBD, payload := msg } g).state.ui_screen =
        MAIN_VFO_INPUT ∧
      (ui_updateFSM cfg e { type := EVENT_KBD, payload := msg } g).state.channel =
        g.state.channel) ∧
    (g.ui_state.input_set = SET_TX →
      ∀ tx : Nat,
      tx = (if g.ui_state.new_tx_frequency = 0 then g.ui_state.new_rx_frequency
        else g.ui_state.new_tx_frequency) →
      (ui_updateFSM cfg e { type := EVENT_KBD, payload := msg } g).state.ui_screen =
        MAIN_VFO ∧
      (_ui_freq_check_limits e.hwInfo g.ui_state.new_rx_frequency = true ∧
        _ui_freq_check_limits e.hwInfo tx = true →
        (ui_updateFSM cfg e { type := EVENT_KBD, payload := msg }
          g).state.channel.rx_frequency = g.ui_state.new_rx_frequency ∧
        (ui_updateFSM cfg e { type := EVENT_KBD, payload := msg }
          g).state.channel.tx_frequency = tx ∧
        (ui_updateFSM cfg e { type := EVENT_KBD, payload := msg } g).sync_rtx = true) ∧
      (¬(_ui_freq_check_limits e.hwInfo g.ui_state.new_rx_frequency = true ∧
        _ui_freq_check_limits e.hwInfo tx = true) →
        (ui_updateFSM cfg e { type := EVENT_KBD, payload := msg } g).state.channel =
          g.state.channel ∧
        (ui_updateFSM cfg e { type := EVENT_KBD, payload := msg } g).sync_rtx =
          g.sync_rtx)) := by
  rw [updateFSM_MAIN_VFO_INPUT cfg e msg g hscreen hc hm, case_MAIN_VFO_INPUT, if_pos he]
  constructor
  · intro hset
    have R := confirm_rx e { g with macro_menu := false } hset
    refine ⟨R.1, R.2.1, ?_, ?_⟩
    · rw [R.2.2.1]; exact hscreen
    · rw [R.2.2.1]
  · intro hset tx htx
    exact confirm_tx e { g with macro_menu := false } hset tx htx

/-- Claim C13 at the demonstration state in the middle of an entry: target tx, rx pending
145 MHz, tx not entered. -/
theorem vfo_input_enter_witness :
    (ui_updateFSM demo_cfg demo_env { type := EVENT_KBD, payload := key_enter }
      { demo_on MAIN_VFO_INPUT with
        ui_state := { ui_state_zero with input_set := SET_TX,
                                         new_rx_frequency := 145000000 } }).state.ui_screen =
      MAIN_VFO ∧
    (ui_updateFSM demo_cfg demo_env { type := EVENT_KBD, payload := key_enter }
      { demo_on MAIN_VFO_INPUT with
        ui_state := { ui_state_zero with input_set := SET_TX,
                                         new_rx_frequency := 145000000 }
      }).state.channel.tx_frequency = 145000000 :=
  have h := (vfo_input_enter demo_cfg demo_env key_enter
    { demo_on MAIN_VFO_INPUT with
      ui_state := { ui_state_zero with input_set := SET_TX, new_rx_frequency := 145000000 } }
    rfl (by decide) rfl rfl).2 rfl 145000000 (by decide)
  ⟨h.1, (h.2.1 (by decide)).2.1⟩

/-- A dispatched key event without MONI on `MAIN_MEM` runs `case_MAIN_MEM`. -/
theorem updateFSM_MAIN_MEM (cfg : build_cfg) (e : platform_env) (msg : kbd_msg_t)
    (g : ui_globals) (hscreen : g.state.ui_screen = MAIN_MEM) (hc : checks_pass e g)
    (hm : msg.KEY_MONI = false) :
    ui_updateFSM cfg e { type := EVENT_KBD, payload := msg } g =
      case_MAIN_MEM e msg { g with macro_menu := false } := by
  rw [ui_updateFSM_dispatch cfg e msg g hc hm,
    dispatch_MAIN_MEM cfg e msg { g with macro_menu := false } hscreen]

/-- A load whose read misses or returns an invalid channel changes nothing. -/
theorem loadChannel_fail (e : platform_env) (zone_index : Nat) (g : ui_globals)
    (h : load_fails e g zone_index) : (_ui_fsm_loadChannel e zone_index g).2 = g := by
  unfold load_fails loadChannel_read_index at h
  unfold _ui_fsm_loadChannel
  dsimp only
  by_cases h1 : g.state.zone_enabled = true ∧
      (zone_index ≤ 0 ∨ zone_index > g.state.zone.member.length % 256)
  · rw [if_pos h1]
  · rw [if_neg h1]
    generalize e.nvm_readChannelData _ = answer at h ⊢
    split_ifs with h2
    · rcases h with h | h
      · exact absurd h h2.1
      · rw [h2.2] at h
        exact absurd h (by decide)
    · rfl

/-- Every load keeps the screen, the VFO channel and the battery inputs. -/
theorem loadChannel_frame (e : platform_env) (zone_index : Nat) (g : ui_globals) :
    (_ui_fsm_loadChannel e zone_index g).2.state.ui_screen = g.state.ui_screen ∧
    (_ui_fsm_loadChannel e zone_index g).2.state.vfo_channel = g.state.vfo_channel ∧
    (_ui_fsm_loadChannel e zone_index g).2.state.emergency = g.state.emergency ∧
    (_ui_fsm_loadChannel e zone_index g).2.state.charge = g.state.charge ∧
    (_ui_fsm_loadChannel e zone_index g).2.ui_state = g.ui_state ∧
    (_ui_fsm_loadChannel e zone_index g).2.macro_menu = g.macro_menu ∧
    (_ui_fsm_loadChannel e zone_index g).2.state.zone_enabled = g.state.zone_enabled ∧
    (_ui_fsm_loadChannel e zone_index g).2.state.zone = g.state.zone := by
  rcases loadChannel_cases e zone_index g with h | ⟨channel, _, h⟩
  · rw [h]; exact ⟨rfl, rfl, rfl, rfl, rfl, rfl, rfl, rfl⟩
  · rw [h]; exact ⟨rfl, rfl, rfl, rfl, rfl, rfl, rfl, rfl⟩

/-- Claim C14: for every index passed to `_ui_fsm_loadChannel`, if the storage
read returns -1, or returns a channel whose rx or tx frequency fails
`_ui_freq_check_limits`, then the channel, the channel index and the resync
flag are unchanged; hence on `MAIN_MEM` a dispatched UP key event (index + 1) or
DOWN key event (index - 1) whose load fails leaves the channel, its index and
the screen unchanged. -/
theorem load_failure_keeps_channel (cfg : build_cfg) (e : platform_env) (g : ui_globals) :
    (∀ zone_index : Nat, load_fails e g zone_index →
      (_ui_fsm_loadChannel e zone_index g).2.state.channel = g.state.channel ∧
      (_ui_fsm_loadChannel e zone_index g).2.state.channel_index = g.state.channel_index ∧
      (_ui_fsm_loadChannel e zone_index g).2.sync_rtx = g.sync_rtx) ∧
    (∀ msg : kbd_msg_t, g.state.ui_screen = MAIN_MEM → checks_pass e g →
      msg.KEY_MONI = false → msg.KEY_ENTER = false → msg.KEY_ESC = false →
      (msg.KEY_UP = true → load_fails e g ((g.state.channel_index + 1) % 65536) →
        (ui_updateFSM cfg e { type := EVENT_KBD, payload := msg } g).state.channel =
          g.state.channel ∧
        (ui_updateFSM cfg e { type := EVENT_KBD, payload := msg } g).state.channel_index =
          g.state.channel_index ∧
        (ui_updateFSM cfg e { type := EVENT_KBD, payload := msg } g).state.ui_screen =
          MAIN_MEM) ∧
      (msg.KEY_UP = false → msg.KEY_DOWN = true →
        load_fails e g ((g.state.channel_index + 65535) % 65536) →
        (ui_updateFSM cfg e { type := EVENT_KBD, payload := msg } g).state.channel =
          g.state.channel ∧
        (ui_updateFSM cfg e { type := EVENT_KBD, payload := msg } g).state.channel_index =
          g.state.channel_index ∧
        (ui_updateFSM cfg e { type := EVENT_KBD, payload := msg } g).state.ui_screen =
          MAIN_MEM)) := by
  constructor
  · intro zone_index hf
    rw [loadChannel_fail e zone_index g hf]
    exact ⟨rfl, rfl, rfl⟩
  · intro msg hscreen hc hm hent hesc
    rw [updateFSM_MAIN_MEM cfg e msg g hscreen hc hm, case_MAIN_MEM,
      if_neg (by rw [hent]; exact Bool.false_ne_true),
      if_neg (by rw [hesc]; exact Bool.false_ne_true)]
    constructor
    · intro hup hf
      rw [if_pos hup, loadChannel_fail e _ { g with macro_menu := false } hf]
      exact ⟨rfl, rfl, hscreen⟩
    · intro hup hdown hf
      rw [if_neg (by rw [hup]; exact Bool.false_ne_true), if_pos hdown,
        loadChannel_fail e _ { g with macro_menu := false } hf]
      exact ⟨rfl, rfl, hscreen⟩

/-- Claim C14 at the demonstration state on `MAIN_MEM` with empty storage and an
UP key event. -/
theorem load_failure_keeps_channel_witness :
    ((demo_on MAIN_MEM).state.ui_screen = MAIN_MEM ∧
     checks_pass demo_env (demo_on MAIN_MEM) ∧
     load_fails demo_env (demo_on MAIN_MEM)
       (((demo_on MAIN_MEM).state.channel_index + 1) % 65536)) ∧
    (ui_updateFSM demo_cfg demo_env { type := EVENT_KBD, payload := key_up }
      (demo_on MAIN_MEM)).state.channel = (demo_on MAIN_MEM).state.channel ∧
    (ui_updateFSM demo_cfg demo_env { type := EVENT_KBD, payload := key_up }
      (demo_on MAIN_MEM)).state.ui_screen = MAIN_MEM :=
  have h := ((load_failure_keeps_channel demo_cfg demo_env (demo_on MAIN_MEM)).2 key_up rfl
    (by decide) rfl rfl rfl).1 rfl (by decide)
  ⟨by decide, h.1, h.2.2⟩

/-- The power and battery checks only read the emergency flag and the charge. -/
theorem checks_pass_congr (e : platform_env) (g0 g : ui_globals)
    (he : g.state.emergency = g0.state.emergency) (hch : g.state.charge = g0.state.charge)
    (hc : checks_pass e g0) : checks_pass e g := by
  obtain ⟨hp, hb⟩ := hc
  refine ⟨hp, ?_⟩
  unfold low_battery at hb ⊢
  rw [he, hch]
  exact hb

/-- ESC on `MAIN_VFO`: the channel is saved as VFO channel. -/
theorem vfo_esc_effect (cfg : build_cfg) (e : platform_env) (msg : kbd_msg_t)
    (g : ui_globals) (hscreen : g.state.ui_screen = MAIN_VFO) (hc : checks_pass e g)
    (hk : is_esc_key msg) :
    (ui_updateFSM cfg e { type := EVENT_KBD, payload := msg } g).state.vfo_channel =
      g.state.channel ∧
    (ui_updateFSM cfg e { type := EVENT_KBD, payload := msg } g).state.emergency =
      g.state.emergency ∧
    (ui_updateFSM cfg e { type := EVENT_KBD, payload := msg } g).state.charge =
      g.state.charge := by
  obtain ⟨a1, a2, a3, a4, a5, a6, a7⟩ := hk
  rw [updateFSM_MAIN_VFO cfg e msg g hscreen hc a7, case_MAIN_VFO,
    if_neg (by rw [a2]; exact Bool.false_ne_true),
    if_neg (by rw [a3]; exact Bool.false_ne_true),
    if_neg (by rw [a6]; exact Bool.false_ne_true), if_pos a1]
  have F := loadChannel_frame e
    ({ g with macro_menu := false, state := { g.state with vfo_channel := g.state.channel } }
      : ui_globals).state.channel_index
    { g with macro_menu := false, state := { g.state with vfo_channel := g.state.channel } }
  dsimp only
  split_ifs
  · exact ⟨F.2.1, F.2.2.1, F.2.2.2.1⟩
  · exact ⟨F.2.1, F.2.2.1, F.2.2.2.1⟩

/-- UP or DOWN on `MAIN_MEM` keeps the screen, the VFO channel and the battery
inputs. -/
theorem mem_updown_effect (cfg : build_cfg) (e : platform_env) (msg : kbd_msg_t)
    (g : ui_globals) (hscreen : g.state.ui_screen = MAIN_MEM) (hc : checks_pass e g)
    (hk : is_updown_key msg) :
    (ui_updateFSM cfg e { type := EVENT_KBD, payload := msg } g).state.ui_screen =
      MAIN_MEM ∧
    (ui_updateFSM cfg e { type := EVENT_KBD, payload := msg } g).state.vfo_channel =
      g.state.vfo_channel ∧
    (ui_updateFSM cfg e { type := EVENT_KBD, payload := msg } g).state.emergency =
      g.state.emergency ∧
    (ui_updateFSM cfg e { type := EVENT_KBD, payload := msg } g).state.charge =
      g.state.charge := by
  obtain ⟨a1, a2, a3, a4⟩ := hk
  rw [updateFSM_MAIN_MEM cfg e msg g hscreen hc a4, case_MAIN_MEM,
    if_neg (by rw [a2]; exact Bool.false_ne_true),
    if_neg (by rw [a3]; exact Bool.false_ne_true)]
  have F1 := loadChannel_frame e ((g.state.channel_index + 1) % 65536)
    { g with macro_menu := false }
  have F2 := loadChannel_frame e ((g.state.channel_index + 65535) % 65536)
    { g with macro_menu := false }
  by_cases hup : msg.KEY_UP = true
  · rw [if_pos hup]
    exact ⟨F1.1.trans hscreen, F1.2.1, F1.2.2.1, F1.2.2.2.1⟩
  · have hdown : msg.KEY_DOWN = true := a1.resolve_left hup
    rw [if_neg hup, if_pos hdown]
    exact ⟨F2.1.trans hscreen, F2.2.1, F2.2.2.1, F2.2.2.2.1⟩

/-- ESC on `MAIN_MEM` restores the VFO channel. -/
theorem mem_esc_effect (cfg : build_cfg) (e : platform_env) (msg : kbd_msg_t)
    (g : ui_globals) (hscreen : g.state.ui_screen = MAIN_MEM) (hc : checks_pass e g)
    (hk : is_esc_key msg) :
    (ui_updateFSM cfg e { type := EVENT_KBD, payload := msg } g).state.ui_screen =
      MAIN_VFO ∧
    (ui_updateFSM cfg e { type := EVENT_KBD, payload := msg } g).state.channel =
      g.state.vfo_channel ∧
    (ui_updateFSM cfg e { type := EVENT_KBD, payload := msg } g).sync_rtx = true := by
  obtain ⟨a1, a2, a3, a4, a5, a6, a7⟩ := hk
  rw [updateFSM_MAIN_MEM cfg e msg g hscreen hc a7, case_MAIN_MEM,
    if_neg (by rw [a6]; exact Bool.false_ne_true), if_pos a1]
  exact ⟨rfl, rfl, rfl⟩

/-- A run of UP and DOWN key events on `MAIN_MEM` keeps the screen, the VFO
channel and the battery inputs. -/
theorem mem_updown_run (cfg : build_cfg) (g0 : ui_globals)
    (events : List (platform_env × kbd_msg_t))
    (hev : ∀ x ∈ events, checks_pass x.1 g0 ∧ is_updown_key x.2) (g : ui_globals)
    (hscreen : g.state.ui_screen = MAIN_MEM)
    (he : g.state.emergency = g0.state.emergency) (hch : g.state.charge = g0.state.charge) :
    (ui_run cfg (events.map fun x => (x.1, { type := EVENT_KBD, payload := x.2 }))
      g).state.ui_screen = MAIN_MEM ∧
    (ui_run cfg (events.map fun x => (x.1, { type := EVENT_KBD, payload := x.2 }))
      g).state.vfo_channel = g.state.vfo_channel ∧
    (ui_run cfg (events.map fun x => (x.1, { type := EVENT_KBD, payload := x.2 }))
      g).state.emergency = g0.state.emergency ∧
    (ui_run cfg (events.map fun x => (x.1, { type := EVENT_KBD, payload := x.2 }))
      g).state.charge = g0.state.charge := by
  induction events generalizing g with
  | nil => exact ⟨hscreen, rfl, he, hch⟩
  | cons x xs ih =>
    have hx := hev x (List.mem_cons_self _ _)
    have S := mem_updown_effect cfg x.1 x.2 g hscreen
      (checks_pass_congr x.1 g0 g he hch hx.1) hx.2
    have R := ih (fun y hy => hev y (List.mem_cons_of_mem _ hy))
      (ui_updateFSM cfg x.1 { type := EVENT_KBD, payload := x.2 } g) S.1
      (S.2.2.1.trans he) (S.2.2.2.trans hch)
    simp only [ui_run, List.map_cons, List.foldl_cons] at R ⊢
    exact ⟨R.1, R.2.1.trans S.2.1, R.2.2.1, R.2.2.2⟩

/-- Claim C15: VFO snapshot round trip. From a state on `MAIN_VFO` with channel
`c`, if a dispatched ESC key event switches to `MAIN_MEM`, then after any finite
sequence of dispatched UP and DOWN key events followed by a dispatched ESC key
event the screen is `MAIN_VFO`, the channel equals `c` in every field and the
resync flag is set. -/
theorem vfo_snapshot_round_trip (cfg : build_cfg) (g : ui_globals)
    (e0 e1 : platform_env) (m0 m1 : kbd_msg_t) (events : List (platform_env × kbd_msg_t))
    (hscreen : g.state.ui_screen = MAIN_VFO)
    (hc0 : checks_pass e0 g) (hk0 : is_esc_key m0)
    (hmem : (ui_updateFSM cfg e0 { type := EVENT_KBD, payload := m0 } g).state.ui_screen =
      MAIN_MEM)
    (hev : ∀ x ∈ events, checks_pass x.1 g ∧ is_updown_key x.2)
    (hc1 : checks_pass e1 g) (hk1 : is_esc_key m1) :
    (ui_updateFSM cfg e1 { type := EVENT_KBD, payload := m1 }
      (ui_run cfg (events.map fun x => (x.1, { type := EVENT_KBD, payload := x.2 }))
        (ui_updateFSM cfg e0 { type := EVENT_KBD, payload := m0 } g))).state.ui_screen =
      MAIN_VFO ∧
    (ui_updateFSM cfg e1 { type := EVENT_KBD, payload := m1 }
      (ui_run cfg (events.map fun x => (x.1, { type := EVENT_KBD, payload := x.2 }))
        (ui_updateFSM cfg e0 { type := EVENT_KBD, payload := m0 } g))).state.channel =
      g.state.channel ∧
    (ui_updateFSM cfg e1 { type := EVENT_KBD, payload := m1 }
      (ui_run cfg (events.map fun x => (x.1, { type := EVENT_KBD, payload := x.2 }))
        (ui_updateFSM cfg e0 { type := EVENT_KBD, payload := m0 } g))).sync_rtx = true := by
  have E := vfo_esc_effect cfg e0 m0 g hscreen hc0 hk0
  have R := mem_updown_run cfg g events hev
    (ui_updateFSM cfg e0 { type := EVENT_KBD, payload := m0 } g) hmem E.2.1 E.2.2
  have F := mem_esc_effect cfg e1 m1 _ R.1
    (checks_pass_congr e1 g _ R.2.2.1 R.2.2.2 hc1) hk1
  exact ⟨F.1, F.2.1.trans (R.2.1.trans E.1), F.2.2⟩

/-- Claim C15 at the demonstration state with three stored channels: ESC, UP,
UP, DOWN, ESC returns to `MAIN_VFO` with the 430 MHz channel. -/
theorem vfo_snapshot_round_trip_witness :
    (ui_updateFSM demo_cfg stored_env { type := EVENT_KBD, payload := key_esc }
      demo_globals).state.ui_screen = MAIN_MEM ∧
    (ui_updateFSM demo_cfg stored_env { type := EVENT_KBD, payload := key_esc }
      (ui_run demo_cfg
        ([(stored_env, key_up), (stored_env, key_up), (stored_env, key_down)].map
          fun x => (x.1, { type := EVENT_KBD, payload := x.2 }))
        (ui_updateFSM demo_cfg stored_env { type := EVENT_KBD, payload := key_esc }
          demo_globals))).state.channel = demo_globals.state.channel :=
  ⟨by decide,
   (vfo_snapshot_round_trip demo_cfg demo_globals stored_env stored_env key_esc key_esc
     [(stored_env, key_up), (stored_env, key_up), (stored_env, key_down)]
     rfl (by decide) (by decide) (by decide) (by decide) (by decide) (by decide)).2.1⟩

/-! ## Menu selection helper -/

/-- Cursor after `_ui_menuDown` on a list of `n` entries. -/
theorem menuDown_cursor (n : Nat) (g : ui_globals) (hn : n ≤ 255)
    (hc : g.ui_state.menu_selected < n) :
    (_ui_menuDown n g).ui_state.menu_selected = (g.ui_state.menu_selected + 1) % n := by
  unfold _ui_menuDown
  split_ifs with h
  · have h1 : g.ui_state.menu_selected + 1 < n := by omega
    show (g.ui_state.menu_selected + 1) % 256 = _
    rw [Nat.mod_eq_of_lt (by omega), Nat.mod_eq_of_lt h1]
  · have h1 : g.ui_state.menu_selected + 1 = n := by omega
    show 0 = _
    rw [h1, Nat.mod_self]

/-- Cursor after `_ui_menuUp` on a list of `n` entries. -/
theorem menuUp_cursor (n : Nat) (g : ui_globals) (hn : n ≤ 255)
    (hc : g.ui_state.menu_selected < n) :
    (_ui_menuUp n g).ui_state.menu_selected = (g.ui_state.menu_selected + n - 1) % n := by
  unfold _ui_menuUp
  split_ifs with h
  · show g.ui_state.menu_selected - 1 = _
    have h1 : g.ui_state.menu_selected + n - 1 = (g.ui_state.menu_selected - 1) + n := by
      omega
    rw [h1, Nat.add_mod_right, Nat.mod_eq_of_lt (by omega)]
  · show (n + 255) % 256 = _
    have h0 : g.ui_state.menu_selected = 0 := by omega
    rw [h0, Nat.zero_add, Nat.mod_eq_of_lt (by omega : n - 1 < n)]
    omega

/-- Cursor after `k` steps down. -/
theorem menuDown_iterate (n : Nat) (g : ui_globals) (hn : n ≤ 255)
    (hc : g.ui_state.menu_selected < n) (k : Nat) :
    (Nat.iterate (_ui_menuDown n) k g).ui_state.menu_selected =
      (g.ui_state.menu_selected + k) % n := by
  induction k with
  | zero => exact (Nat.mod_eq_of_lt hc).symm
  | succ k ih =>
    rw [Function.iterate_succ_apply', menuDown_cursor n _ hn (by
      rw [ih]; exact Nat.mod_lt _ (by omega)), ih, Nat.add_mod, Nat.mod_mod,
      ← Nat.add_mod, Nat.add_assoc]

/-- Cursor after `k` steps up. -/
theorem menuUp_iterate (n : Nat) (g : ui_globals) (hn : n ≤ 255)
    (hc : g.ui_state.menu_selected < n) (k : Nat) :
    (Nat.iterate (_ui_menuUp n) k g).ui_state.menu_selected =
      (g.ui_state.menu_selected + k * (n - 1)) % n := by
  induction k with
  | zero => simpa using (Nat.mod_eq_of_lt hc).symm
  | succ k ih =>
    have hlt : (Nat.iterate (_ui_menuUp n) k g).ui_state.menu_selected < n := by
      rw [ih]; exact Nat.mod_lt _ (by omega)
    rw [Function.iterate_succ_apply', menuUp_cursor n _ hn hlt, ih]
    have e1 : (g.ui_state.menu_selected + k * (n - 1)) % n + n - 1 =
        (g.ui_state.menu_selected + k * (n - 1)) % n + (n - 1) := by omega
    rw [e1, Nat.add_mod, Nat.mod_mod, ← Nat.add_mod, Nat.add_assoc, Nat.succ_mul]

/-- Claim C16: for every count `n` from 1 to 255 and every cursor `c < n`,
`_ui_menuDown n` sets the cursor to `(c + 1) mod n` and `_ui_menuUp n` sets it
to `(c + n - 1) mod n`; the cursor stays below `n`, each undoes the other, and
`n` successive steps in one direction return to the starting cursor. -/
theorem menu_cursor_wraps (n : Nat) (g : ui_globals) (h1 : 1 ≤ n) (hn : n ≤ 255)
    (hc : g.ui_state.menu_selected < n) :
    (_ui_menuDown n g).ui_state.menu_selected = (g.ui_state.menu_selected + 1) % n ∧
    (_ui_menuUp n g).ui_state.menu_selected = (g.ui_state.menu_selected + n - 1) % n ∧
    (_ui_menuDown n g).ui_state.menu_selected < n ∧
    (_ui_menuUp n g).ui_state.menu_selected < n ∧
    (_ui_menuUp n (_ui_menuDown n g)).ui_state.menu_selected = g.ui_state.menu_selected ∧
    (_ui_menuDown n (_ui_menuUp n g)).ui_state.menu_selected = g.ui_state.menu_selected ∧
    (Nat.iterate (_ui_menuDown n) n g).ui_state.menu_selected = g.ui_state.menu_selected ∧
    (Nat.iterate (_ui_menuUp n) n g).ui_state.menu_selected = g.ui_state.menu_selected := by
  have hd := menuDown_cursor n g hn hc
  have hu := menuUp_cursor n g hn hc
  have hdl : (_ui_menuDown n g).ui_state.menu_selected < n := by
    rw [hd]; exact Nat.mod_lt _ (by omega)
  have hul : (_ui_menuUp n g).ui_state.menu_selected < n := by
    rw [hu]; exact Nat.mod_lt _ (by omega)
  have i2 := menuUp_iterate n g hn hc
  refine ⟨hd, hu, hdl, hul, ?_, ?_, ?_, ?_⟩
  · rw [menuUp_cursor n _ hn hdl, hd]
    have e1 : (g.ui_state.menu_selected + 1) % n + n - 1 =
        (g.ui_state.menu_selected + 1) % n + (n - 1) := by omega
    rw [e1, Nat.add_mod, Nat.mod_mod, ← Nat.add_mod]
    have e2 : g.ui_state.menu_selected + 1 + (n - 1) = g.ui_state.menu_selected + n := by
      omega
    rw [e2, Nat.add_mod_right, Nat.mod_eq_of_lt hc]
  · rw [menuDown_cursor n _ hn hul, hu, Nat.add_mod, Nat.mod_mod, ← Nat.add_mod]
    have e2 : g.ui_state.menu_selected + n - 1 + 1 = g.ui_state.menu_selected + n := by
      omega
    rw [e2, Nat.add_mod_right, Nat.mod_eq_of_lt hc]
  · rw [menuDown_iterate n g hn hc n, Nat.add_mod_right, Nat.mod_eq_of_lt hc]
  · rw [i2 n, Nat.add_mul_mod_self_left, Nat.mod_eq_of_lt hc]

/-- Claim C16 on a list of 6 entries with the cursor at 5. -/
theorem menu_cursor_wraps_witness :
    (_ui_menuDown 6
      { demo_globals with ui_state := { ui_state_zero with menu_selected := 5 } }
      ).ui_state.menu_selected = (5 + 1) % 6 :=
  (menu_cursor_wraps 6
    { demo_globals with ui_state := { ui_state_zero with menu_selected := 5 } }
    (by decide) (by decide) (by decide)).1

/-! ## List menus -/

/-- A dispatched key event without MONI on one of the three list screens runs
`case_MENU_LIST`. -/
theorem updateFSM_MENU_LIST (cfg : build_cfg) (e : platform_env) (msg : kbd_msg_t)
    (g : ui_globals)
    (hscreen : g.state.ui_screen = MENU_ZONE ∨ g.state.ui_screen = MENU_CHANNEL ∨
      g.state.ui_screen = MENU_CONTACTS)
    (hc : checks_pass e g) (hm : msg.KEY_MONI = false) :
    ui_updateFSM cfg e { type := EVENT_KBD, payload := msg } g =
      case_MENU_LIST e msg { g with macro_menu := false } := by
  rw [ui_updateFSM_dispatch cfg e msg g hc hm,
    dispatch_MENU_LIST cfg e msg { g with macro_menu := false } hscreen]

/-- The probe of `menu_list_down` changes nothing but the cursor. -/
theorem menu_list_down_screen (e : platform_env) (g : ui_globals) :
    (menu_list_down e g).state = g.state := by
  unfold menu_list_down menu_advance
  split_ifs <;> rfl

/-- Claim C17, as stated, fails: on `MENU_ZONE` with the cursor at 255 and a
zone stored at index 256, a DOWN key event takes the cursor to 0, not to
256. -/
theorem menu_list_cursor_wraps :
    demo_zone_last.state.ui_screen = MENU_ZONE ∧
    demo_zone_last.ui_state.menu_selected = 255 ∧
    checks_pass all_zones_env demo_zone_last ∧
    (all_zones_env.nvm_readZoneData (demo_zone_last.ui_state.menu_selected + 1)).result ≠ -1 ∧
    (ui_updateFSM demo_cfg all_zones_env { type := EVENT_KBD, payload := key_down }
      demo_zone_last).ui_state.menu_selected = 0 ∧
    (ui_updateFSM demo_cfg all_zones_env { type := EVENT_KBD, payload := key_down }
      demo_zone_last).ui_state.menu_selected ≠ demo_zone_last.ui_state.menu_selected + 1 := by
  decide

/-- Claim C17, amended: on `MENU_ZONE`, `MENU_CHANNEL` and `MENU_CONTACTS`, a
dispatched DOWN key event (without UP) moves the 8-bit cursor up by one,
wrapping from 255 to 0, if the probe read succeeds (zone at cursor + 1, channel
at cursor + 2, contact at cursor + 2) and leaves it unchanged if that read
returns -1; a dispatched UP key event lowers the cursor by one when it is
above 0 and leaves it at 0 otherwise. Neither changes the screen. -/
theorem menu_list_cursor (cfg : build_cfg) (e : platform_env) (msg : kbd_msg_t)
    (g : ui_globals)
    (hscreen : g.state.ui_screen = MENU_ZONE ∨ g.state.ui_screen = MENU_CHANNEL ∨
      g.state.ui_screen = MENU_CONTACTS)
    (hc : checks_pass e g) (hm : msg.KEY_MONI = false) :
    (msg.KEY_UP = false → msg.KEY_DOWN = true →
      (ui_updateFSM cfg e { type := EVENT_KBD, payload := msg } g).state.ui_screen =
        g.state.ui_screen ∧
      (g.state.ui_screen = MENU_ZONE →
        ((e.nvm_readZoneData (g.ui_state.menu_selected + 1)).result ≠ -1 →
          (ui_updateFSM cfg e { type := EVENT_KBD, payload := msg }
            g).ui_state.menu_selected = (g.ui_state.menu_selected + 1) % 256) ∧
        ((e.nvm_readZoneData (g.ui_state.menu_selected + 1)).result = -1 →
          (ui_updateFSM cfg e { type := EVENT_KBD, payload := msg }
            g).ui_state.menu_selected = g.ui_state.menu_selected)) ∧
      (g.state.ui_screen = MENU_CHANNEL →
        ((e.nvm_readChannelData (g.ui_state.menu_selected + 2)).result ≠ -1 →
          (ui_updateFSM cfg e { type := EVENT_KBD, payload := msg }
            g).ui_state.menu_selected = (g.ui_state.menu_selected + 1) % 256) ∧
        ((e.nvm_readChannelData (g.ui_state.menu_selected + 2)).result = -1 →
          (ui_updateFSM cfg e { type := EVENT_KBD, payload := msg }
            g).ui_state.menu_selected = g.ui_state.menu_selected)) ∧
      (g.state.ui_screen = MENU_CONTACTS →
        (e.nvm_readContactData (g.ui_state.menu_selected + 2) ≠ -1 →
          (ui_updateFSM cfg e { type := EVENT_KBD, payload := msg }
            g).ui_state.menu_selected = (g.ui_state.menu_selected + 1) % 256) ∧
        (e.nvm_readContactData (g.ui_state.menu_selected + 2) = -1 →
          (ui_updateFSM cfg e { type := EVENT_KBD, payload := msg }
            g).ui_state.menu_selected = g.ui_state.menu_selected))) ∧
    (msg.KEY_UP = true →
      (ui_updateFSM cfg e { type := EVENT_KBD, payload := msg } g).state.ui_screen =
        g.state.ui_screen ∧
      (0 < g.ui_state.menu_selected →
        (ui_updateFSM cfg e { type := EVENT_KBD, payload := msg }
          g).ui_state.menu_selected + 1 = g.ui_state.menu_selected) ∧
      (g.ui_state.menu_selected = 0 →
        (ui_updateFSM cfg e { type := EVENT_KBD, payload := msg }
          g).ui_state.menu_selected = 0)) := by
  rw [updateFSM_MENU_LIST cfg e msg g hscreen hc hm, case_MENU_LIST]
  constructor
  · intro hup hdown
    rw [if_neg (by rw [hup]; exact Bool.false_ne_true), if_pos hdown]
    refine ⟨congrArg state_t.ui_screen (menu_list_down_screen e _), ?_, ?_, ?_⟩
    · intro hs
      constructor
      · intro hr
        simp [menu_list_down, menu_advance, hs, hr]
      · intro hr
        simp [menu_list_down, menu_advance, hs, hr]
    · intro hs
      constructor
      · intro hr
        simp [menu_list_down, menu_advance, hs, hr]
      · intro hr
        simp [menu_list_down, menu_advance, hs, hr]
    · intro hs
      constructor
      · intro hr
        simp [menu_list_down, menu_advance, hs, hr]
      · intro hr
        simp [menu_list_down, menu_advance, hs, hr]
  · intro hup
    rw [if_pos hup]
    refine ⟨?_, ?_, ?_⟩
    · unfold _ui_menuUp
      split_ifs <;> rfl
    · intro hpos
      simp [_ui_menuUp, hpos]
      omega
    · intro h0
      simp [_ui_menuUp, h0]

/-- Claim C17, amended, on `MENU_CHANNEL` with three stored channels, where
DOWN moves the cursor from 0 to 1, and on `MENU_ZONE` with a zone at every
index, where DOWN moves the cursor from 255 to 0. -/
theorem menu_list_cursor_witness :
    (ui_updateFSM demo_cfg stored_env { type := EVENT_KBD, payload := key_down }
      (demo_on MENU_CHANNEL)).ui_state.menu_selected = (0 + 1) % 256 ∧
    (ui_updateFSM demo_cfg all_zones_env { type := EVENT_KBD, payload := key_down }
      demo_zone_last).ui_state.menu_selected = (255 + 1) % 256 :=
  ⟨(((menu_list_cursor demo_cfg stored_env key_down (demo_on MENU_CHANNEL)
      (Or.inr (Or.inl rfl)) (by decide) rfl).1 rfl rfl).2.2.1 rfl).1 (by decide),
   (((menu_list_cursor demo_cfg all_zones_env key_down demo_zone_last
      (Or.inl rfl) (by decide) rfl).1 rfl rfl).2.1 rfl).1 (by decide)⟩

/-- A load with zone filtering off reads channel `zone_index` itself. -/
theorem loadChannel_unfiltered (e : platform_env) (zone_index : Nat) (g : ui_globals)
    (hz : g.state.zone_enabled = false) :
    (_ui_fsm_loadChannel e zone_index g).2 =
      if (e.nvm_readChannelData zone_index).result ≠ -1 ∧
         _ui_channel_valid e.hwInfo (e.nvm_readChannelData zone_index).data = true then
        { g with
          state := { g.state with channel_index := zone_index,
                                  channel := (e.nvm_readChannelData zone_index).data }
          sync_rtx := true }
      else g := by
  unfold _ui_fsm_loadChannel
  simp only [hz, Bool.false_eq_true, false_and, if_false]
  split_ifs <;> rfl

/-- ENTER on `MENU_ZONE` with the cursor at 0, on any state. -/
theorem menu_zone_enter_all (e : platform_env) (g : ui_globals)
    (h0 : g.ui_state.menu_selected = 0) :
    menu_zone_enter e g =
      set_screen (_ui_fsm_loadChannel e 1
        (save_vfo_channel
          { g with state := { g.state with zone_enabled := false,
                                           zone := e.newzone_init } })).2 MAIN_MEM := by
  unfold menu_zone_enter
  simp [h0]

/-- What `save_vfo_channel` keeps and what it writes. -/
theorem save_vfo_proj (g : ui_globals) :
    (save_vfo_channel g).state.channel = g.state.channel ∧
    (save_vfo_channel g).state.channel_index = g.state.channel_index ∧
    (save_vfo_channel g).state.zone_enabled = g.state.zone_enabled ∧
    (save_vfo_channel g).state.zone = g.state.zone ∧
    (save_vfo_channel g).sync_rtx = g.sync_rtx ∧
    (save_vfo_channel g).state.vfo_channel =
      (if g.ui_state.last_main_state = MAIN_VFO then g.state.channel
       else g.state.vfo_channel) := by
  unfold save_vfo_channel
  split_ifs <;> exact ⟨rfl, rfl, rfl, rfl, rfl, rfl⟩

/-- The whole effect of a dispatched ENTER on `MENU_ZONE` with the cursor at 0. -/
theorem zone_enter_zero (cfg : build_cfg) (e : platform_env) (msg : kbd_msg_t)
    (g : ui_globals) (hscreen : g.state.ui_screen = MENU_ZONE) (hc : checks_pass e g)
    (hm : msg.KEY_MONI = false) (hup : msg.KEY_UP = false) (hdown : msg.KEY_DOWN = false)
    (hent : msg.KEY_ENTER = true) (h0 : g.ui_state.menu_selected = 0) :
    ui_updateFSM cfg e { type := EVENT_KBD, payload := msg } g =
      set_screen (_ui_fsm_loadChannel e 1
        (save_vfo_channel
          { g with macro_menu := false,
                   state := { g.state with zone_enabled := false,
                                           zone := e.newzone_init } })).2 MAIN_MEM := by
  rw [updateFSM_MENU_LIST cfg e msg g (Or.inl hscreen) hc hm, case_MENU_LIST,
    if_neg (by rw [hup]; exact Bool.false_ne_true),
    if_neg (by rw [hdown]; exact Bool.false_ne_true), if_pos hent]
  have hs : ({ g with macro_menu := false } : ui_globals).state.ui_screen = MENU_ZONE :=
    hscreen
  have hz : ({ g with macro_menu := false } : ui_globals).ui_state.menu_selected = 0 := h0
  dsimp only
  rw [if_pos hs, menu_zone_enter_all e _ hz, if_neg]
  intro hcontra
  have : (set_screen (_ui_fsm_loadChannel e 1
        (save_vfo_channel
          { g with macro_menu := false,
                   state := { g.state with zone_enabled := false,
                                           zone := e.newzone_init } })).2
        MAIN_MEM).state.ui_screen = MAIN_MEM := rfl
  rw [this] at hcontra
  exact absurd hcontra (by decide)

/-- A load consults only the channel storage and the band limits. -/
theorem loadChannel_env (e e1 : platform_env) (zone_index : Nat) (g : ui_globals)
    (h1 : e1.nvm_readChannelData = e.nvm_readChannelData) (h2 : e1.hwInfo = e.hwInfo) :
    _ui_fsm_loadChannel e1 zone_index g = _ui_fsm_loadChannel e zone_index g := by
  unfold _ui_fsm_loadChannel
  rw [h1, h2]

/-- Claim C18: on `MENU_ZONE` with the cursor at 0, a dispatched ENTER key event
clears `zone_enabled`, makes no zone read (the outcome does not depend on the
zone storage), stores the current channel in `vfo_channel` when the last main
screen was `MAIN_VFO` (and keeps `vfo_channel` otherwise), attempts to load
channel 1 of the unfiltered list (taking it, with index 1 and the resync flag,
when the read succeeds with a valid channel, and keeping the channel otherwise)
and sets the screen to `MAIN_MEM`. -/
theorem zone_all_channels_enter (cfg : build_cfg) (e : platform_env) (msg : kbd_msg_t)
    (g : ui_globals) (hscreen : g.state.ui_screen = MENU_ZONE) (hc : checks_pass e g)
    (hm : msg.KEY_MONI = false) (hup : msg.KEY_UP = false) (hdown : msg.KEY_DOWN = false)
    (hent : msg.KEY_ENTER = true) (h0 : g.ui_state.menu_selected = 0) :
    (ui_updateFSM cfg e { type := EVENT_KBD, payload := msg } g).state.ui_screen =
      MAIN_MEM ∧
    (ui_updateFSM cfg e { type := EVENT_KBD, payload := msg } g).state.zone_enabled =
      false ∧
    (∀ f : Nat → nvm_answer zone_t,
      ui_updateFSM cfg { e with nvm_readZoneData := f }
        { type := EVENT_KBD, payload := msg } g =
      ui_updateFSM cfg e { type := EVENT_KBD, payload := msg } g) ∧
    (ui_updateFSM cfg e { type := EVENT_KBD, payload := msg } g).state.vfo_channel =
      (if g.ui_state.last_main_state = MAIN_VFO then g.state.channel
       else g.state.vfo_channel) ∧
    ((e.nvm_readChannelData 1).result ≠ -1 ∧
      _ui_channel_valid e.hwInfo (e.nvm_readChannelData 1).data = true →
      (ui_updateFSM cfg e { type := EVENT_KBD, payload := msg } g).state.channel =
        (e.nvm_readChannelData 1).data ∧
      (ui_updateFSM cfg e { type := EVENT_KBD, payload := msg } g).state.channel_index =
        1 ∧
      (ui_updateFSM cfg e { type := EVENT_KBD, payload := msg } g).sync_rtx = true) ∧
    (¬((e.nvm_readChannelData 1).result ≠ -1 ∧
      _ui_channel_valid e.hwInfo (e.nvm_readChannelData 1).data = true) →
      (ui_updateFSM cfg e { type := EVENT_KBD, payload := msg } g).state.channel =
        g.state.channel ∧
      (ui_updateFSM cfg e { type := EVENT_KBD, payload := msg } g).state.channel_index =
        g.state.channel_index ∧
      (ui_updateFSM cfg e { type := EVENT_KBD, payload := msg } g).sync_rtx =
        g.sync_rtx) := by
  have hc1 : ∀ f : Nat → nvm_answer zone_t,
      checks_pass { e with nvm_readZoneData := f } g := fun _ => hc
  have key := zone_enter_zero cfg e msg g hscreen hc hm hup hdown hent h0
  have S := save_vfo_proj
    { g with macro_menu := false,
             state := { g.state with zone_enabled := false, zone := e.newzone_init } }
  have F := loadChannel_frame e 1 (save_vfo_channel
    { g with macro_menu := false,
             state := { g.state with zone_enabled := false, zone := e.newzone_init } })
  have U := loadChannel_unfiltered e 1 (save_vfo_channel
    { g with macro_menu := false,
             state := { g.state with zone_enabled := false, zone := e.newzone_init } })
    S.2.2.1
  refine ⟨?_, ?_, ?_, ?_, ?_, ?_⟩
  · rw [key]; rfl
  · rw [key]
    exact F.2.2.2.2.2.2.1.trans S.2.2.1
  · intro f
    rw [key, zone_enter_zero cfg { e with nvm_readZoneData := f } msg g hscreen (hc1 f) hm
      hup hdown hent h0, loadChannel_env e { e with nvm_readZoneData := f } 1 _ rfl rfl]
  · rw [key]
    exact F.2.1.trans S.2.2.2.2.2
  · intro hv
    rw [key]
    show (_ui_fsm_loadChannel e 1 _).2.state.channel = _ ∧
      (_ui_fsm_loadChannel e 1 _).2.state.channel_index = 1 ∧
      (_ui_fsm_loadChannel e 1 _).2.sync_rtx = true
    rw [U, if_pos hv]
    exact ⟨rfl, rfl, rfl⟩
  · intro hv
    rw [key]
    show (_ui_fsm_loadChannel e 1 _).2.state.channel = _ ∧
      (_ui_fsm_loadChannel e 1 _).2.state.channel_index = _ ∧
      (_ui_fsm_loadChannel e 1 _).2.sync_rtx = _
    rw [U, if_neg hv]
    exact ⟨S.1, S.2.1, S.2.2.2.2.1⟩

/-- Claim C18 on `MENU_ZONE` with the cursor at 0 and three stored channels:
ENTER loads channel 1 and shows `MAIN_MEM`. -/
theorem zone_all_channels_enter_witness :
    (checks_pass stored_env (demo_on MENU_ZONE) ∧
     (demo_on MENU_ZONE).ui_state.menu_selected = 0) ∧
    (ui_updateFSM demo_cfg stored_env { type := EVENT_KBD, payload := key_enter }
      (demo_on MENU_ZONE)).state.ui_screen = MAIN_MEM ∧
    (ui_updateFSM demo_cfg stored_env { type := EVENT_KBD, payload := key_enter }
      (demo_on MENU_ZONE)).state.channel = stored_channel 1 :=
  have h := zone_all_channels_enter demo_cfg stored_env key_enter (demo_on MENU_ZONE) rfl
    (by decide) rfl rfl rfl rfl rfl
  ⟨by decide, h.1, (h.2.2.2.2.1 (by decide)).1.trans (by decide)⟩

/-- Claim C20 fails on the code. From the start-up state: ENTER, three times
DOWN, ENTER, ENTER, ENTER reaches `SETTINGS_DISPLAY` in edit mode; the battery
then runs empty and the next key event forces `MAIN_VFO` with edit mode still
set; ENTER opens `MENU_TOP` remembering `MAIN_VFO`; there ESC only clears edit
mode and the screen stays `MENU_TOP`. -/
theorem menu_top_esc_swallowed :
    (ui_run demo_cfg
      ([key_enter, key_down, key_down, key_down, key_enter, key_enter, key_enter].map
        fun m => (demo_env, { type := EVENT_KBD, payload := m }))
      demo_globals).state.ui_screen = SETTINGS_DISPLAY ∧
    (ui_run demo_cfg
      ([key_enter, key_enter].map fun m => (demo_env, { type := EVENT_KBD, payload := m }))
      { state :=
          { (ui_run demo_cfg
              ([key_enter, key_down, key_down, key_down, key_enter, key_enter,
                key_enter].map fun m => (demo_env, { type := EVENT_KBD, payload := m }))
              demo_globals).state with charge := 0 }
        ui_state := (ui_run demo_cfg
              ([key_enter, key_down, key_down, key_down, key_enter, key_enter,
                key_enter].map fun m => (demo_env, { type := EVENT_KBD, payload := m }))
              demo_globals).ui_state
        macro_menu := false
        sync_rtx := false }).state.ui_screen = MENU_TOP ∧
    (ui_run demo_cfg
      ([key_enter, key_enter].map fun m => (demo_env, { type := EVENT_KBD, payload := m }))
      { state :=
          { (ui_run demo_cfg
              ([key_enter, key_down, key_down, key_down, key_enter, key_enter,
                key_enter].map fun m => (demo_env, { type := EVENT_KBD, payload := m }))
              demo_globals).state with charge := 0 }
        ui_state := (ui_run demo_cfg
              ([key_enter, key_down, key_down, key_down, key_enter, key_enter,
                key_enter].map fun m => (demo_env, { type := EVENT_KBD, payload := m }))
              demo_globals).ui_state
        macro_menu := false
        sync_rtx := false }).ui_state.last_main_state = MAIN_VFO ∧
    (ui_run demo_cfg
      ([key_enter, key_enter, key_esc].map
        fun m => (demo_env, { type := EVENT_KBD, payload := m }))
      { state :=
          { (ui_run demo_cfg
              ([key_enter, key_down, key_down, key_down, key_enter, key_enter,
                key_enter].map fun m => (demo_env, { type := EVENT_KBD, payload := m }))
              demo_globals).state with charge := 0 }
        ui_state := (ui_run demo_cfg
              ([key_enter, key_down, key_down, key_down, key_enter, key_enter,
                key_enter].map fun m => (demo_env, { type := EVENT_KBD, payload := m }))
              demo_globals).ui_state
        macro_menu := false
        sync_rtx := false }).state.ui_screen = MENU_TOP := by
  decide

/-! ## Low-battery branch -/

/-- Claim C21: with the power button on, no emergency, PTT inactive and a
charge of zero or less, `ui_updateFSM` answers every event from every screen
with the low-battery branch: a keyboard event with a non-zero payload sets the
screen to `MAIN_VFO` and the emergency flag, any other event sets the screen to
`LOW_BAT`, and nothing else is written, so the channel, the squelch level, the
whole `ui_state`, the macro-menu flag and the resync flag are unchanged. -/
theorem low_battery_branch (cfg : build_cfg) (e : platform_env) (event : event_t)
    (g : ui_globals) (hp : e.pwrButtonStatus = true) (he : g.state.emergency = false)
    (ht : e.pttStatus = false) (hc : g.state.charge ≤ 0) :
    (event.type = EVENT_KBD ∧ event.payload.value ≠ 0 →
      ui_updateFSM cfg e event g =
        { g with state := { g.state with ui_screen := MAIN_VFO, emergency := true } }) ∧
    (¬(event.type = EVENT_KBD ∧ event.payload.value ≠ 0) →
      ui_updateFSM cfg e event g =
        { g with state := { g.state with ui_screen := LOW_BAT } }) ∧
    (ui_updateFSM cfg e event g).state.channel = g.state.channel ∧
    (ui_updateFSM cfg e event g).state.sqlLevel = g.state.sqlLevel ∧
    (ui_updateFSM cfg e event g).ui_state = g.ui_state ∧
    (ui_updateFSM cfg e event g).macro_menu = g.macro_menu ∧
    (ui_updateFSM cfg e event g).sync_rtx = g.sync_rtx := by
  have hl : low_battery e g = true := by
    simp [low_battery, he, ht, hc]
  have hu : ui_updateFSM cfg e event g =
      if event.type = EVENT_KBD ∧ event.payload.value ≠ 0 then
        { g with state := { g.state with ui_screen := MAIN_VFO, emergency := true } }
      else { g with state := { g.state with ui_screen := LOW_BAT } } := by
    rw [ui_updateFSM]
    simp only [hp, hl, Bool.not_true, Bool.false_eq_true, ↓reduceIte, set_screen]
  rw [hu]
  by_cases hk : event.type = EVENT_KBD ∧ event.payload.value ≠ 0
  · rw [if_pos hk]
    exact ⟨fun _ => rfl, fun h => absurd hk h, rfl, rfl, rfl, rfl, rfl⟩
  · rw [if_neg hk]
    exact ⟨fun h => absurd h hk, fun _ => rfl, rfl, rfl, rfl, rfl, rfl⟩

/-- Claim C21 on the settings menu of the demonstration state with an empty
battery: a key press leads to `MAIN_VFO` with the emergency flag set, and a
status event to `LOW_BAT`. -/
theorem low_battery_branch_witness :
    (ui_updateFSM demo_cfg demo_env (kbd_event key_up) demo_flat).state.ui_screen = MAIN_VFO ∧
    (ui_updateFSM demo_cfg demo_env (kbd_event key_up) demo_flat).state.emergency = true ∧
    (ui_updateFSM demo_cfg demo_env { type := EVENT_STATUS, payload := key_none }
      demo_flat).state.ui_screen = LOW_BAT ∧
    (ui_updateFSM demo_cfg demo_env (kbd_event key_up) demo_flat).ui_state =
      demo_flat.ui_state := by
  have A := low_battery_branch demo_cfg demo_env (kbd_event key_up) demo_flat rfl rfl rfl
    (by decide)
  have B := low_battery_branch demo_cfg demo_env { type := EVENT_STATUS, payload := key_none }
    demo_flat rfl rfl rfl (by decide)
  refine ⟨?_, ?_, ?_, A.2.2.2.2.1⟩
  · rw [A.1 (by decide)]
  · rw [A.1 (by decide)]
  · rw [B.2.1 (by decide)]

/-! ## Layout -/

/-- Claim C23, as stated, fails: with 8-bit coordinates, at the supported height
263 the bottom row `263 - 4 - 2 - 1 = 256` is stored as 0, above the third
line at row 93. -/
theorem layout_bottom_wraps :
    47 < 263 ∧
    (_ui_calculateLayout 256 263).map (fun l => l.line3_pos.y) = some 93 ∧
    (_ui_calculateLayout 256 263).map (fun l => l.bottom_pos.y) = some 0 ∧
    (_ui_calculateLayout 256 263).map (fun l => decide (l.line3_pos.y < l.bottom_pos.y)) =
      some false := by
  decide

/-- Claim C23, amended: for every screen height above 47 the layout is defined
and the constants of its geometry class add up to at most the height; and when
the bottom row `H - bottom_pad - status_v_pad - text_v_offset` fits the
coordinate field of `point_t` (for 8-bit coordinates: for every height up to
262), the vertical print positions are strictly increasing from the top row to
the bottom row, which is above the height. -/
theorem layout_fits (point_mod H : Nat) (h : 47 < H) :
    ∃ c l, layout_constants H = some c ∧ _ui_calculateLayout point_mod H = some l ∧
      c.top_h + c.top_pad + c.line1_h + c.line2_h + c.line3_h + c.bottom_h + c.bottom_pad ≤ H ∧
      (point_mod = 256 → H ≤ 262 → H - c.bottom_pad - c.status_v_pad - 1 < point_mod) ∧
      (H - c.bottom_pad - c.status_v_pad - 1 < point_mod →
        l.top_pos.y < l.line1_pos.y ∧ l.line1_pos.y < l.line2_pos.y ∧
        l.line2_pos.y < l.line3_pos.y ∧ l.line3_pos.y < l.bottom_pos.y ∧
        l.bottom_pos.y < H) := by
  by_cases h1 : H > 127
  · simp only [_ui_calculateLayout, layout_constants, if_pos h1]
    refine ⟨_, _, rfl, rfl, ?_⟩
    simp only
    refine ⟨by omega, fun a b => by omega, fun hb => ?_⟩
    rw [Nat.mod_eq_of_lt (show 16 - 2 - 1 < point_mod by omega),
      Nat.mod_eq_of_lt (show 16 + 4 + 20 - 2 - 1 < point_mod by omega),
      Nat.mod_eq_of_lt (show 16 + 4 + 20 + 20 - 2 - 1 < point_mod by omega),
      Nat.mod_eq_of_lt (show 16 + 4 + 20 + 20 + 40 - 6 - 1 < point_mod by omega),
      Nat.mod_eq_of_lt hb]
    omega
  · by_cases h2 : H > 63
    · simp only [_ui_calculateLayout, layout_constants, if_neg h1, if_pos h2]
      refine ⟨_, _, rfl, rfl, ?_⟩
      simp only
      refine ⟨by omega, fun a b => by omega, fun hb => ?_⟩
      rw [Nat.mod_eq_of_lt (show 11 - 1 - 1 < point_mod by omega),
        Nat.mod_eq_of_lt (show 11 + 1 + 10 - 1 - 1 < point_mod by omega),
        Nat.mod_eq_of_lt (show 11 + 1 + 10 + 10 - 1 - 1 < point_mod by omega),
        Nat.mod_eq_of_lt (show 11 + 1 + 10 + 10 + 16 - 0 - 1 < point_mod by omega),
        Nat.mod_eq_of_lt hb]
      omega
    · simp only [_ui_calculateLayout, layout_constants, if_neg h1, if_neg h2, if_pos h]
      refine ⟨_, _, rfl, rfl, ?_⟩
      simp only
      refine ⟨by omega, fun a b => by omega, fun hb => ?_⟩
      rw [Nat.mod_eq_of_lt (show 11 - 1 - 1 < point_mod by omega),
        Nat.mod_eq_of_lt (show 11 + 1 + 0 - 1 - 1 < point_mod by omega),
        Nat.mod_eq_of_lt (show 11 + 1 + 0 + 10 - 1 - 1 < point_mod by omega),
        Nat.mod_eq_of_lt (show 11 + 1 + 0 + 10 + 18 - 0 - 1 < point_mod by omega),
        Nat.mod_eq_of_lt hb]
      omega

/-- Claim C23, amended, with 8-bit coordinates at the heights 128, 64 and 48:
the print rows are 13, 37, 57, 93, 121, then 9, 20, 30, 47, 62, then 9, 10,
20, 39, 46; height 47 is not supported. -/
theorem layout_fits_witness :
    (∃ c l, layout_constants 128 = some c ∧ _ui_calculateLayout 256 128 = some l ∧
      c.top_h + c.top_pad + c.line1_h + c.line2_h + c.line3_h + c.bottom_h + c.bottom_pad ≤
        128 ∧
      ((256 : Nat) = 256 → 128 ≤ 262 → 128 - c.bottom_pad - c.status_v_pad - 1 < 256) ∧
      (128 - c.bottom_pad - c.status_v_pad - 1 < 256 →
        l.top_pos.y < l.line1_pos.y ∧ l.line1_pos.y < l.line2_pos.y ∧
        l.line2_pos.y < l.line3_pos.y ∧ l.line3_pos.y < l.bottom_pos.y ∧
        l.bottom_pos.y < 128)) ∧
    (_ui_calculateLayout 256 128).map
        (fun l => [l.top_pos.y, l.line1_pos.y, l.line2_pos.y, l.line3_pos.y, l.bottom_pos.y]) =
      some [13, 37, 57, 93, 121] ∧
    (_ui_calculateLayout 256 64).map
        (fun l => [l.top_pos.y, l.line1_pos.y, l.line2_pos.y, l.line3_pos.y, l.bottom_pos.y]) =
      some [9, 20, 30, 47, 62] ∧
    (_ui_calculateLayout 256 48).map
        (fun l => [l.top_pos.y, l.line1_pos.y, l.line2_pos.y, l.line3_pos.y, l.bottom_pos.y]) =
      some [9, 10, 20, 39, 46] ∧
    _ui_calculateLayout 256 47 = none :=
  ⟨layout_fits 256 128 (by decide), by decide, by decide, by decide, by decide⟩

/-! ## Weight of an entry position -/

/-- The coefficient loop multiplies by ten modulo `2 ^ 32`. -/
theorem freq_coefficient_pow (n c : Nat) :
    freq_coefficient n c % 2 ^ 32 = c * 10 ^ n % 2 ^ 32 := by
  induction n generalizing c with
  | zero => simp [freq_coefficient]
  | succ n ih =>
    rw [freq_coefficient, ih, pow_succ, Nat.mod_mul_mod]
    congr 1
    ring

/-- The digit added at position `pos` weighs `10 ^ (FREQ_DIGITS - pos + 1)`,
modulo `2 ^ 32`. -/
theorem add_digit_pow (cfg : build_cfg) (freq pos number : Nat) :
    _ui_freq_add_digit cfg freq pos number =
      (freq + number * 10 ^ (cfg.FREQ_DIGITS - pos + 1)) % 2 ^ 32 := by
  unfold _ui_freq_add_digit
  rw [Nat.add_mod_mod, Nat.add_mod freq, Nat.add_mod freq, Nat.mul_mod number,
    freq_coefficient_pow, ← Nat.mul_mod, pow_succ]
  congr 3
  ring

/-- Digits 0..9 at successive positions add less than the weight of the
position before the first of them. -/
theorem freq_exact_bound (cfg : build_cfg) (ds : List Nat) (hd : ∀ d ∈ ds, d ≤ 9)
    (freq pos : Nat) (hpos : pos + ds.length ≤ cfg.FREQ_DIGITS + 1) :
    freq_exact_from cfg freq pos ds + 10 ^ (cfg.FREQ_DIGITS + 2 - pos - ds.length) ≤
      freq + 10 ^ (cfg.FREQ_DIGITS + 2 - pos) := by
  induction ds generalizing freq pos with
  | nil => simp [freq_exact_from]
  | cons d ds ih =>
    rw [freq_exact_from]
    have hd1 : d ≤ 9 := hd d (List.mem_cons_self _ _)
    have hl : pos + 1 + ds.length ≤ cfg.FREQ_DIGITS + 1 := by
      simp only [List.length_cons] at hpos
      omega
    have := ih (fun x hx => hd x (List.mem_cons_of_mem _ hx))
      (freq + d * 10 ^ (cfg.FREQ_DIGITS - pos + 1)) (pos + 1) hl
    have e1 : cfg.FREQ_DIGITS + 2 - (pos + 1) - ds.length =
        cfg.FREQ_DIGITS + 2 - pos - (d :: ds).length := by
      simp only [List.length_cons]
      omega
    have e2 : cfg.FREQ_DIGITS + 2 - (pos + 1) = cfg.FREQ_DIGITS - pos + 1 := by
      simp only [List.length_cons] at hpos
      omega
    have e3 : cfg.FREQ_DIGITS + 2 - pos = (cfg.FREQ_DIGITS - pos + 1) + 1 := by
      simp only [List.length_cons] at hpos
      omega
    have key : 10 ^ (cfg.FREQ_DIGITS + 2 - pos) = 10 ^ (cfg.FREQ_DIGITS - pos + 1) * 10 := by
      rw [e3, pow_succ]
    rw [e1, e2] at this
    rw [key]
    have hm : d * 10 ^ (cfg.FREQ_DIGITS - pos + 1) ≤ 9 * 10 ^ (cfg.FREQ_DIGITS - pos + 1) :=
      Nat.mul_le_mul_right _ hd1
    generalize 10 ^ (cfg.FREQ_DIGITS - pos + 1) = P at this hm ⊢
    generalize d * P = Q at this hm ⊢
    omega

/-- While the unbounded value stays below `2 ^ 32`, the accumulator of the
code computes it. -/
theorem freq_entry_exact (cfg : build_cfg) (ds : List Nat) (hd : ∀ d ∈ ds, d ≤ 9)
    (freq pos : Nat) (hpos : pos + ds.length ≤ cfg.FREQ_DIGITS + 1)
    (hf : freq + 10 ^ (cfg.FREQ_DIGITS + 2 - pos) ≤ 2 ^ 32) :
    freq_entry_from cfg freq pos ds = freq_exact_from cfg freq pos ds := by
  induction ds generalizing freq pos with
  | nil => simp [freq_entry_from, freq_exact_from]
  | cons d ds ih =>
    rw [freq_entry_from, freq_exact_from, add_digit_pow]
    have hd1 : d ≤ 9 := hd d (List.mem_cons_self _ _)
    have hl : pos + 1 + ds.length ≤ cfg.FREQ_DIGITS + 1 := by
      simp only [List.length_cons] at hpos
      omega
    have e2 : cfg.FREQ_DIGITS + 2 - (pos + 1) = cfg.FREQ_DIGITS - pos + 1 := by
      simp only [List.length_cons] at hpos
      omega
    have e3 : cfg.FREQ_DIGITS + 2 - pos = (cfg.FREQ_DIGITS - pos + 1) + 1 := by
      simp only [List.length_cons] at hpos
      omega
    have hm : d * 10 ^ (cfg.FREQ_DIGITS - pos + 1) ≤ 9 * 10 ^ (cfg.FREQ_DIGITS - pos + 1) :=
      Nat.mul_le_mul_right _ hd1
    have hp : 0 < 10 ^ (cfg.FREQ_DIGITS - pos + 1) := Nat.pow_pos (by decide)
    have key : 10 ^ (cfg.FREQ_DIGITS + 2 - pos) = 10 ^ (cfg.FREQ_DIGITS - pos + 1) * 10 := by
      rw [e3, pow_succ]
    rw [key] at hf
    have hb : freq + d * 10 ^ (cfg.FREQ_DIGITS - pos + 1) +
        10 ^ (cfg.FREQ_DIGITS - pos + 1) ≤ 2 ^ 32 := by
      generalize 10 ^ (cfg.FREQ_DIGITS - pos + 1) = P at hf hm hp ⊢
      generalize d * P = Q at hm ⊢
      omega
    have hlt : freq + d * 10 ^ (cfg.FREQ_DIGITS - pos + 1) < 2 ^ 32 := by omega
    rw [Nat.mod_eq_of_lt hlt]
    apply ih (fun x hx => hd x (List.mem_cons_of_mem _ hx)) _ (pos + 1) hl
    rw [e2]
    exact hb

/-- Claim C24: for every value `v`, every position `p` in `1 .. FREQ_DIGITS`
(`FREQ_DIGITS` at most 255, so that the 8-bit loop counter reaches its bound)
and every digit `d` in 0..9, `_ui_freq_add_digit` returns
`(v + d * 10 ^ (FREQ_DIGITS - p + 1)) mod 2 ^ 32`; and with eight frequency
digits, for digits 0..9 entered at positions 1, 2, ... from 0, the value
computed without the reduction stays at or below `2 ^ 32 - 1` after every
digit and is the value the code computes. -/
theorem freq_add_digit_weight (cfg : build_cfg) (v p d : Nat) :
    (v < 2 ^ 32 → 1 ≤ p → p ≤ cfg.FREQ_DIGITS → cfg.FREQ_DIGITS ≤ 255 → d ≤ 9 →
      _ui_freq_add_digit cfg v p d = (v + d * 10 ^ (cfg.FREQ_DIGITS - p + 1)) % 2 ^ 32) ∧
    (cfg.FREQ_DIGITS = 8 → ∀ ds : List Nat, ds.length ≤ 8 → (∀ x ∈ ds, x ≤ 9) →
      freq_exact_from cfg 0 1 ds ≤ 2 ^ 32 - 1 ∧
      freq_entry cfg ds = freq_exact_from cfg 0 1 ds) := by
  refine ⟨fun _ _ _ _ _ => add_digit_pow cfg v p d, ?_⟩
  intro h8 ds hl hds
  have hpos : 1 + ds.length ≤ cfg.FREQ_DIGITS + 1 := by omega
  have B := freq_exact_bound cfg ds hds 0 1 hpos
  have E := freq_entry_exact cfg ds hds 0 1 hpos (by rw [h8]; norm_num)
  refine ⟨?_, E⟩
  rw [h8] at B
  have hq : 0 < 10 ^ (8 + 2 - 1 - ds.length) := Nat.pow_pos (by decide)
  generalize 10 ^ (8 + 2 - 1 - ds.length) = Q at B hq
  norm_num at B ⊢
  omega

/-- Claim C24 in the demonstration build: digit 4 at position 1 on top of 0
gives 400000000, and the digits 4,3,0,1,2,5,0,0 are accumulated without
overflow. -/
theorem freq_add_digit_weight_witness :
    _ui_freq_add_digit demo_cfg 0 1 4 = (0 + 4 * 10 ^ (demo_cfg.FREQ_DIGITS - 1 + 1)) % 2 ^ 32 ∧
    _ui_freq_add_digit demo_cfg 0 1 4 = 400000000 ∧
    freq_exact_from demo_cfg 0 1 [4, 3, 0, 1, 2, 5, 0, 0] ≤ 2 ^ 32 - 1 ∧
    freq_entry demo_cfg [4, 3, 0, 1, 2, 5, 0, 0] =
      freq_exact_from demo_cfg 0 1 [4, 3, 0, 1, 2, 5, 0, 0] :=
  ⟨(freq_add_digit_weight demo_cfg 0 1 4).1 (by decide) (by decide) (by decide) (by decide)
     (by decide),
   by decide,
   (freq_add_digit_weight demo_cfg 0 1 4).2 rfl [4, 3, 0, 1, 2, 5, 0, 0] (by decide)
     (by decide)⟩

/-! ## Time and date entry -/

/-- A call of `_ui_timedate_add_digit` at a position above 10 changes
nothing. -/
theorem timedate_add_digit_above (cfg : build_cfg) (t : curTime_t) (p d : Nat)
    (h : 10 < p) : _ui_timedate_add_digit cfg t p d = t := by
  obtain ⟨n, rfl⟩ : ∃ n, p = n + 11 := ⟨p - 11, by omega⟩
  rfl

/-- Claim C25, as stated, fails: with a 5-bit date and hour, a 4-bit month, a
7-bit year and a 6-bit minute, ten digits 9 entered at positions 1..10 from
the all-zero time and date give date 3, month 3, hour 3 and minute 35 instead
of 99; only the year is 99. -/
theorem timedate_entry_truncates :
    demo_cfg.fields.date = 32 ∧ demo_cfg.fields.month = 16 ∧ demo_cfg.fields.year = 128 ∧
    demo_cfg.fields.hour = 32 ∧ demo_cfg.fields.minute = 64 ∧
    timedate_entry_from demo_cfg curTime_zero 1 [9, 9, 9, 9, 9, 9, 9, 9, 9, 9] =
      { hour := 3, minute := 35, second := 0, day := 0, date := 3, month := 3, year := 99 } ∧
    (timedate_entry_from demo_cfg curTime_zero 1 [9, 9, 9, 9, 9, 9, 9, 9, 9, 9]).date ≠
      10 * 9 + 9 := by
  decide

/-- Claim C25, amended: ten digits entered at positions 1..10 from the all-zero
time and date give, each reduced modulo the capacity of its field, date
`10 * d1 + d2`, month `10 * d3 + d4`, year `10 * d5 + d6`, hour `10 * d7 + d8`
and minute `10 * d9 + d10`, the seconds and the day of the week staying zero;
a field whose two-digit value fits it holds that value. A single call at
position `p` changes only the field of its pair, and a call at position 0 or
above 10 changes nothing. -/
theorem timedate_entry (cfg : build_cfg) (d1 d2 d3 d4 d5 d6 d7 d8 d9 d10 : Nat) :
    timedate_entry_from cfg curTime_zero 1 [d1, d2, d3, d4, d5, d6, d7, d8, d9, d10] =
      { hour := (10 * d7 + d8) % cfg.fields.hour
        minute := (10 * d9 + d10) % cfg.fields.minute
        second := 0
        day := 0
        date := (10 * d1 + d2) % cfg.fields.date
        month := (10 * d3 + d4) % cfg.fields.month
        year := (10 * d5 + d6) % cfg.fields.year } ∧
    (10 * d1 + d2 < cfg.fields.date →
      (timedate_entry_from cfg curTime_zero 1
        [d1, d2, d3, d4, d5, d6, d7, d8, d9, d10]).date = 10 * d1 + d2) ∧
    (10 * d3 + d4 < cfg.fields.month →
      (timedate_entry_from cfg curTime_zero 1
        [d1, d2, d3, d4, d5, d6, d7, d8, d9, d10]).month = 10 * d3 + d4) ∧
    (10 * d5 + d6 < cfg.fields.year →
      (timedate_entry_from cfg curTime_zero 1
        [d1, d2, d3, d4, d5, d6, d7, d8, d9, d10]).year = 10 * d5 + d6) ∧
    (10 * d7 + d8 < cfg.fields.hour →
      (timedate_entry_from cfg curTime_zero 1
        [d1, d2, d3, d4, d5, d6, d7, d8, d9, d10]).hour = 10 * d7 + d8) ∧
    (10 * d9 + d10 < cfg.fields.minute →
      (timedate_entry_from cfg curTime_zero 1
        [d1, d2, d3, d4, d5, d6, d7, d8, d9, d10]).minute = 10 * d9 + d10) ∧
    (∀ (t : curTime_t) (p d : Nat),
      (p = 1 ∨ p = 2 → _ui_timedate_add_digit cfg t p d =
        { t with date := (_ui_timedate_add_digit cfg t p d).date }) ∧
      (p = 3 ∨ p = 4 → _ui_timedate_add_digit cfg t p d =
        { t with month := (_ui_timedate_add_digit cfg t p d).month }) ∧
      (p = 5 ∨ p = 6 → _ui_timedate_add_digit cfg t p d =
        { t with year := (_ui_timedate_add_digit cfg t p d).year }) ∧
      (p = 7 ∨ p = 8 → _ui_timedate_add_digit cfg t p d =
        { t with hour := (_ui_timedate_add_digit cfg t p d).hour }) ∧
      (p = 9 ∨ p = 10 → _ui_timedate_add_digit cfg t p d =
        { t with minute := (_ui_timedate_add_digit cfg t p d).minute }) ∧
      (p = 0 ∨ 10 < p → _ui_timedate_add_digit cfg t p d = t)) := by
  have two : ∀ a b m : Nat, ((0 + a * 10) % m + b) % m = (10 * a + b) % m := by
    intro a b m
    rw [Nat.mod_add_mod]
    congr 1
    omega
  have hval : timedate_entry_from cfg curTime_zero 1
      [d1, d2, d3, d4, d5, d6, d7, d8, d9, d10] =
      { hour := (10 * d7 + d8) % cfg.fields.hour
        minute := (10 * d9 + d10) % cfg.fields.minute
        second := 0
        day := 0
        date := (10 * d1 + d2) % cfg.fields.date
        month := (10 * d3 + d4) % cfg.fields.month
        year := (10 * d5 + d6) % cfg.fields.year } := by
    simp only [timedate_entry_from, _ui_timedate_add_digit, curTime_zero, two]
  refine ⟨hval, ?_, ?_, ?_, ?_, ?_, ?_⟩
  · intro h
    rw [hval]
    exact Nat.mod_eq_of_lt h
  · intro h
    rw [hval]
    exact Nat.mod_eq_of_lt h
  · intro h
    rw [hval]
    exact Nat.mod_eq_of_lt h
  · intro h
    rw [hval]
    exact Nat.mod_eq_of_lt h
  · intro h
    rw [hval]
    exact Nat.mod_eq_of_lt h
  · intro t p d
    refine ⟨?_, ?_, ?_, ?_, ?_, ?_⟩
    · rintro (rfl | rfl) <;> rfl
    · rintro (rfl | rfl) <;> rfl
    · rintro (rfl | rfl) <;> rfl
    · rintro (rfl | rfl) <;> rfl
    · rintro (rfl | rfl) <;> rfl
    · rintro (rfl | h)
      · rfl
      · exact timedate_add_digit_above cfg t p d h

/-- Claim C25, amended, with a 5-bit date and hour, a 4-bit month, a 7-bit year
and a 6-bit minute: the digits 2,4,1,2,2,0,1,8,3,0 give the 24th of month 12
of year 20 at 18:30, and the digits 3,9 of a date give 39 mod 32. -/
theorem timedate_entry_witness :
    (timedate_entry_from demo_cfg curTime_zero 1 [2, 4, 1, 2, 2, 0, 1, 8, 3, 0]).date = 24 ∧
    (timedate_entry_from demo_cfg curTime_zero 1 [2, 4, 1, 2, 2, 0, 1, 8, 3, 0]).month = 12 ∧
    (timedate_entry_from demo_cfg curTime_zero 1 [2, 4, 1, 2, 2, 0, 1, 8, 3, 0]).year = 20 ∧
    (timedate_entry_from demo_cfg curTime_zero 1 [2, 4, 1, 2, 2, 0, 1, 8, 3, 0]).hour = 18 ∧
    (timedate_entry_from demo_cfg curTime_zero 1 [2, 4, 1, 2, 2, 0, 1, 8, 3, 0]).minute = 30 ∧
    (timedate_entry_from demo_cfg curTime_zero 1 [3, 9, 1, 2, 2, 0, 1, 8, 3, 0]).date =
      39 % 32 :=
  have A := timedate_entry demo_cfg 2 4 1 2 2 0 1 8 3 0
  have B := timedate_entry demo_cfg 3 9 1 2 2 0 1 8 3 0
  ⟨A.2.1 (by decide), A.2.2.1 (by decide), A.2.2.2.1 (by decide), A.2.2.2.2.1 (by decide),
   A.2.2.2.2.2.1 (by decide), congrArg curTime_t.date B.1⟩

theorem dispatch_SETTINGS_TIMEDATE_SET (cfg : build_cfg) (e : platform_env) (msg : kbd_msg_t)
    (g : ui_globals) (h : g.state.ui_screen = SETTINGS_TIMEDATE_SET)
    (hr : cfg.HAS_RTC = true) :
    fsm_dispatch cfg e msg g = case_SETTINGS_TIMEDATE_SET cfg e msg g := by
  simp only [fsm_dispatch, h, hr, if_true]

/-- A digit key on `SETTINGS_TIMEDATE_SET`, neither ENTER nor ESC set. -/
theorem timedate_set_digit (cfg : build_cfg) (e : platform_env) (msg : kbd_msg_t)
    (g : ui_globals) (hn : msg.isNumberPressed = true) (he : msg.KEY_ENTER = false)
    (hx : msg.KEY_ESC = false) :
    case_SETTINGS_TIMEDATE_SET cfg e msg g =
      if g.ui_state.input_position > cfg.TIMEDATE_DIGITS then g
      else
        { g with ui_state :=
            { g.ui_state with
              input_position := (g.ui_state.input_position + 1) % 256
              input_number := msg.pressedNumber
              new_timedate :=
                _ui_timedate_add_digit cfg g.ui_state.new_timedate
                  ((g.ui_state.input_position + 1) % 256) msg.pressedNumber } } := by
  rw [case_SETTINGS_TIMEDATE_SET]
  simp only [he, hx, hn, Bool.false_eq_true, ↓reduceIte]

/-- Claim C26 fails on the code. From the start-up state the keys ENTER, three
times DOWN, ENTER, DOWN, ENTER, ENTER reach `SETTINGS_TIMEDATE_SET`, and the
digits 2,4,1,2,2,0,1,8,3,0 fill the ten positions; the next digit, 7, is not
discarded: the guard lets it through, the entry position moves from 10 to 11
and `input_number` becomes 7. Only the pending time and date and the screen
are left as they were. -/
theorem timedate_excess_digit_moves_position :
    demo_cfg.HAS_RTC = true ∧ demo_cfg.TIMEDATE_DIGITS = 10 ∧
    (ui_run demo_cfg timedate_entry_keys demo_globals).state.ui_screen =
      SETTINGS_TIMEDATE_SET ∧
    (ui_run demo_cfg timedate_entry_keys demo_globals).ui_state.input_position = 10 ∧
    (ui_run demo_cfg timedate_entry_keys demo_globals).ui_state.input_number = 0 ∧
    (ui_updateFSM demo_cfg demo_env { type := EVENT_KBD, payload := key_digit 7 }
      (ui_run demo_cfg timedate_entry_keys demo_globals)).ui_state.input_position = 11 ∧
    (ui_updateFSM demo_cfg demo_env { type := EVENT_KBD, payload := key_digit 7 }
      (ui_run demo_cfg timedate_entry_keys demo_globals)).ui_state.input_position ≠
      (ui_run demo_cfg timedate_entry_keys demo_globals).ui_state.input_position ∧
    (ui_updateFSM demo_cfg demo_env { type := EVENT_KBD, payload := key_digit 7 }
      (ui_run demo_cfg timedate_entry_keys demo_globals)).ui_state.input_number = 7 ∧
    (ui_updateFSM demo_cfg demo_env { type := EVENT_KBD, payload := key_digit 7 }
      (ui_run demo_cfg timedate_entry_keys demo_globals)).ui_state.new_timedate =
      (ui_run demo_cfg timedate_entry_keys demo_globals).ui_state.new_timedate ∧
    (ui_updateFSM demo_cfg demo_env { type := EVENT_KBD, payload := key_digit 7 }
      (ui_run demo_cfg timedate_entry_keys demo_globals)).state.ui_screen =
      SETTINGS_TIMEDATE_SET := by
  decide

/-- What a digit does on `SETTINGS_TIMEDATE_SET` once the entry position is 10
or more, with the real-time clock and ten time and date digits (event
dispatched, neither ENTER, ESC nor MONI set): the pending time and date and
the screen are unchanged; from position 10 the entry position moves to 11, and
from any position above 10 the event changes nothing but the macro-menu flag,
which it clears. -/
theorem timedate_excess_digit (cfg : build_cfg) (e : platform_env) (msg : kbd_msg_t)
    (g : ui_globals) (hs : g.state.ui_screen = SETTINGS_TIMEDATE_SET)
    (hr : cfg.HAS_RTC = true) (ht : cfg.TIMEDATE_DIGITS = 10) (hc : checks_pass e g)
    (hn : msg.isNumberPressed = true) (he : msg.KEY_ENTER = false)
    (hx : msg.KEY_ESC = false) (hm : msg.KEY_MONI = false)
    (hp : 10 ≤ g.ui_state.input_position) (hp8 : g.ui_state.input_position ≤ 255) :
    (ui_updateFSM cfg e { type := EVENT_KBD, payload := msg } g).ui_state.new_timedate =
      g.ui_state.new_timedate ∧
    (ui_updateFSM cfg e { type := EVENT_KBD, payload := msg } g).state.ui_screen =
      SETTINGS_TIMEDATE_SET ∧
    (g.ui_state.input_position = 10 →
      (ui_updateFSM cfg e { type := EVENT_KBD, payload := msg } g).ui_state.input_position =
        11) ∧
    (10 < g.ui_state.input_position →
      ui_updateFSM cfg e { type := EVENT_KBD, payload := msg } g =
        { g with macro_menu := false }) := by
  rw [ui_updateFSM_dispatch cfg e msg g hc hm,
    dispatch_SETTINGS_TIMEDATE_SET cfg e msg { g with macro_menu := false } hs hr,
    timedate_set_digit cfg e msg _ hn he hx, ht]
  by_cases h10 : g.ui_state.input_position = 10
  · have hn : ¬ ({ g with macro_menu := false } : ui_globals).ui_state.input_position > 10 := by
      show ¬ g.ui_state.input_position > 10
      omega
    rw [if_neg hn]
    refine ⟨?_, hs, fun _ => ?_, fun h => absurd h (by omega)⟩
    · show _ui_timedate_add_digit cfg g.ui_state.new_timedate
        ((g.ui_state.input_position + 1) % 256) msg.pressedNumber = g.ui_state.new_timedate
      rw [h10]
      rfl
    · show (g.ui_state.input_position + 1) % 256 = 11
      rw [h10]
  · have hgt : ({ g with macro_menu := false } : ui_globals).ui_state.input_position > 10 := by
      show g.ui_state.input_position > 10
      omega
    rw [if_pos hgt]
    exact ⟨rfl, hs, fun h => absurd h h10, fun _ => rfl⟩

/-- On the demonstration state with ten digits entered, digit 7 leaves the
pending time and date and the screen and moves the entry position to 11. -/
theorem timedate_excess_digit_demo :
    (ui_updateFSM demo_cfg demo_env { type := EVENT_KBD, payload := key_digit 7 }
      demo_timedate_full).ui_state.new_timedate = demo_timedate_full.ui_state.new_timedate ∧
    (ui_updateFSM demo_cfg demo_env { type := EVENT_KBD, payload := key_digit 7 }
      demo_timedate_full).state.ui_screen = SETTINGS_TIMEDATE_SET ∧
    (ui_updateFSM demo_cfg demo_env { type := EVENT_KBD, payload := key_digit 7 }
      demo_timedate_full).ui_state.input_position = 11 :=
  have A := timedate_excess_digit demo_cfg demo_env (key_digit 7) demo_timedate_full rfl rfl
    rfl (by decide) rfl rfl rfl rfl (by decide) (by decide)
  ⟨A.1, A.2.1, A.2.2.1 rfl⟩

/-! ## Macro menu: tone flags and tone index -/

/-- The squelch part of the macro menu leaves the channel alone. -/
theorem menuMacro_squelch_channel (cfg : build_cfg) (e : platform_env) (msg : kbd_msg_t)
    (g : ui_globals) : (menuMacro_squelch cfg e msg g).state.channel = g.state.channel := by
  unfold menuMacro_squelch
  split_ifs <;> rfl

/-- The squelch part of the macro menu never lowers the resync flag. -/
theorem menuMacro_squelch_sync (cfg : build_cfg) (e : platform_env) (msg : kbd_msg_t)
    (g : ui_globals) (h : g.sync_rtx = true) :
    (menuMacro_squelch cfg e msg g).sync_rtx = true := by
  unfold menuMacro_squelch
  split_ifs <;> first | rfl | exact h

/-- Digit 2 of the macro menu on the two tone flags. -/
theorem macro_two_step (cfg : build_cfg) (e : platform_env) (msg : kbd_msg_t)
    (g : ui_globals) (h2 : msg.pressedNumber = 2) :
    (_ui_fsm_menuMacro cfg e msg g).state.channel.fm.txToneEn =
      xor g.state.channel.fm.txToneEn g.state.channel.fm.rxToneEn ∧
    (_ui_fsm_menuMacro cfg e msg g).state.channel.fm.rxToneEn =
      !g.state.channel.fm.rxToneEn ∧
    (_ui_fsm_menuMacro cfg e msg g).sync_rtx = true := by
  unfold _ui_fsm_menuMacro
  rw [menuMacro_squelch_channel]
  have hn : menuMacro_number cfg
      { g with ui_state := { g.ui_state with input_number := msg.pressedNumber } } =
      { set_channel g { g.state.channel with
          fm := { g.state.channel.fm with
            txToneEn := xor g.state.channel.fm.txToneEn g.state.channel.fm.rxToneEn
            rxToneEn := !g.state.channel.fm.rxToneEn } }
        with sync_rtx := true
             ui_state := { g.ui_state with input_number := msg.pressedNumber } } := by
    unfold menuMacro_number
    simp only [h2]
    cases htx : g.state.channel.fm.txToneEn <;> cases hrx : g.state.channel.fm.rxToneEn <;>
      simp [set_channel, htx, hrx]
  refine ⟨?_, ?_, ?_⟩
  · rw [hn]; rfl
  · rw [hn]; rfl
  · apply menuMacro_squelch_sync
    rw [hn]

/-- Claim C28: in the macro menu, digit 2 reads the two tone flags as the
number `2 * tx + rx`, replaces it by that number plus one modulo 4 and sets the
resync flag; so (off, off) becomes (off, rx), that becomes (tx, off), that
becomes (tx, rx), that becomes (off, off), and four presses restore the pair
of flags. -/
theorem macro_tone_flag_cycle (cfg : build_cfg) (e : platform_env) (msg : kbd_msg_t)
    (g : ui_globals) (h2 : msg.pressedNumber = 2) :
    2 * (_ui_fsm_menuMacro cfg e msg g).state.channel.fm.txToneEn.toNat +
        (_ui_fsm_menuMacro cfg e msg g).state.channel.fm.rxToneEn.toNat =
      (2 * g.state.channel.fm.txToneEn.toNat + g.state.channel.fm.rxToneEn.toNat + 1) % 4 ∧
    (_ui_fsm_menuMacro cfg e msg g).sync_rtx = true ∧
    (g.state.channel.fm.txToneEn = false → g.state.channel.fm.rxToneEn = false →
      (_ui_fsm_menuMacro cfg e msg g).state.channel.fm.txToneEn = false ∧
      (_ui_fsm_menuMacro cfg e msg g).state.channel.fm.rxToneEn = true) ∧
    (g.state.channel.fm.txToneEn = false → g.state.channel.fm.rxToneEn = true →
      (_ui_fsm_menuMacro cfg e msg g).state.channel.fm.txToneEn = true ∧
      (_ui_fsm_menuMacro cfg e msg g).state.channel.fm.rxToneEn = false) ∧
    (g.state.channel.fm.txToneEn = true → g.state.channel.fm.rxToneEn = false →
      (_ui_fsm_menuMacro cfg e msg g).state.channel.fm.txToneEn = true ∧
      (_ui_fsm_menuMacro cfg e msg g).state.channel.fm.rxToneEn = true) ∧
    (g.state.channel.fm.txToneEn = true → g.state.channel.fm.rxToneEn = true →
      (_ui_fsm_menuMacro cfg e msg g).state.channel.fm.txToneEn = false ∧
      (_ui_fsm_menuMacro cfg e msg g).state.channel.fm.rxToneEn = false) ∧
    (∀ (e2 e3 e4 : platform_env) (m2 m3 m4 : kbd_msg_t),
      m2.pressedNumber = 2 → m3.pressedNumber = 2 → m4.pressedNumber = 2 →
      (macro_run cfg [(e, msg), (e2, m2), (e3, m3), (e4, m4)] g).state.channel.fm.txToneEn =
        g.state.channel.fm.txToneEn ∧
      (macro_run cfg [(e, msg), (e2, m2), (e3, m3), (e4, m4)] g).state.channel.fm.rxToneEn =
        g.state.channel.fm.rxToneEn) := by
  obtain ⟨a, b, c⟩ := macro_two_step cfg e msg g h2
  refine ⟨?_, c, ?_, ?_, ?_, ?_, ?_⟩
  · rw [a, b]
    cases g.state.channel.fm.txToneEn <;> cases g.state.channel.fm.rxToneEn <;> rfl
  · intro ht hr
    rw [a, b, ht, hr]
    exact ⟨rfl, rfl⟩
  · intro ht hr
    rw [a, b, ht, hr]
    exact ⟨rfl, rfl⟩
  · intro ht hr
    rw [a, b, ht, hr]
    exact ⟨rfl, rfl⟩
  · intro ht hr
    rw [a, b, ht, hr]
    exact ⟨rfl, rfl⟩
  · intro e2 e3 e4 m2 m3 m4 h22 h23 h24
    simp only [macro_run, List.foldl_cons, List.foldl_nil]
    obtain ⟨a2, b2, -⟩ := macro_two_step cfg e2 m2 (_ui_fsm_menuMacro cfg e msg g) h22
    obtain ⟨a3, b3, -⟩ := macro_two_step cfg e3 m3
      (_ui_fsm_menuMacro cfg e2 m2 (_ui_fsm_menuMacro cfg e msg g)) h23
    obtain ⟨a4, b4, -⟩ := macro_two_step cfg e4 m4
      (_ui_fsm_menuMacro cfg e3 m3 (_ui_fsm_menuMacro cfg e2 m2 (_ui_fsm_menuMacro cfg e msg g)))
      h24
    rw [a4, b4, a3, b3, a2, b2, a, b]
    cases g.state.channel.fm.txToneEn <;> cases g.state.channel.fm.rxToneEn <;>
      exact ⟨rfl, rfl⟩

/-- Claim C28 on the demonstration state, whose tone flags are both off: one
press of MONI with digit 2 turns the rx flag on, and four presses restore
both flags. -/
theorem macro_tone_flag_cycle_witness :
    (_ui_fsm_menuMacro demo_cfg demo_env (key_moni_digit 2)
      demo_globals).state.channel.fm.txToneEn = false ∧
    (_ui_fsm_menuMacro demo_cfg demo_env (key_moni_digit 2)
      demo_globals).state.channel.fm.rxToneEn = true ∧
    (macro_run demo_cfg
      [(demo_env, key_moni_digit 2), (demo_env, key_moni_digit 2),
       (demo_env, key_moni_digit 2), (demo_env, key_moni_digit 2)]
      demo_globals).state.channel.fm.txToneEn = demo_globals.state.channel.fm.txToneEn :=
  have A := macro_tone_flag_cycle demo_cfg demo_env (key_moni_digit 2) demo_globals rfl
  ⟨(A.2.2.1 rfl rfl).1, (A.2.2.1 rfl rfl).2,
   (A.2.2.2.2.2.2 demo_env demo_env demo_env (key_moni_digit 2) (key_moni_digit 2)
     (key_moni_digit 2) rfl rfl rfl).1⟩

/-- Digit 1 of the macro menu on the two tone indices. -/
theorem macro_one_step (cfg : build_cfg) (e : platform_env) (msg : kbd_msg_t)
    (g : ui_globals) (h1 : msg.pressedNumber = 1) :
    (_ui_fsm_menuMacro cfg e msg g).state.channel.fm.txTone =
      (g.state.channel.fm.txTone + 1) % cfg.fields.tone % cfg.MAX_TONE_INDEX ∧
    (_ui_fsm_menuMacro cfg e msg g).state.channel.fm.rxTone =
      (g.state.channel.fm.txTone + 1) % cfg.fields.tone % cfg.MAX_TONE_INDEX ∧
    (_ui_fsm_menuMacro cfg e msg g).sync_rtx = true := by
  unfold _ui_fsm_menuMacro
  rw [menuMacro_squelch_channel]
  have hn : menuMacro_number cfg
      { g with ui_state := { g.ui_state with input_number := msg.pressedNumber } } =
      { set_channel g { g.state.channel with
          fm := { g.state.channel.fm with
            txTone := (g.state.channel.fm.txTone + 1) % cfg.fields.tone % cfg.MAX_TONE_INDEX
            rxTone := (g.state.channel.fm.txTone + 1) % cfg.fields.tone % cfg.MAX_TONE_INDEX } }
        with sync_rtx := true
             ui_state := { g.ui_state with input_number := msg.pressedNumber } } := by
    unfold menuMacro_number
    simp only [h1]
    rfl
  refine ⟨?_, ?_, ?_⟩
  · rw [hn]; rfl
  · rw [hn]; rfl
  · apply menuMacro_squelch_sync
    rw [hn]

/-- Digit 1 pressed in every event of a run advances a tone index below
`MAX_TONE_INDEX` by the number of events, modulo `MAX_TONE_INDEX`. -/
theorem macro_one_run (cfg : build_cfg) (hm : cfg.MAX_TONE_INDEX ≤ cfg.fields.tone)
    (events : List (platform_env × kbd_msg_t)) (h1 : ∀ x ∈ events, x.2.pressedNumber = 1)
    (g : ui_globals) (ht : g.state.channel.fm.txTone < cfg.MAX_TONE_INDEX) :
    (macro_run cfg events g).state.channel.fm.txTone =
      (g.state.channel.fm.txTone + events.length) % cfg.MAX_TONE_INDEX := by
  induction events generalizing g with
  | nil => simp [macro_run, Nat.mod_eq_of_lt ht]
  | cons x xs ih =>
    have hx := (macro_one_step cfg x.1 x.2 g (h1 x (List.mem_cons_self _ _))).1
    have hstep : (_ui_fsm_menuMacro cfg x.1 x.2 g).state.channel.fm.txTone =
        (g.state.channel.fm.txTone + 1) % cfg.MAX_TONE_INDEX := by
      rw [hx]
      by_cases hlt : g.state.channel.fm.txTone + 1 < cfg.fields.tone
      · rw [Nat.mod_eq_of_lt hlt]
      · have he : g.state.channel.fm.txTone + 1 = cfg.fields.tone := by omega
        have he2 : g.state.channel.fm.txTone + 1 = cfg.MAX_TONE_INDEX := by omega
        rw [he, Nat.mod_self, ← he2, ← he, he2, Nat.mod_self, Nat.zero_mod]
    have hlt : (_ui_fsm_menuMacro cfg x.1 x.2 g).state.channel.fm.txTone <
        cfg.MAX_TONE_INDEX := by
      rw [hstep]
      exact Nat.mod_lt _ (by omega)
    have := ih (fun y hy => h1 y (List.mem_cons_of_mem _ hy)) (_ui_fsm_menuMacro cfg x.1 x.2 g)
      hlt
    simp only [macro_run, List.foldl_cons, List.length_cons] at this ⊢
    rw [this, hstep, Nat.mod_add_mod]
    congr 1
    omega

/-- Claim C29, as stated, fails: with a 7-bit tone index and 50 tones, digit 1
of the macro menu on a tx tone index of 127 stores 0, the increment wrapping
the field, and not `(127 + 1) mod 50 = 28`. -/
theorem tone_index_wraps :
    demo_cfg.fields.tone = 128 ∧ demo_cfg.MAX_TONE_INDEX = 50 ∧
    demo_tone_top.state.channel.fm.txTone = 127 ∧
    (_ui_fsm_menuMacro demo_cfg demo_env (key_moni_digit 1)
      demo_tone_top).state.channel.fm.txTone = 0 ∧
    (_ui_fsm_menuMacro demo_cfg demo_env (key_moni_digit 1)
      demo_tone_top).state.channel.fm.txTone ≠
      (demo_tone_top.state.channel.fm.txTone + 1) % demo_cfg.MAX_TONE_INDEX ∧
    (ui_updateFSM demo_cfg demo_env { type := EVENT_KBD, payload := key_moni_digit 1 }
      demo_tone_top).state.channel.fm.txTone = 0 := by
  decide

/-- Claim C29, amended: in the macro menu, digit 1 increments txTone inside its
field, wrapping to 0 from the highest value the field holds, reduces the
result modulo `MAX_TONE_INDEX` (taken positive), stores it in txTone and in
rxTone and sets the resync flag. So rxTone equals the new txTone, which is
below `MAX_TONE_INDEX`, whatever the two indices were; the new txTone is
`(txTone + 1) mod MAX_TONE_INDEX` when txTone is below the highest value of
the field, and 0 at that value; and when `MAX_TONE_INDEX` values fit the
field, `MAX_TONE_INDEX` presses from a txTone below `MAX_TONE_INDEX` return
txTone to its starting value. -/
theorem macro_tone_index (cfg : build_cfg) (e : platform_env) (msg : kbd_msg_t)
    (g : ui_globals) (h1 : msg.pressedNumber = 1) (hpos : 0 < cfg.MAX_TONE_INDEX) :
    (_ui_fsm_menuMacro cfg e msg g).sync_rtx = true ∧
    (_ui_fsm_menuMacro cfg e msg g).state.channel.fm.rxTone =
      (_ui_fsm_menuMacro cfg e msg g).state.channel.fm.txTone ∧
    (_ui_fsm_menuMacro cfg e msg g).state.channel.fm.txTone < cfg.MAX_TONE_INDEX ∧
    (_ui_fsm_menuMacro cfg e msg g).state.channel.fm.txTone =
      (g.state.channel.fm.txTone + 1) % cfg.fields.tone % cfg.MAX_TONE_INDEX ∧
    (g.state.channel.fm.txTone + 1 < cfg.fields.tone →
      (_ui_fsm_menuMacro cfg e msg g).state.channel.fm.txTone =
        (g.state.channel.fm.txTone + 1) % cfg.MAX_TONE_INDEX) ∧
    (g.state.channel.fm.txTone + 1 = cfg.fields.tone →
      (_ui_fsm_menuMacro cfg e msg g).state.channel.fm.txTone = 0) ∧
    (cfg.MAX_TONE_INDEX ≤ cfg.fields.tone → g.state.channel.fm.txTone < cfg.MAX_TONE_INDEX →
      ∀ events : List (platform_env × kbd_msg_t),
        events.length = cfg.MAX_TONE_INDEX → (∀ x ∈ events, x.2.pressedNumber = 1) →
        (macro_run cfg events g).state.channel.fm.txTone = g.state.channel.fm.txTone) := by
  obtain ⟨a, b, c⟩ := macro_one_step cfg e msg g h1
  refine ⟨c, by rw [a, b], ?_, a, ?_, ?_, ?_⟩
  · rw [a]
    exact Nat.mod_lt _ hpos
  · intro hlt
    rw [a, Nat.mod_eq_of_lt hlt]
  · intro heq
    rw [a, heq, Nat.mod_self, Nat.zero_mod]
  · intro hm ht events hl hall
    rw [macro_one_run cfg hm events hall g ht, hl, Nat.add_mod_right, Nat.mod_eq_of_lt ht]

/-- Claim C29, amended, with a 7-bit tone index: with 50 tones one press of
MONI with digit 1 takes index 0 to index 1 for both directions and index 127
to index 0; with three tones, three presses return to index 0. -/
theorem macro_tone_index_witness :
    (_ui_fsm_menuMacro demo_cfg demo_env (key_moni_digit 1)
      demo_globals).state.channel.fm.txTone = (0 + 1) % 50 ∧
    (_ui_fsm_menuMacro demo_cfg demo_env (key_moni_digit 1)
      demo_globals).state.channel.fm.rxTone =
      (_ui_fsm_menuMacro demo_cfg demo_env (key_moni_digit 1)
        demo_globals).state.channel.fm.txTone ∧
    (_ui_fsm_menuMacro demo_cfg demo_env (key_moni_digit 1)
      demo_tone_top).state.channel.fm.txTone = 0 ∧
    (macro_run { demo_cfg with MAX_TONE_INDEX := 3 }
      [(demo_env, key_moni_digit 1), (demo_env, key_moni_digit 1),
       (demo_env, key_moni_digit 1)] demo_globals).state.channel.fm.txTone =
      demo_globals.state.channel.fm.txTone :=
  have A := macro_tone_index demo_cfg demo_env (key_moni_digit 1) demo_globals rfl (by decide)
  have B := macro_tone_index demo_cfg demo_env (key_moni_digit 1) demo_tone_top rfl (by decide)
  have C := macro_tone_index { demo_cfg with MAX_TONE_INDEX := 3 } demo_env
    (key_moni_digit 1) demo_globals rfl (by decide)
  ⟨A.2.2.2.2.1 (by decide), A.2.1, B.2.2.2.2.2.1 (by decide),
   C.2.2.2.2.2.2 (by decide) (by decide) _ rfl (by decide)⟩

/-! ## Display settings -/

theorem dispatch_SETTINGS_DISPLAY (cfg : build_cfg) (e : platform_env) (msg : kbd_msg_t)
    (g : ui_globals) (h : g.state.ui_screen = SETTINGS_DISPLAY) :
    fsm_dispatch cfg e msg g = case_SETTINGS_DISPLAY cfg msg g := by
  simp only [fsm_dispatch, h]

/-- The adjustment `switch` of `SETTINGS_DISPLAY`: it keeps `ui_state`, changes
the brightness when the cursor is on `D_BRIGHTNESS`, and the contrast when the
display has one and the cursor is on `D_CONTRAST`. -/
theorem display_adjust_proj (cfg : build_cfg) (b c : Int) (g : ui_globals) :
    (display_adjust cfg b c g).ui_state = g.ui_state ∧
    (display_adjust cfg b c g).state.settings.brightness =
      (if g.ui_state.menu_selected = D_BRIGHTNESS then
        level_change g.state.settings.brightness b
       else g.state.settings.brightness) ∧
    (display_adjust cfg b c g).state.settings.contrast =
      (if g.ui_state.menu_selected ≠ D_BRIGHTNESS ∧ cfg.SCREEN_CONTRAST = true ∧
          g.ui_state.menu_selected = D_CONTRAST then
        level_change g.state.settings.contrast c
       else g.state.settings.contrast) := by
  unfold display_adjust
  by_cases h0 : g.ui_state.menu_selected = D_BRIGHTNESS
  · rw [if_pos h0, if_pos h0, if_neg (fun h => h.1 h0)]
    exact ⟨rfl, rfl, rfl⟩
  · rw [if_neg h0, if_neg h0]
    by_cases h1 : cfg.SCREEN_CONTRAST = true ∧ g.ui_state.menu_selected = D_CONTRAST
    · rw [if_pos h1, if_pos ⟨h0, h1⟩]
      exact ⟨rfl, rfl, rfl⟩
    · rw [if_neg h1, if_neg (fun h => h1 h.2)]
      exact ⟨rfl, rfl, rfl⟩

/-- Moving the cursor, toggling edit mode and leaving a menu do not touch the
settings. -/
theorem menu_moves_settings (n : Nat) (prev : uiScreen) (g : ui_globals) :
    (_ui_menuUp n g).state.settings = g.state.settings ∧
    (_ui_menuDown n g).state.settings = g.state.settings ∧
    (_ui_menuBack prev g).state.settings = g.state.settings := by
  refine ⟨?_, ?_, ?_⟩
  · unfold _ui_menuUp
    split_ifs <;> rfl
  · unfold _ui_menuDown
    split_ifs <;> rfl
  · unfold _ui_menuBack
    split_ifs <;> rfl

/-- Claim C30, as stated, fails: on `SETTINGS_DISPLAY` outside edit mode, with
the cursor on the brightness entry, a LEFT key event lowers the brightness
from 255 to 230. -/
theorem display_left_outside_edit :
    (demo_on SETTINGS_DISPLAY).state.ui_screen = SETTINGS_DISPLAY ∧
    (demo_on SETTINGS_DISPLAY).ui_state.edit_mode = false ∧
    checks_pass demo_env (demo_on SETTINGS_DISPLAY) ∧
    (demo_on SETTINGS_DISPLAY).state.settings.brightness = 255 ∧
    (ui_updateFSM demo_cfg demo_env { type := EVENT_KBD, payload := key_left }
      (demo_on SETTINGS_DISPLAY)).state.settings.brightness = 230 := by
  decide

/-- Claim C30, amended: on `SETTINGS_DISPLAY` (event dispatched, MONI not set)
LEFT lowers and RIGHT raises the selected parameter in and outside edit mode,
and DOWN lowers and UP raises it in edit mode only: the brightness changes by
25 saturating in 0..255 when the cursor is on it, the contrast by 4 when the
display has one and the cursor is on it, and the cursor and edit mode are
unchanged. Outside edit mode an event with neither LEFT nor RIGHT leaves
brightness and contrast unchanged, UP and DOWN move the cursor, and ENTER
alone sets edit mode. -/
theorem display_adjustment (cfg : build_cfg) (e : platform_env) (msg : kbd_msg_t)
    (g : ui_globals) (hs : g.state.ui_screen = SETTINGS_DISPLAY) (hc : checks_pass e g)
    (hm : msg.KEY_MONI = false) (hb : g.state.settings.brightness ≤ 255) :
    ∀ g1, g1 = ui_updateFSM cfg e { type := EVENT_KBD, payload := msg } g →
    (msg.KEY_LEFT = true ∨ (msg.KEY_DOWN = true ∧ g.ui_state.edit_mode = true) →
      g1.ui_state.menu_selected = g.ui_state.menu_selected ∧
      g1.ui_state.edit_mode = g.ui_state.edit_mode ∧
      (g.ui_state.menu_selected = D_BRIGHTNESS →
        g1.state.settings.brightness = g.state.settings.brightness - 25 ∧
        g1.state.settings.contrast = g.state.settings.contrast) ∧
      (cfg.SCREEN_CONTRAST = true → g.ui_state.menu_selected = D_CONTRAST →
        g1.state.settings.contrast = level_change g.state.settings.contrast (-4) ∧
        g1.state.settings.brightness = g.state.settings.brightness)) ∧
    (¬(msg.KEY_LEFT = true ∨ (msg.KEY_DOWN = true ∧ g.ui_state.edit_mode = true)) →
      msg.KEY_RIGHT = true ∨ (msg.KEY_UP = true ∧ g.ui_state.edit_mode = true) →
      g1.ui_state.menu_selected = g.ui_state.menu_selected ∧
      g1.ui_state.edit_mode = g.ui_state.edit_mode ∧
      (g.ui_state.menu_selected = D_BRIGHTNESS →
        g1.state.settings.brightness = min 255 (g.state.settings.brightness + 25) ∧
        g1.state.settings.contrast = g.state.settings.contrast) ∧
      (cfg.SCREEN_CONTRAST = true → g.ui_state.menu_selected = D_CONTRAST →
        g1.state.settings.contrast = level_change g.state.settings.contrast 4 ∧
        g1.state.settings.brightness = g.state.settings.brightness)) ∧
    (g.ui_state.edit_mode = false → msg.KEY_LEFT = false → msg.KEY_RIGHT = false →
      g1.state.settings.brightness = g.state.settings.brightness ∧
      g1.state.settings.contrast = g.state.settings.contrast ∧
      (msg.KEY_UP = true →
        g1.ui_state.menu_selected =
          (_ui_menuUp (display_num cfg) g).ui_state.menu_selected) ∧
      (msg.KEY_UP = false → msg.KEY_DOWN = true →
        g1.ui_state.menu_selected =
          (_ui_menuDown (display_num cfg) g).ui_state.menu_selected) ∧
      (msg.KEY_UP = false → msg.KEY_DOWN = false → msg.KEY_ENTER = true →
        g1.ui_state.edit_mode = true ∧
        g1.ui_state.menu_selected = g.ui_state.menu_selected)) := by
  intro g1 hg1
  rw [ui_updateFSM_dispatch cfg e msg g hc hm,
    dispatch_SETTINGS_DISPLAY cfg e msg { g with macro_menu := false } hs] at hg1
  have P := display_adjust_proj cfg (-25) (-4) { g with macro_menu := false }
  have Q := display_adjust_proj cfg 25 4 { g with macro_menu := false }
  have hdb : (D_BRIGHTNESS : Nat) ≠ D_CONTRAST := by decide
  refine ⟨?_, ?_, ?_⟩
  · intro h
    have hg : g1 = display_adjust cfg (-25) (-4) { g with macro_menu := false } := by
      rw [hg1, case_SETTINGS_DISPLAY, if_pos h]
    rw [hg, P.1, P.2.1, P.2.2]
    refine ⟨rfl, rfl, ?_, ?_⟩
    · intro h0
      have h0' : ({ g with macro_menu := false } : ui_globals).ui_state.menu_selected =
          D_BRIGHTNESS := h0
      rw [if_pos h0', if_neg (fun h => h.1 h0')]
      exact ⟨level_change_down _ hb, rfl⟩
    · intro hcon h1
      have h1' : ({ g with macro_menu := false } : ui_globals).ui_state.menu_selected =
          D_CONTRAST := h1
      have hn : ({ g with macro_menu := false } : ui_globals).ui_state.menu_selected ≠
          D_BRIGHTNESS := by
        rw [h1']
        exact hdb.symm
      rw [if_neg hn, if_pos ⟨hn, hcon, h1'⟩]
      exact ⟨rfl, rfl⟩
  · intro hn h
    have hg : g1 = display_adjust cfg 25 4 { g with macro_menu := false } := by
      rw [hg1, case_SETTINGS_DISPLAY, if_neg hn, if_pos h]
    rw [hg, Q.1, Q.2.1, Q.2.2]
    refine ⟨rfl, rfl, ?_, ?_⟩
    · intro h0
      have h0' : ({ g with macro_menu := false } : ui_globals).ui_state.menu_selected =
          D_BRIGHTNESS := h0
      rw [if_pos h0', if_neg (fun h => h.1 h0')]
      exact ⟨level_change_up _ hb, rfl⟩
    · intro hcon h1
      have h1' : ({ g with macro_menu := false } : ui_globals).ui_state.menu_selected =
          D_CONTRAST := h1
      have hn : ({ g with macro_menu := false } : ui_globals).ui_state.menu_selected ≠
          D_BRIGHTNESS := by
        rw [h1']
        exact hdb.symm
      rw [if_neg hn, if_pos ⟨hn, hcon, h1'⟩]
      exact ⟨rfl, rfl⟩
  · intro he hl hr
    have he' : ({ g with macro_menu := false } : ui_globals).ui_state.edit_mode = false := he
    have c1 : ¬(msg.KEY_LEFT = true ∨
        (msg.KEY_DOWN = true ∧
          ({ g with macro_menu := false } : ui_globals).ui_state.edit_mode = true)) := by
      rw [hl, he']
      simp
    have c2 : ¬(msg.KEY_RIGHT = true ∨
        (msg.KEY_UP = true ∧
          ({ g with macro_menu := false } : ui_globals).ui_state.edit_mode = true)) := by
      rw [hr, he']
      simp
    have hg : g1 =
        if msg.KEY_UP = true then _ui_menuUp (display_num cfg) { g with macro_menu := false }
        else if msg.KEY_DOWN = true then
          _ui_menuDown (display_num cfg) { g with macro_menu := false }
        else if msg.KEY_ENTER = true then
          { g with
            macro_menu := false
            ui_state := { g.ui_state with edit_mode := !g.ui_state.edit_mode } }
        else if msg.KEY_ESC = true then _ui_menuBack MENU_SETTINGS { g with macro_menu := false }
        else { g with macro_menu := false } := by
      rw [hg1, case_SETTINGS_DISPLAY, if_neg c1, if_neg c2]
    have M := menu_moves_settings (display_num cfg) MENU_SETTINGS { g with macro_menu := false }
    have hset : g1.state.settings = g.state.settings := by
      rw [hg]
      split_ifs
      · exact M.1
      · exact M.2.1
      · rfl
      · exact M.2.2
      · rfl
    refine ⟨by rw [hset], by rw [hset], ?_, ?_, ?_⟩
    · intro hu
      rw [hg, if_pos hu]
      unfold _ui_menuUp
      split_ifs <;> rfl
    · intro hu hd
      rw [hg, if_neg (by rw [hu]; exact Bool.false_ne_true), if_pos hd]
      unfold _ui_menuDown
      split_ifs <;> rfl
    · intro hu hd hen
      rw [hg, if_neg (by rw [hu]; exact Bool.false_ne_true),
        if_neg (by rw [hd]; exact Bool.false_ne_true), if_pos hen]
      refine ⟨?_, rfl⟩
      show (!g.ui_state.edit_mode) = true
      rw [he]
      rfl

/-- Claim C30, amended, on the demonstration state: LEFT outside edit mode
lowers the brightness from 255 to 230 and keeps the cursor, and DOWN outside
edit mode leaves the brightness at 255. -/
theorem display_adjustment_witness :
    (ui_updateFSM demo_cfg demo_env { type := EVENT_KBD, payload := key_left }
      (demo_on SETTINGS_DISPLAY)).state.settings.brightness = 255 - 25 ∧
    (ui_updateFSM demo_cfg demo_env { type := EVENT_KBD, payload := key_down }
      (demo_on SETTINGS_DISPLAY)).state.settings.brightness = 255 :=
  ⟨(((display_adjustment demo_cfg demo_env key_left (demo_on SETTINGS_DISPLAY) rfl
      (by decide) rfl (by decide) _ rfl).1 (Or.inl rfl)).2.2.1 rfl).1,
   ((display_adjustment demo_cfg demo_env key_down (demo_on SETTINGS_DISPLAY) rfl
      (by decide) rfl (by decide) _ rfl).2.2 rfl rfl rfl).1⟩

/-! ## Macro menu: squelch from the absolute knob -/

/-- With the absolute knob, LEFT or RIGHT stores the selector position minus
one as an 8-bit value and raises the resync flag. -/
theorem menuMacro_squelch_knob (cfg : build_cfg) (e : platform_env) (msg : kbd_msg_t)
    (g : ui_globals) (hk : cfg.HAS_ABSOLUTE_KNOB = true)
    (hkey : msg.KEY_LEFT = true ∨ msg.KEY_RIGHT = true) :
    menuMacro_squelch cfg e msg g =
      { g with
        state := { g.state with sqlLevel := ((e.chSelector - 1) % 256).toNat }
        sync_rtx := true } := by
  unfold menuMacro_squelch
  rw [if_pos hk, if_pos hkey]

/-- Claim C31, as stated, fails: in the build with the absolute knob, with the
selector at position 17 a macro-menu LEFT key event stores squelch level 16,
and at position 0 it stores 255. -/
theorem knob_squelch_unclamped :
    knob_cfg.HAS_ABSOLUTE_KNOB = true ∧ key_moni_left.KEY_LEFT = true ∧
    (-128 ≤ (knob_env 17).chSelector ∧ (knob_env 17).chSelector ≤ 127) ∧
    (_ui_fsm_menuMacro knob_cfg (knob_env 17) key_moni_left demo_globals).state.sqlLevel =
      16 ∧
    ¬ (_ui_fsm_menuMacro knob_cfg (knob_env 17) key_moni_left demo_globals).state.sqlLevel ≤
      15 ∧
    (ui_updateFSM knob_cfg (knob_env 17) { type := EVENT_KBD, payload := key_moni_left }
      demo_globals).state.sqlLevel = 16 ∧
    (_ui_fsm_menuMacro knob_cfg (knob_env 0) key_moni_left demo_globals).state.sqlLevel =
      255 := by
  decide

/-- Claim C31, amended: in the build with the absolute knob, a macro-menu LEFT
or RIGHT key event stores the selector position minus one, taken modulo 256,
as squelch level and sets the resync flag; no clamp is applied, so for a
signed 8-bit position the level is in 0..15 exactly when the position is in
1..16, and it is then the position minus one. -/
theorem knob_squelch (cfg : build_cfg) (e : platform_env) (msg : kbd_msg_t)
    (g : ui_globals) (hk : cfg.HAS_ABSOLUTE_KNOB = true)
    (hkey : msg.KEY_LEFT = true ∨ msg.KEY_RIGHT = true)
    (hlo : -128 ≤ e.chSelector) (hhi : e.chSelector ≤ 127) :
    (_ui_fsm_menuMacro cfg e msg g).state.sqlLevel = ((e.chSelector - 1) % 256).toNat ∧
    (_ui_fsm_menuMacro cfg e msg g).sync_rtx = true ∧
    ((_ui_fsm_menuMacro cfg e msg g).state.sqlLevel ≤ 15 ↔
      1 ≤ e.chSelector ∧ e.chSelector ≤ 16) ∧
    (1 ≤ e.chSelector → e.chSelector ≤ 16 →
      ((_ui_fsm_menuMacro cfg e msg g).state.sqlLevel : Int) = e.chSelector - 1) := by
  have h : _ui_fsm_menuMacro cfg e msg g =
      { menuMacro_number cfg
          { g with ui_state := { g.ui_state with input_number := msg.pressedNumber } } with
        state :=
          { (menuMacro_number cfg
              { g with ui_state := { g.ui_state with input_number := msg.pressedNumber } }).state
            with sqlLevel := ((e.chSelector - 1) % 256).toNat }
        sync_rtx := true } := by
    unfold _ui_fsm_menuMacro
    rw [menuMacro_squelch_knob cfg e msg _ hk hkey]
  have hs : (_ui_fsm_menuMacro cfg e msg g).state.sqlLevel =
      ((e.chSelector - 1) % 256).toNat := by
    rw [h]
  refine ⟨hs, by rw [h], ?_, ?_⟩
  · rw [hs]
    omega
  · intro h1 h16
    rw [hs]
    omega

/-- Claim C31, amended, with the selector at position 5: squelch level 4 and
the resync flag set. -/
theorem knob_squelch_witness :
    (_ui_fsm_menuMacro knob_cfg (knob_env 5) key_moni_left demo_globals).state.sqlLevel = 4 ∧
    (_ui_fsm_menuMacro knob_cfg (knob_env 5) key_moni_left demo_globals).sync_rtx = true :=
  have A := knob_squelch knob_cfg (knob_env 5) key_moni_left demo_globals rfl (Or.inl rfl)
    (by decide) (by decide)
  ⟨A.1, A.2.1⟩

/-! ## Loading a channel through the active zone -/

/-- Claim C32: with a zone active (its member slots counted in 8 bits),
`_ui_fsm_loadChannel` at index 0 or at an index above the number of member
slots returns -1 and the unchanged state whatever storage holds; at every
other index `i` it reads the channel whose number is member `i - 1` of the
zone, returns the storage code, and when the read succeeds with a channel
inside the band limits it stores `i` as channel index together with the
channel and sets the resync flag, and otherwise changes nothing. -/
theorem zone_load (e : platform_env) (g : ui_globals) (i : Nat)
    (hz : g.state.zone_enabled = true) (hlen : g.state.zone.member.length ≤ 255) :
    (i = 0 ∨ g.state.zone.member.length < i → _ui_fsm_loadChannel e i g = (-1, g)) ∧
    (1 ≤ i → i ≤ g.state.zone.member.length →
      ∀ n : Nat, g.state.zone.member[i - 1]? = some n →
        (_ui_fsm_loadChannel e i g).1 = (e.nvm_readChannelData n).result ∧
        ((e.nvm_readChannelData n).result ≠ -1 ∧
            _ui_channel_valid e.hwInfo (e.nvm_readChannelData n).data = true →
          (_ui_fsm_loadChannel e i g).2 =
            { g with
              state := { g.state with channel_index := i,
                                      channel := (e.nvm_readChannelData n).data }
              sync_rtx := true }) ∧
        (¬((e.nvm_readChannelData n).result ≠ -1 ∧
            _ui_channel_valid e.hwInfo (e.nvm_readChannelData n).data = true) →
          (_ui_fsm_loadChannel e i g).2 = g)) := by
  have hmod : g.state.zone.member.length % 256 = g.state.zone.member.length :=
    Nat.mod_eq_of_lt (by omega)
  constructor
  · intro h
    unfold _ui_fsm_loadChannel
    dsimp only
    rw [if_pos]
    rw [hmod]
    exact ⟨hz, by omega⟩
  · intro h1 h2 n hn
    have hg : g.state.zone.member.getD (i - 1) 0 = n := by
      rw [List.getD_eq_getElem?_getD, hn]
      rfl
    have hc : ¬(g.state.zone_enabled = true ∧
        (i ≤ 0 ∨ i > g.state.zone.member.length % 256)) := by
      rw [hmod]
      omega
    unfold _ui_fsm_loadChannel
    dsimp only
    rw [if_neg hc, if_pos hz, hg]
    by_cases hv : (e.nvm_readChannelData n).result ≠ -1 ∧
        _ui_channel_valid e.hwInfo (e.nvm_readChannelData n).data = true
    · rw [if_pos hv]
      exact ⟨rfl, fun _ => rfl, fun h => absurd hv h⟩
    · rw [if_neg hv]
      exact ⟨rfl, fun h => absurd h hv, fun _ => rfl⟩

/-- Claim C32 on the demonstration state with the zone of channels 2 and 3:
index 0 and index 3 are refused, and index 2 loads channel 3 and stores 2 as
channel index. -/
theorem zone_load_witness :
    _ui_fsm_loadChannel stored_env 0 demo_zoned = (-1, demo_zoned) ∧
    _ui_fsm_loadChannel stored_env 3 demo_zoned = (-1, demo_zoned) ∧
    (_ui_fsm_loadChannel stored_env 2 demo_zoned).1 = (stored_env.nvm_readChannelData 3).result ∧
    (_ui_fsm_loadChannel stored_env 2 demo_zoned).2 =
      { demo_zoned with
        state := { demo_zoned.state with channel_index := 2,
                                         channel := (stored_env.nvm_readChannelData 3).data }
        sync_rtx := true } :=
  ⟨(zone_load stored_env demo_zoned 0 rfl (by decide)).1 (Or.inl rfl),
   (zone_load stored_env demo_zoned 3 rfl (by decide)).1 (Or.inr (by decide)),
   ((zone_load stored_env demo_zoned 2 rfl (by decide)).2 (by decide) (by decide) 3 rfl).1,
   ((zone_load stored_env demo_zoned 2 rfl (by decide)).2 (by decide) (by decide) 3 rfl).2.1
     (by decide)⟩

/-! ## Stepping the VFO frequency up and down -/

/-- A frequency accepted by the limit check fits in 32 bits. -/
theorem check_limits_lt (hwinfo : hwInfo_t) (f : Nat)
    (h : _ui_freq_check_limits hwinfo f = true) : f < 2 ^ 32 := by
  rcases (check_limits_iff hwinfo f).1 h with ⟨_, _, h2⟩ | ⟨_, _, h2⟩
  · exact lt_of_le_of_lt h2 (Nat.mod_lt _ (by decide))
  · exact lt_of_le_of_lt h2 (Nat.mod_lt _ (by decide))

/-- When the band bounds in Hz fit in 32 bits, an accepted frequency is at most
4294 MHz. -/
theorem check_limits_le (hwinfo : hwInfo_t)
    (h1 : hwinfo.vhf_minFreq * 1000000 < 2 ^ 32) (h2 : hwinfo.vhf_maxFreq * 1000000 < 2 ^ 32)
    (h3 : hwinfo.uhf_minFreq * 1000000 < 2 ^ 32) (h4 : hwinfo.uhf_maxFreq * 1000000 < 2 ^ 32)
    (f : Nat) (h : _ui_freq_check_limits hwinfo f = true) : f ≤ 4294000000 := by
  rcases (check_limits_fit hwinfo h1 h2 h3 h4 f).1 h with ⟨_, _, hf⟩ | ⟨_, _, hf⟩
  · norm_num at h2
    omega
  · norm_num at h4
    omega

/-- One step down undoes one step up on a 32-bit frequency, and conversely. -/
theorem freq_step_inverse (f : Nat) (h : f < 2 ^ 32) :
    freq_step_down (freq_step_up f) = f ∧ freq_step_up (freq_step_down f) = f := by
  unfold freq_step_down freq_step_up
  omega

/-- An accepted step up adds 12500 without wrapping, when the band bounds fit
in 32 bits. -/
theorem freq_step_up_exact (hwinfo : hwInfo_t)
    (h1 : hwinfo.vhf_minFreq * 1000000 < 2 ^ 32) (h2 : hwinfo.vhf_maxFreq * 1000000 < 2 ^ 32)
    (h3 : hwinfo.uhf_minFreq * 1000000 < 2 ^ 32) (h4 : hwinfo.uhf_maxFreq * 1000000 < 2 ^ 32)
    (f : Nat) (h : _ui_freq_check_limits hwinfo f = true) : freq_step_up f = f + 12500 := by
  have := check_limits_le hwinfo h1 h2 h3 h4 f h
  unfold freq_step_up
  omega

/-- An accepted step down subtracts 12500 without wrapping, when the band
bounds fit in 32 bits. -/
theorem freq_step_down_exact (hwinfo : hwInfo_t)
    (h1 : hwinfo.vhf_minFreq * 1000000 < 2 ^ 32) (h2 : hwinfo.vhf_maxFreq * 1000000 < 2 ^ 32)
    (h3 : hwinfo.uhf_minFreq * 1000000 < 2 ^ 32) (h4 : hwinfo.uhf_maxFreq * 1000000 < 2 ^ 32)
    (f : Nat) (h : _ui_freq_check_limits hwinfo f = true)
    (hd : _ui_freq_check_limits hwinfo (freq_step_down f) = true) :
    freq_step_down f + 12500 = f := by
  have a := check_limits_le hwinfo h1 h2 h3 h4 f h
  have b := check_limits_le hwinfo h1 h2 h3 h4 _ hd
  unfold freq_step_down at b ⊢
  omega

/-- What writing two frequencies and raising the resync flag keeps. -/
theorem set_freqs_frame (g : ui_globals) (rx tx : Nat) :
    ({ set_channel g { g.state.channel with rx_frequency := rx, tx_frequency := tx }
       with sync_rtx := true } : ui_globals).state.emergency = g.state.emergency ∧
    ({ set_channel g { g.state.channel with rx_frequency := rx, tx_frequency := tx }
       with sync_rtx := true } : ui_globals).state.charge = g.state.charge ∧
    ({ set_channel g { g.state.channel with rx_frequency := rx, tx_frequency := tx }
       with sync_rtx := true } : ui_globals).ui_state = g.ui_state :=
  ⟨rfl, rfl, rfl⟩

/-- One UP or DOWN key event on `MAIN_VFO`: the screen and the battery inputs
are kept, and the two frequencies are either both kept or both stepped, the
stepped values having passed the limit check. -/
theorem vfo_updown_step (cfg : build_cfg) (e : platform_env) (msg : kbd_msg_t)
    (g : ui_globals) (hscreen : g.state.ui_screen = MAIN_VFO) (hc : checks_pass e g)
    (hm : msg.KEY_MONI = false) (step : Nat → Nat)
    (hk : (msg.KEY_UP = true ∧ step = freq_step_up) ∨
      (msg.KEY_UP = false ∧ msg.KEY_DOWN = true ∧ step = freq_step_down)) :
    ∀ g1, g1 = ui_updateFSM cfg e { type := EVENT_KBD, payload := msg } g →
      g1.state.ui_screen = MAIN_VFO ∧ g1.state.emergency = g.state.emergency ∧
      g1.state.charge = g.state.charge ∧
      ((g1.state.channel = g.state.channel) ∨
       (g1.state.channel.rx_frequency = step g.state.channel.rx_frequency ∧
        g1.state.channel.tx_frequency = step g.state.channel.tx_frequency ∧
        _ui_freq_check_limits e.hwInfo (step g.state.channel.rx_frequency) = true ∧
        _ui_freq_check_limits e.hwInfo (step g.state.channel.tx_frequency) = true)) ∧
      (_ui_freq_check_limits e.hwInfo (step g.state.channel.rx_frequency) = true →
        _ui_freq_check_limits e.hwInfo (step g.state.channel.tx_frequency) = true →
        g1.state.channel.rx_frequency = step g.state.channel.rx_frequency ∧
        g1.state.channel.tx_frequency = step g.state.channel.tx_frequency) := by
  intro g1 hg1
  rw [updateFSM_MAIN_VFO cfg e msg g hscreen hc hm] at hg1
  have P := set_freqs_proj { g with macro_menu := false }
    (step g.state.channel.rx_frequency) (step g.state.channel.tx_frequency)
  have Q := set_freqs_frame { g with macro_menu := false }
    (step g.state.channel.rx_frequency) (step g.state.channel.tx_frequency)
  have hform : g1 =
      if _ui_freq_check_limits e.hwInfo (step g.state.channel.rx_frequency) = true ∧
         _ui_freq_check_limits e.hwInfo (step g.state.channel.tx_frequency) = true then
        { set_channel { g with macro_menu := false }
            { g.state.channel with
              rx_frequency := step g.state.channel.rx_frequency
              tx_frequency := step g.state.channel.tx_frequency }
          with sync_rtx := true }
      else { g with macro_menu := false } := by
    rcases hk with ⟨hu, rfl⟩ | ⟨hu, hd, rfl⟩
    · rw [hg1, case_MAIN_VFO_up cfg e msg _ hu]
    · rw [hg1, case_MAIN_VFO_down cfg e msg _ hu hd]
  by_cases hv : _ui_freq_check_limits e.hwInfo (step g.state.channel.rx_frequency) = true ∧
      _ui_freq_check_limits e.hwInfo (step g.state.channel.tx_frequency) = true
  · rw [if_pos hv] at hform
    rw [hform]
    exact ⟨P.1.trans hscreen, Q.1, Q.2.1, Or.inr ⟨P.2.1, P.2.2.1, hv.1, hv.2⟩,
      fun _ _ => ⟨P.2.1, P.2.2.1⟩⟩
  · rw [if_neg hv] at hform
    rw [hform]
    exact ⟨hscreen, rfl, rfl, Or.inl rfl, fun a b => absurd ⟨a, b⟩ hv⟩

/-- Claim C33: on `MAIN_VFO`, for a channel whose two frequencies pass the
limit check: when an UP key event changes the channel, a DOWN key event that
follows it under the same band limits restores both frequencies, and likewise
for DOWN followed by UP; and when the band bounds in Hz fit in 32 bits, every
UP or DOWN key event leaves the difference of the tx and rx frequencies
unchanged. -/
theorem vfo_step_round_trip (cfg : build_cfg) (e1 e2 : platform_env) (m1 m2 : kbd_msg_t)
    (g : ui_globals) (hscreen : g.state.ui_screen = MAIN_VFO)
    (hc1 : checks_pass e1 g) (hc2 : checks_pass e2 g) (hw : e2.hwInfo = e1.hwInfo)
    (hm1 : m1.KEY_MONI = false) (hm2 : m2.KEY_MONI = false)
    (hrx : _ui_freq_check_limits e1.hwInfo g.state.channel.rx_frequency = true)
    (htx : _ui_freq_check_limits e1.hwInfo g.state.channel.tx_frequency = true) :
    ∀ g1 g2, g1 = ui_updateFSM cfg e1 { type := EVENT_KBD, payload := m1 } g →
      g2 = ui_updateFSM cfg e2 { type := EVENT_KBD, payload := m2 } g1 →
      (m1.KEY_UP = true → m2.KEY_UP = false → m2.KEY_DOWN = true →
        g1.state.channel ≠ g.state.channel →
        g2.state.channel.rx_frequency = g.state.channel.rx_frequency ∧
        g2.state.channel.tx_frequency = g.state.channel.tx_frequency) ∧
      (m1.KEY_UP = false → m1.KEY_DOWN = true → m2.KEY_UP = true →
        g1.state.channel ≠ g.state.channel →
        g2.state.channel.rx_frequency = g.state.channel.rx_frequency ∧
        g2.state.channel.tx_frequency = g.state.channel.tx_frequency) ∧
      (e1.hwInfo.vhf_minFreq * 1000000 < 2 ^ 32 → e1.hwInfo.vhf_maxFreq * 1000000 < 2 ^ 32 →
        e1.hwInfo.uhf_minFreq * 1000000 < 2 ^ 32 → e1.hwInfo.uhf_maxFreq * 1000000 < 2 ^ 32 →
        m1.KEY_UP = true ∨ m1.KEY_DOWN = true →
        (g1.state.channel.tx_frequency : Int) - g1.state.channel.rx_frequency =
          (g.state.channel.tx_frequency : Int) - g.state.channel.rx_frequency) := by
  intro g1 g2 hg1 hg2
  have lrx := check_limits_lt _ _ hrx
  have ltx := check_limits_lt _ _ htx
  have irx := freq_step_inverse _ lrx
  have itx := freq_step_inverse _ ltx
  refine ⟨?_, ?_, ?_⟩
  · intro hu1 hu2 hd2 hne
    obtain ⟨s1, em, ch, hcase, -⟩ :=
      vfo_updown_step cfg e1 m1 g hscreen hc1 hm1 freq_step_up (Or.inl ⟨hu1, rfl⟩) g1 hg1
    rcases hcase with hsame | ⟨r1, t1, -, -⟩
    · exact absurd hsame hne
    · have B := (vfo_updown_step cfg e2 m2 g1 s1 (checks_pass_congr e2 g g1 em ch hc2) hm2
        freq_step_down (Or.inr ⟨hu2, hd2, rfl⟩) g2 hg2).2.2.2.2
      rw [r1, t1, irx.1, itx.1, hw] at B
      exact B hrx htx
  · intro hu1 hd1 hu2 hne
    obtain ⟨s1, em, ch, hcase, -⟩ :=
      vfo_updown_step cfg e1 m1 g hscreen hc1 hm1 freq_step_down (Or.inr ⟨hu1, hd1, rfl⟩)
        g1 hg1
    rcases hcase with hsame | ⟨r1, t1, -, -⟩
    · exact absurd hsame hne
    · have B := (vfo_updown_step cfg e2 m2 g1 s1 (checks_pass_congr e2 g g1 em ch hc2) hm2
        freq_step_up (Or.inl ⟨hu2, rfl⟩) g2 hg2).2.2.2.2
      rw [r1, t1, irx.2, itx.2, hw] at B
      exact B hrx htx
  · intro h1 h2 h3 h4 hk
    by_cases hu1 : m1.KEY_UP = true
    · obtain ⟨-, -, -, hcase, -⟩ :=
        vfo_updown_step cfg e1 m1 g hscreen hc1 hm1 freq_step_up (Or.inl ⟨hu1, rfl⟩) g1 hg1
      rcases hcase with hsame | ⟨r1, t1, -, -⟩
      · rw [hsame]
      · rw [r1, t1, freq_step_up_exact _ h1 h2 h3 h4 _ hrx,
          freq_step_up_exact _ h1 h2 h3 h4 _ htx]
        push_cast
        ring
    · have hu1f : m1.KEY_UP = false := by
        cases h : m1.KEY_UP
        · rfl
        · exact absurd h hu1
      have hd1 : m1.KEY_DOWN = true := by
        rcases hk with h | h
        · exact absurd h hu1
        · exact h
      obtain ⟨-, -, -, hcase, -⟩ :=
        vfo_updown_step cfg e1 m1 g hscreen hc1 hm1 freq_step_down (Or.inr ⟨hu1f, hd1, rfl⟩)
          g1 hg1
      rcases hcase with hsame | ⟨r1, t1, vr, vt⟩
      · rw [hsame]
      · have a := freq_step_down_exact _ h1 h2 h3 h4 _ hrx vr
        have b := freq_step_down_exact _ h1 h2 h3 h4 _ htx vt
        rw [r1, t1]
        omega

/-- Claim C33 on the demonstration state (430 MHz): UP changes the channel and
the DOWN that follows restores 430 MHz for rx and tx. -/
theorem vfo_step_round_trip_witness :
    (ui_updateFSM demo_cfg demo_env { type := EVENT_KBD, payload := key_down }
      (ui_updateFSM demo_cfg demo_env { type := EVENT_KBD, payload := key_up }
        demo_globals)).state.channel.rx_frequency = 430000000 ∧
    (ui_updateFSM demo_cfg demo_env { type := EVENT_KBD, payload := key_down }
      (ui_updateFSM demo_cfg demo_env { type := EVENT_KBD, payload := key_up }
        demo_globals)).state.channel.tx_frequency = 430000000 :=
  (vfo_step_round_trip demo_cfg demo_env demo_env key_up key_down demo_globals rfl
    (by decide) (by decide) rfl rfl rfl (by decide) (by decide) _ _ rfl rfl).1 rfl rfl rfl
    (by decide)

/-! ## What the dispatch keeps: emergency flag, charge, macro flag, entry bound -/

theorem frame_ok_refl (cfg : build_cfg) (g : ui_globals) : frame_ok cfg g g :=
  ⟨rfl, rfl, rfl, fun h => h, fun _ h => h, fun _ _ _ h => h⟩

theorem frame_ok_trans (cfg : build_cfg) (g g1 g2 : ui_globals) (h1 : frame_ok cfg g g1)
    (h2 : frame_ok cfg g1 g2) : frame_ok cfg g g2 := by
  have keep := h1.2.2.2.1
  refine ⟨h2.1.trans h1.1, h2.2.1.trans h1.2.1, h2.2.2.1.trans h1.2.2.1, ?_, ?_, ?_⟩
  · exact fun h => h2.2.2.2.1 (keep h)
  · exact fun h hs => h2.2.2.2.2.1 (keep h) (h1.2.2.2.2.1 h hs)
  · exact fun hf hf2 h hi => h2.2.2.2.2.2 hf hf2 (keep h) (h1.2.2.2.2.2 hf hf2 h hi)

theorem frame_ok_ite (cfg : build_cfg) (g : ui_globals) (c : Prop) [Decidable c]
    (a b : ui_globals) (ha : c → frame_ok cfg g a) (hb : ¬c → frame_ok cfg g b) :
    frame_ok cfg g (if c then a else b) := by
  split_ifs with h
  · exact ha h
  · exact hb h

/-- A step that keeps the screen, the entry position and the remembered main
screen. -/
theorem frame_ok_same (cfg : build_cfg) (g g1 : ui_globals)
    (he : g1.state.emergency = g.state.emergency) (hc : g1.state.charge = g.state.charge)
    (hm : g1.macro_menu = g.macro_menu)
    (hl : g1.ui_state.last_main_state = g.ui_state.last_main_state)
    (hs : g1.state.ui_screen = g.state.ui_screen)
    (hp : g1.ui_state.input_position = g.ui_state.input_position) : frame_ok cfg g g1 := by
  refine ⟨he, hc, hm, ?_, ?_, ?_⟩
  · unfold main_inv
    rw [hl]
    exact fun h => h
  · rw [hs]
    exact fun _ h => h
  · unfold entry_inv
    rw [hs, hp]
    exact fun _ _ _ h => h

/-- A step that ends on a screen other than `LOW_BAT` and `MAIN_VFO_INPUT`. -/
theorem frame_ok_screen (cfg : build_cfg) (g g1 : ui_globals)
    (he : g1.state.emergency = g.state.emergency) (hc : g1.state.charge = g.state.charge)
    (hm : g1.macro_menu = g.macro_menu)
    (hl : g1.ui_state.last_main_state = g.ui_state.last_main_state)
    (s : uiScreen) (hs : g1.state.ui_screen = s) (h1 : s ≠ LOW_BAT)
    (h2 : s ≠ MAIN_VFO_INPUT) : frame_ok cfg g g1 := by
  refine ⟨he, hc, hm, ?_, fun _ _ => by rw [hs]; exact h1, ?_⟩
  · unfold main_inv
    rw [hl]
    exact fun h => h
  · unfold entry_inv
    rw [hs]
    exact fun _ _ _ _ h => absurd h h2

/-- A step on a screen other than `MAIN_VFO_INPUT` that keeps the screen. -/
theorem frame_ok_off_input (cfg : build_cfg) (g g1 : ui_globals)
    (he : g1.state.emergency = g.state.emergency) (hc : g1.state.charge = g.state.charge)
    (hm : g1.macro_menu = g.macro_menu)
    (hl : g1.ui_state.last_main_state = g.ui_state.last_main_state)
    (hs : g1.state.ui_screen = g.state.ui_screen)
    (hn : g.state.ui_screen ≠ MAIN_VFO_INPUT) : frame_ok cfg g g1 := by
  refine ⟨he, hc, hm, ?_, ?_, ?_⟩
  · unfold main_inv
    rw [hl]
    exact fun h => h
  · rw [hs]
    exact fun _ h => h
  · unfold entry_inv
    rw [hs]
    exact fun _ _ _ _ h => absurd h hn

theorem frame_ok_menuUp (cfg : build_cfg) (n : Nat) (g : ui_globals) :
    frame_ok cfg g (_ui_menuUp n g) := by
  unfold _ui_menuUp
  split_ifs <;> exact frame_ok_same cfg g _ rfl rfl rfl rfl rfl rfl

theorem frame_ok_menuDown (cfg : build_cfg) (n : Nat) (g : ui_globals) :
    frame_ok cfg g (_ui_menuDown n g) := by
  unfold _ui_menuDown
  split_ifs <;> exact frame_ok_same cfg g _ rfl rfl rfl rfl rfl rfl

theorem frame_ok_menuBack (cfg : build_cfg) (prev : uiScreen) (g : ui_globals)
    (h1 : prev ≠ LOW_BAT) (h2 : prev ≠ MAIN_VFO_INPUT) :
    frame_ok cfg g (_ui_menuBack prev g) := by
  unfold _ui_menuBack
  split_ifs
  · exact frame_ok_same cfg g _ rfl rfl rfl rfl rfl rfl
  · exact frame_ok_screen cfg g _ rfl rfl rfl rfl prev rfl h1 h2

theorem frame_ok_loadChannel (cfg : build_cfg) (e : platform_env) (i : Nat) (g : ui_globals) :
    frame_ok cfg g (_ui_fsm_loadChannel e i g).2 := by
  have F := loadChannel_frame e i g
  exact frame_ok_same cfg g _ F.2.2.1 F.2.2.2.1 F.2.2.2.2.2.1
    (by rw [F.2.2.2.2.1]) F.1 (by rw [F.2.2.2.2.1])

theorem frame_ok_set_screen (cfg : build_cfg) (g : ui_globals) (s : uiScreen)
    (h1 : s ≠ LOW_BAT) (h2 : s ≠ MAIN_VFO_INPUT) : frame_ok cfg g (set_screen g s) :=
  frame_ok_screen cfg g _ rfl rfl rfl rfl s rfl h1 h2

theorem frame_ok_changeBrightness (cfg : build_cfg) (v : Int) (g : ui_globals) :
    frame_ok cfg g (_ui_changeBrightness v g) :=
  frame_ok_same cfg g _ rfl rfl rfl rfl rfl rfl

theorem frame_ok_changeContrast (cfg : build_cfg) (v : Int) (g : ui_globals) :
    frame_ok cfg g (_ui_changeContrast v g) :=
  frame_ok_same cfg g _ rfl rfl rfl rfl rfl rfl

theorem frame_ok_set_settings (cfg : build_cfg) (g : ui_globals) (s : settings_t) :
    frame_ok cfg g (set_settings g s) :=
  frame_ok_same cfg g _ rfl rfl rfl rfl rfl rfl

theorem frame_ok_save_vfo (cfg : build_cfg) (g : ui_globals) :
    frame_ok cfg g (save_vfo_channel g) := by
  unfold save_vfo_channel
  split_ifs
  · exact frame_ok_same cfg g _ rfl rfl rfl rfl rfl rfl
  · exact frame_ok_refl cfg g

theorem frame_ok_menu_advance (cfg : build_cfg) (g : ui_globals) :
    frame_ok cfg g (menu_advance g) :=
  frame_ok_same cfg g _ rfl rfl rfl rfl rfl rfl

theorem frame_ok_menu_list_down (cfg : build_cfg) (e : platform_env) (g : ui_globals) :
    frame_ok cfg g (menu_list_down e g) := by
  unfold menu_list_down
  split_ifs <;> exact frame_ok_same cfg g _ rfl rfl rfl rfl rfl rfl

/-- A step that ends on `MAIN_VFO_INPUT` with an entry position below
`FREQ_DIGITS`, or on another screen than `LOW_BAT`. -/
theorem frame_ok_entry (cfg : build_cfg) (g g1 : ui_globals)
    (he : g1.state.emergency = g.state.emergency) (hc : g1.state.charge = g.state.charge)
    (hm : g1.macro_menu = g.macro_menu)
    (hl : g1.ui_state.last_main_state = g.ui_state.last_main_state)
    (h1 : g1.state.ui_screen ≠ LOW_BAT)
    (h2 : 2 ≤ cfg.FREQ_DIGITS → cfg.FREQ_DIGITS ≤ 255 → entry_inv cfg g →
      g1.state.ui_screen = MAIN_VFO_INPUT → g1.ui_state.input_position < cfg.FREQ_DIGITS) :
    frame_ok cfg g g1 := by
  refine ⟨he, hc, hm, ?_, fun _ _ => h1, ?_⟩
  · unfold main_inv
    rw [hl]
    exact fun h => h
  · intro a b _ hi
    exact h2 a b hi

theorem frame_ok_confirmVFOInput (cfg : build_cfg) (e : platform_env) (g : ui_globals)
    (hs : g.state.ui_screen = MAIN_VFO_INPUT) :
    frame_ok cfg g (_ui_fsm_confirmVFOInput e g) := by
  unfold _ui_fsm_confirmVFOInput
  split
  · refine frame_ok_entry cfg g _ rfl rfl rfl rfl ?_ ?_
    · show g.state.ui_screen ≠ LOW_BAT
      rw [hs]
      decide
    · intro a _ _ _
      show 0 < cfg.FREQ_DIGITS
      omega
  · dsimp only
    split_ifs <;> exact frame_ok_screen cfg g _ rfl rfl rfl rfl MAIN_VFO rfl (by decide) (by decide)

theorem frame_ok_insertVFONumber (cfg : build_cfg) (e : platform_env) (msg : kbd_msg_t)
    (g : ui_globals) (hs : g.state.ui_screen = MAIN_VFO_INPUT) :
    frame_ok cfg g (_ui_fsm_insertVFONumber cfg e msg g) := by
  have hlow : g.state.ui_screen ≠ LOW_BAT := by
    rw [hs]
    decide
  unfold _ui_fsm_insertVFONumber
  dsimp only
  split
  · split_ifs with h1 h2 h2
    all_goals
      refine frame_ok_entry cfg g _ rfl rfl rfl rfl hlow ?_
      intro a b hi _
      have hp := hi hs
      first
        | (show 0 < cfg.FREQ_DIGITS; omega)
        | (show (g.ui_state.input_position + 1) % 256 < cfg.FREQ_DIGITS; omega)
  · split_ifs with h1 h2 h3 h2 h3
    all_goals
      first
        | exact frame_ok_screen cfg g _ rfl rfl rfl rfl MAIN_VFO rfl (by decide) (by decide)
        | (refine frame_ok_entry cfg g _ rfl rfl rfl rfl hlow ?_
           intro a b hi _
           have hp := hi hs
           show (g.ui_state.input_position + 1) % 256 < cfg.FREQ_DIGITS
           omega)

theorem frame_ok_set_freqs (cfg : build_cfg) (g : ui_globals) (rx tx : Nat) :
    frame_ok cfg g
      { set_channel g { g.state.channel with rx_frequency := rx, tx_frequency := tx }
        with sync_rtx := true } :=
  frame_ok_same cfg g _ rfl rfl rfl rfl rfl rfl

theorem frame_ok_MAIN_VFO (cfg : build_cfg) (e : platform_env) (msg : kbd_msg_t)
    (g : ui_globals) (hs : g.state.ui_screen = MAIN_VFO) :
    frame_ok cfg g (case_MAIN_VFO cfg e msg g) := by
  rw [case_MAIN_VFO]
  refine frame_ok_ite _ _ _ _ _ (fun _ => ?_) (fun _ => ?_)
  · exact frame_ok_ite _ _ _ _ _ (fun _ => frame_ok_set_freqs cfg g _ _)
      (fun _ => frame_ok_refl cfg g)
  refine frame_ok_ite _ _ _ _ _ (fun _ => ?_) (fun _ => ?_)
  · exact frame_ok_ite _ _ _ _ _ (fun _ => frame_ok_set_freqs cfg g _ _)
      (fun _ => frame_ok_refl cfg g)
  refine frame_ok_ite _ _ _ _ _ (fun _ => ?_) (fun _ => ?_)
  · refine ⟨rfl, rfl, rfl, fun _ => Or.inl hs, fun _ _ => ?_, fun _ _ _ _ h => ?_⟩
    · show MENU_TOP ≠ LOW_BAT
      decide
    · exact absurd h (show MENU_TOP ≠ MAIN_VFO_INPUT by decide)
  refine frame_ok_ite _ _ _ _ _ (fun _ => ?_) (fun _ => ?_)
  · have L := frame_ok_loadChannel cfg e g.state.channel_index
      { g with state := { g.state with vfo_channel := g.state.channel } }
    have F := loadChannel_frame e g.state.channel_index
      { g with state := { g.state with vfo_channel := g.state.channel } }
    have G : frame_ok cfg g { g with state := { g.state with vfo_channel := g.state.channel } } :=
      frame_ok_same cfg g _ rfl rfl rfl rfl rfl rfl
    refine frame_ok_ite _ _ _ _ _ (fun _ => ?_) (fun _ => frame_ok_trans cfg _ _ _ G L)
    exact frame_ok_screen cfg g _ F.2.2.1 F.2.2.2.1 F.2.2.2.2.2.1
      (congrArg ui_state_t.last_main_state F.2.2.2.2.1)
      MAIN_MEM rfl (by decide) (by decide)
  refine frame_ok_ite _ _ _ _ _ (fun _ => ?_) (fun _ => frame_ok_refl cfg g)
  refine frame_ok_entry cfg g _ rfl rfl rfl rfl ?_ ?_
  · show MAIN_VFO_INPUT ≠ LOW_BAT
    decide
  · intro a _ _ _
    show 1 < cfg.FREQ_DIGITS
    omega

theorem frame_ok_MAIN_VFO_INPUT (cfg : build_cfg) (e : platform_env) (msg : kbd_msg_t)
    (g : ui_globals) (hs : g.state.ui_screen = MAIN_VFO_INPUT) :
    frame_ok cfg g (case_MAIN_VFO_INPUT cfg e msg g) := by
  have hlow : g.state.ui_screen ≠ LOW_BAT := by
    rw [hs]
    decide
  rw [case_MAIN_VFO_INPUT]
  refine frame_ok_ite _ _ _ _ _ (fun _ => frame_ok_confirmVFOInput cfg e g hs) (fun _ => ?_)
  refine frame_ok_ite _ _ _ _ _
    (fun _ => frame_ok_set_screen cfg g MAIN_VFO (by decide) (by decide)) (fun _ => ?_)
  refine frame_ok_ite _ _ _ _ _ (fun _ => ?_) (fun _ => ?_)
  · refine frame_ok_entry cfg g _ rfl rfl rfl rfl hlow ?_
    intro a _ _ _
    show 0 < cfg.FREQ_DIGITS
    omega
  exact frame_ok_ite _ _ _ _ _ (fun _ => frame_ok_insertVFONumber cfg e msg g hs)
    (fun _ => frame_ok_refl cfg g)

theorem frame_ok_MAIN_MEM (cfg : build_cfg) (e : platform_env) (msg : kbd_msg_t)
    (g : ui_globals) (hs : g.state.ui_screen = MAIN_MEM) :
    frame_ok cfg g (case_MAIN_MEM e msg g) := by
  rw [case_MAIN_MEM]
  refine frame_ok_ite _ _ _ _ _ (fun _ => ?_) (fun _ => ?_)
  · refine ⟨rfl, rfl, rfl, fun _ => Or.inr hs, fun _ _ => ?_, fun _ _ _ _ h => ?_⟩
    · show MENU_TOP ≠ LOW_BAT
      decide
    · exact absurd h (show MENU_TOP ≠ MAIN_VFO_INPUT by decide)
  refine frame_ok_ite _ _ _ _ _ (fun _ => ?_) (fun _ => ?_)
  · exact frame_ok_screen cfg g _ rfl rfl rfl rfl MAIN_VFO rfl (by decide) (by decide)
  refine frame_ok_ite _ _ _ _ _ (fun _ => frame_ok_loadChannel cfg e _ g) (fun _ => ?_)
  exact frame_ok_ite _ _ _ _ _ (fun _ => frame_ok_loadChannel cfg e _ g)
    (fun _ => frame_ok_refl cfg g)

theorem menu_top_screen_safe (cfg : build_cfg) (selected : Nat) (current : uiScreen)
    (h1 : current ≠ LOW_BAT) (h2 : current ≠ MAIN_VFO_INPUT) :
    menu_top_screen cfg selected current ≠ LOW_BAT ∧
    menu_top_screen cfg selected current ≠ MAIN_VFO_INPUT := by
  unfold menu_top_screen
  split_ifs
  all_goals first | exact ⟨h1, h2⟩ | decide

theorem menu_settings_screen_safe (cfg : build_cfg) (selected : Nat) :
    menu_settings_screen cfg selected ≠ LOW_BAT ∧
    menu_settings_screen cfg selected ≠ MAIN_VFO_INPUT := by
  unfold menu_settings_screen
  split_ifs
  all_goals decide

theorem frame_ok_MENU_TOP (cfg : build_cfg) (msg : kbd_msg_t) (g : ui_globals)
    (hs : g.state.ui_screen = MENU_TOP) : frame_ok cfg g (case_MENU_TOP cfg msg g) := by
  rw [case_MENU_TOP]
  refine frame_ok_ite _ _ _ _ _ (fun _ => frame_ok_menuUp cfg _ g) (fun _ => ?_)
  refine frame_ok_ite _ _ _ _ _ (fun _ => frame_ok_menuDown cfg _ g) (fun _ => ?_)
  refine frame_ok_ite _ _ _ _ _ (fun _ => ?_) (fun _ => ?_)
  · have S := menu_top_screen_safe cfg g.ui_state.menu_selected g.state.ui_screen
      (by rw [hs]; decide) (by rw [hs]; decide)
    exact frame_ok_screen cfg g _ rfl rfl rfl rfl _ rfl S.1 S.2
  refine frame_ok_ite _ _ _ _ _ (fun _ => ?_) (fun _ => frame_ok_refl cfg g)
  unfold _ui_menuBack
  split_ifs
  · exact frame_ok_same cfg g _ rfl rfl rfl rfl rfl rfl
  · refine ⟨rfl, rfl, rfl, fun h => h, fun h _ => ?_, fun _ _ h _ hi => ?_⟩
    · show g.ui_state.last_main_state ≠ LOW_BAT
      rcases h with h | h <;> rw [h] <;> decide
    · have hi' : g.ui_state.last_main_state = MAIN_VFO_INPUT := hi
      rcases h with h | h <;> rw [h] at hi' <;> exact absurd hi' (by decide)

theorem frame_ok_load_screen (cfg : build_cfg) (e : platform_env) (i : Nat)
    (g0 g : ui_globals) (h : frame_ok cfg g0 g) :
    frame_ok cfg g0 (set_screen (_ui_fsm_loadChannel e i (save_vfo_channel g)).2 MAIN_MEM) :=
  frame_ok_trans cfg g0 g _ h
    (frame_ok_trans cfg g (save_vfo_channel g) _ (frame_ok_save_vfo cfg g)
      (frame_ok_trans cfg (save_vfo_channel g)
        (_ui_fsm_loadChannel e i (save_vfo_channel g)).2 _
        (frame_ok_loadChannel cfg e i (save_vfo_channel g))
        (frame_ok_set_screen cfg _ MAIN_MEM (by decide) (by decide))))

theorem frame_ok_menu_zone_enter (cfg : build_cfg) (e : platform_env) (g : ui_globals) :
    frame_ok cfg g (menu_zone_enter e g) := by
  unfold menu_zone_enter
  dsimp only
  refine frame_ok_ite _ _ _ _ _ (fun _ => ?_)
    (fun _ => frame_ok_same cfg g _ rfl rfl rfl rfl rfl rfl)
  apply frame_ok_load_screen
  exact frame_ok_same cfg g _ rfl rfl rfl rfl rfl rfl

theorem frame_ok_menu_channel_enter (cfg : build_cfg) (e : platform_env) (g : ui_globals) :
    frame_ok cfg g (menu_channel_enter e g) := by
  unfold menu_channel_enter
  dsimp only
  exact frame_ok_load_screen cfg e _ g g (frame_ok_refl cfg g)

theorem frame_ok_MENU_LIST (cfg : build_cfg) (e : platform_env) (msg : kbd_msg_t)
    (g : ui_globals) : frame_ok cfg g (case_MENU_LIST e msg g) := by
  rw [case_MENU_LIST]
  refine frame_ok_ite _ _ _ _ _ (fun _ => frame_ok_menuUp cfg _ g) (fun _ => ?_)
  refine frame_ok_ite _ _ _ _ _ (fun _ => frame_ok_menu_list_down cfg e g) (fun _ => ?_)
  refine frame_ok_ite _ _ _ _ _ (fun _ => ?_) (fun _ => ?_)
  · have G1 : frame_ok cfg g (if g.state.ui_screen = MENU_ZONE then menu_zone_enter e g else g) :=
      frame_ok_ite _ _ _ _ _ (fun _ => frame_ok_menu_zone_enter cfg e g)
        (fun _ => frame_ok_refl cfg g)
    refine frame_ok_trans cfg g _ _ G1 ?_
    exact frame_ok_ite _ _ _ _ _ (fun _ => frame_ok_menu_channel_enter cfg e _)
      (fun _ => frame_ok_refl cfg _)
  exact frame_ok_ite _ _ _ _ _
    (fun _ => frame_ok_menuBack cfg MENU_TOP g (by decide) (by decide))
    (fun _ => frame_ok_refl cfg g)

theorem frame_ok_MENU_ESC_ONLY (cfg : build_cfg) (msg : kbd_msg_t) (g : ui_globals) :
    frame_ok cfg g (case_MENU_ESC_ONLY msg g) := by
  rw [case_MENU_ESC_ONLY]
  exact frame_ok_ite _ _ _ _ _
    (fun _ => frame_ok_menuBack cfg MENU_TOP g (by decide) (by decide))
    (fun _ => frame_ok_refl cfg g)

theorem frame_ok_MENU_SETTINGS (cfg : build_cfg) (msg : kbd_msg_t) (g : ui_globals) :
    frame_ok cfg g (case_MENU_SETTINGS cfg msg g) := by
  rw [case_MENU_SETTINGS]
  refine frame_ok_ite _ _ _ _ _ (fun _ => frame_ok_menuUp cfg _ g) (fun _ => ?_)
  refine frame_ok_ite _ _ _ _ _ (fun _ => frame_ok_menuDown cfg _ g) (fun _ => ?_)
  refine frame_ok_ite _ _ _ _ _ (fun _ => ?_) (fun _ => ?_)
  · have S := menu_settings_screen_safe cfg g.ui_state.menu_selected
    exact frame_ok_screen cfg g _ rfl rfl rfl rfl _ rfl S.1 S.2
  exact frame_ok_ite _ _ _ _ _
    (fun _ => frame_ok_menuBack cfg MENU_TOP g (by decide) (by decide))
    (fun _ => frame_ok_refl cfg g)

theorem frame_ok_MENU_INFO (cfg : build_cfg) (msg : kbd_msg_t) (g : ui_globals) :
    frame_ok cfg g (case_MENU_INFO msg g) := by
  rw [case_MENU_INFO]
  refine frame_ok_ite _ _ _ _ _ (fun _ => frame_ok_menuUp cfg _ g) (fun _ => ?_)
  refine frame_ok_ite _ _ _ _ _ (fun _ => frame_ok_menuDown cfg _ g) (fun _ => ?_)
  exact frame_ok_ite _ _ _ _ _
    (fun _ => frame_ok_menuBack cfg MENU_TOP g (by decide) (by decide))
    (fun _ => frame_ok_refl cfg g)

theorem frame_ok_SETTINGS_TIMEDATE (cfg : build_cfg) (msg : kbd_msg_t) (g : ui_globals) :
    frame_ok cfg g (case_SETTINGS_TIMEDATE msg g) := by
  rw [case_SETTINGS_TIMEDATE]
  refine frame_ok_ite _ _ _ _ _ (fun _ => ?_) (fun _ => ?_)
  · exact frame_ok_screen cfg g _ rfl rfl rfl rfl SETTINGS_TIMEDATE_SET rfl (by decide)
      (by decide)
  exact frame_ok_ite _ _ _ _ _
    (fun _ => frame_ok_menuBack cfg MENU_SETTINGS g (by decide) (by decide))
    (fun _ => frame_ok_refl cfg g)

theorem frame_ok_SETTINGS_TIMEDATE_SET (cfg : build_cfg) (e : platform_env) (msg : kbd_msg_t)
    (g : ui_globals) (hs : g.state.ui_screen = SETTINGS_TIMEDATE_SET) :
    frame_ok cfg g (case_SETTINGS_TIMEDATE_SET cfg e msg g) := by
  rw [case_SETTINGS_TIMEDATE_SET]
  refine frame_ok_ite _ _ _ _ _ (fun _ => ?_) (fun _ => ?_)
  · refine frame_ok_ite _ _ _ _ _ (fun _ => frame_ok_refl cfg g) (fun _ => ?_)
    exact frame_ok_screen cfg g _ rfl rfl rfl rfl SETTINGS_TIMEDATE rfl (by decide) (by decide)
  refine frame_ok_ite _ _ _ _ _
    (fun _ => frame_ok_menuBack cfg SETTINGS_TIMEDATE g (by decide) (by decide)) (fun _ => ?_)
  refine frame_ok_ite _ _ _ _ _ (fun _ => ?_) (fun _ => frame_ok_refl cfg g)
  refine frame_ok_ite _ _ _ _ _ (fun _ => frame_ok_refl cfg g) (fun _ => ?_)
  exact frame_ok_off_input cfg g _ rfl rfl rfl rfl rfl (by rw [hs]; decide)

theorem frame_ok_display_adjust (cfg : build_cfg) (b c : Int) (g : ui_globals) :
    frame_ok cfg g (display_adjust cfg b c g) := by
  unfold display_adjust
  refine frame_ok_ite _ _ _ _ _ (fun _ => frame_ok_changeBrightness cfg _ g) (fun _ => ?_)
  exact frame_ok_ite _ _ _ _ _ (fun _ => frame_ok_changeContrast cfg _ g)
    (fun _ => frame_ok_set_screen cfg g SETTINGS_DISPLAY (by decide) (by decide))

theorem frame_ok_SETTINGS_DISPLAY (cfg : build_cfg) (msg : kbd_msg_t) (g : ui_globals) :
    frame_ok cfg g (case_SETTINGS_DISPLAY cfg msg g) := by
  rw [case_SETTINGS_DISPLAY]
  refine frame_ok_ite _ _ _ _ _ (fun _ => frame_ok_display_adjust cfg _ _ g) (fun _ => ?_)
  refine frame_ok_ite _ _ _ _ _ (fun _ => frame_ok_display_adjust cfg _ _ g) (fun _ => ?_)
  refine frame_ok_ite _ _ _ _ _ (fun _ => frame_ok_menuUp cfg _ g) (fun _ => ?_)
  refine frame_ok_ite _ _ _ _ _ (fun _ => frame_ok_menuDown cfg _ g) (fun _ => ?_)
  refine frame_ok_ite _ _ _ _ _
    (fun _ => frame_ok_same cfg g _ rfl rfl rfl rfl rfl rfl) (fun _ => ?_)
  exact frame_ok_ite _ _ _ _ _
    (fun _ => frame_ok_menuBack cfg MENU_SETTINGS g (by decide) (by decide))
    (fun _ => frame_ok_refl cfg g)

theorem frame_ok_gps_adjust (cfg : build_cfg) (msg : kbd_msg_t) (g : ui_globals) :
    frame_ok cfg g (gps_adjust msg g) := by
  unfold gps_adjust
  refine frame_ok_ite _ _ _ _ _ (fun _ => frame_ok_set_settings cfg g _) (fun _ => ?_)
  refine frame_ok_ite _ _ _ _ _ (fun _ => frame_ok_set_settings cfg g _) (fun _ => ?_)
  refine frame_ok_ite _ _ _ _ _ (fun _ => ?_)
    (fun _ => frame_ok_set_screen cfg g SETTINGS_GPS (by decide) (by decide))
  refine frame_ok_ite _ _ _ _ _ (fun _ => frame_ok_set_settings cfg g _) (fun _ => ?_)
  exact frame_ok_ite _ _ _ _ _ (fun _ => frame_ok_set_settings cfg g _)
    (fun _ => frame_ok_refl cfg g)

theorem frame_ok_SETTINGS_GPS (cfg : build_cfg) (msg : kbd_msg_t) (g : ui_globals) :
    frame_ok cfg g (case_SETTINGS_GPS msg g) := by
  rw [case_SETTINGS_GPS]
  refine frame_ok_ite _ _ _ _ _ (fun _ => frame_ok_gps_adjust cfg msg g) (fun _ => ?_)
  refine frame_ok_ite _ _ _ _ _ (fun _ => frame_ok_menuUp cfg _ g) (fun _ => ?_)
  refine frame_ok_ite _ _ _ _ _ (fun _ => frame_ok_menuDown cfg _ g) (fun _ => ?_)
  refine frame_ok_ite _ _ _ _ _
    (fun _ => frame_ok_same cfg g _ rfl rfl rfl rfl rfl rfl) (fun _ => ?_)
  exact frame_ok_ite _ _ _ _ _
    (fun _ => frame_ok_menuBack cfg MENU_SETTINGS g (by decide) (by decide))
    (fun _ => frame_ok_refl cfg g)

/-- The per-screen dispatch keeps the emergency flag, the charge and the
macro-menu flag, and preserves the remembered main screen being a main
screen, the screen not being `LOW_BAT`, and the bound on the entry
position. -/
theorem frame_ok_dispatch (cfg : build_cfg) (e : platform_env) (msg : kbd_msg_t)
    (g : ui_globals) : frame_ok cfg g (fsm_dispatch cfg e msg g) := by
  unfold fsm_dispatch
  split
  · rename_i h; exact frame_ok_MAIN_VFO cfg e msg g h
  · rename_i h; exact frame_ok_MAIN_VFO_INPUT cfg e msg g h
  · rename_i h; exact frame_ok_MAIN_MEM cfg e msg g h
  · rename_i h; exact frame_ok_MENU_TOP cfg msg g h
  · exact frame_ok_MENU_LIST cfg e msg g
  · exact frame_ok_MENU_LIST cfg e msg g
  · exact frame_ok_MENU_LIST cfg e msg g
  · exact frame_ok_ite _ _ _ _ _ (fun _ => frame_ok_MENU_ESC_ONLY cfg msg g)
      (fun _ => frame_ok_refl cfg g)
  · exact frame_ok_MENU_SETTINGS cfg msg g
  · exact frame_ok_MENU_INFO cfg msg g
  · exact frame_ok_MENU_ESC_ONLY cfg msg g
  · exact frame_ok_ite _ _ _ _ _ (fun _ => frame_ok_SETTINGS_TIMEDATE cfg msg g)
      (fun _ => frame_ok_refl cfg g)
  · rename_i h
    exact frame_ok_ite _ _ _ _ _ (fun _ => frame_ok_SETTINGS_TIMEDATE_SET cfg e msg g h)
      (fun _ => frame_ok_refl cfg g)
  · exact frame_ok_SETTINGS_DISPLAY cfg msg g
  · exact frame_ok_ite _ _ _ _ _ (fun _ => frame_ok_SETTINGS_GPS cfg msg g)
      (fun _ => frame_ok_refl cfg g)
  · exact frame_ok_refl cfg g

/-! ## Routing by the MONI key -/

/-- What the digit part of the macro menu keeps. -/
theorem menuMacro_number_frame (cfg : build_cfg) (g : ui_globals) :
    (menuMacro_number cfg g).state.ui_screen = g.state.ui_screen ∧
    (menuMacro_number cfg g).state.emergency = g.state.emergency ∧
    (menuMacro_number cfg g).state.charge = g.state.charge ∧
    (menuMacro_number cfg g).macro_menu = g.macro_menu ∧
    (menuMacro_number cfg g).ui_state = g.ui_state := by
  unfold menuMacro_number
  split <;> exact ⟨rfl, rfl, rfl, rfl, rfl⟩

/-- What the squelch part of the macro menu keeps. -/
theorem menuMacro_squelch_frame (cfg : build_cfg) (e : platform_env) (msg : kbd_msg_t)
    (g : ui_globals) :
    (menuMacro_squelch cfg e msg g).state.ui_screen = g.state.ui_screen ∧
    (menuMacro_squelch cfg e msg g).state.emergency = g.state.emergency ∧
    (menuMacro_squelch cfg e msg g).state.charge = g.state.charge ∧
    (menuMacro_squelch cfg e msg g).macro_menu = g.macro_menu ∧
    (menuMacro_squelch cfg e msg g).ui_state = g.ui_state := by
  unfold menuMacro_squelch
  split_ifs <;> exact ⟨rfl, rfl, rfl, rfl, rfl⟩

/-- The macro menu keeps the screen, the battery inputs and the macro-menu
flag, and of `ui_state` it writes `input_number` only. -/
theorem menuMacro_frame (cfg : build_cfg) (e : platform_env) (msg : kbd_msg_t)
    (g : ui_globals) :
    (_ui_fsm_menuMacro cfg e msg g).state.ui_screen = g.state.ui_screen ∧
    (_ui_fsm_menuMacro cfg e msg g).state.emergency = g.state.emergency ∧
    (_ui_fsm_menuMacro cfg e msg g).state.charge = g.state.charge ∧
    (_ui_fsm_menuMacro cfg e msg g).macro_menu = g.macro_menu ∧
    (_ui_fsm_menuMacro cfg e msg g).ui_state =
      { g.ui_state with input_number := msg.pressedNumber } := by
  unfold _ui_fsm_menuMacro
  have S := menuMacro_squelch_frame cfg e msg (menuMacro_number cfg
    { g with ui_state := { g.ui_state with input_number := msg.pressedNumber } })
  have N := menuMacro_number_frame cfg
    { g with ui_state := { g.ui_state with input_number := msg.pressedNumber } }
  exact ⟨S.1.trans N.1, S.2.1.trans N.2.1, S.2.2.1.trans N.2.2.1, S.2.2.2.1.trans N.2.2.2.1,
    S.2.2.2.2.trans N.2.2.2.2⟩

/-- A dispatched key event with MONI runs the macro menu with the flag set. -/
theorem ui_updateFSM_moni (cfg : build_cfg) (e : platform_env) (msg : kbd_msg_t)
    (g : ui_globals) (hc : checks_pass e g) (hm : msg.KEY_MONI = true) :
    ui_updateFSM cfg e { type := EVENT_KBD, payload := msg } g =
      _ui_fsm_menuMacro cfg e msg { g with macro_menu := true } := by
  obtain ⟨hp, hb⟩ := hc
  simp [ui_updateFSM, hp, hb, hm]

/-- Claim C22: when the power and battery checks pass, a keyboard event with
MONI set is handled by `_ui_fsm_menuMacro` alone, with the macro-menu flag on:
whatever other keys are set, the screen, the menu cursor, edit mode, the entry
target, the entry position and the pending frequencies are unchanged. A
keyboard event without MONI is handled by the per-screen dispatch started with
the macro-menu flag off, and the flag is off afterwards. -/
theorem moni_macro_routing (cfg : build_cfg) (e : platform_env) (msg : kbd_msg_t)
    (g : ui_globals) (hc : checks_pass e g) :
    ∀ g1, g1 = ui_updateFSM cfg e { type := EVENT_KBD, payload := msg } g →
    (msg.KEY_MONI = true →
      g1 = _ui_fsm_menuMacro cfg e msg { g with macro_menu := true } ∧
      g1.macro_menu = true ∧ g1.state.ui_screen = g.state.ui_screen ∧
      g1.ui_state.menu_selected = g.ui_state.menu_selected ∧
      g1.ui_state.edit_mode = g.ui_state.edit_mode ∧
      g1.ui_state.input_set = g.ui_state.input_set ∧
      g1.ui_state.input_position = g.ui_state.input_position ∧
      g1.ui_state.new_rx_frequency = g.ui_state.new_rx_frequency ∧
      g1.ui_state.new_tx_frequency = g.ui_state.new_tx_frequency) ∧
    (msg.KEY_MONI = false →
      g1 = fsm_dispatch cfg e msg { g with macro_menu := false } ∧
      g1.macro_menu = false) := by
  intro g1 hg1
  constructor
  · intro hm
    rw [ui_updateFSM_moni cfg e msg g hc hm] at hg1
    have F := menuMacro_frame cfg e msg { g with macro_menu := true }
    rw [← hg1] at F
    refine ⟨hg1, F.2.2.2.1, F.1, ?_, ?_, ?_, ?_, ?_, ?_⟩ <;> rw [F.2.2.2.2]
  · intro hm
    rw [ui_updateFSM_dispatch cfg e msg g hc hm] at hg1
    refine ⟨hg1, ?_⟩
    rw [hg1]
    exact (frame_ok_dispatch cfg e msg { g with macro_menu := false }).2.2.1

/-- Claim C22 on the display settings of the demonstration state: MONI with
RIGHT sets the macro-menu flag and keeps the screen, and a plain UP clears the
flag again. -/
theorem moni_macro_routing_witness :
    (ui_updateFSM demo_cfg demo_env { type := EVENT_KBD, payload := key_moni_right }
      (demo_on SETTINGS_DISPLAY)).macro_menu = true ∧
    (ui_updateFSM demo_cfg demo_env { type := EVENT_KBD, payload := key_moni_right }
      (demo_on SETTINGS_DISPLAY)).state.ui_screen = SETTINGS_DISPLAY ∧
    (ui_updateFSM demo_cfg demo_env { type := EVENT_KBD, payload := key_up }
      (ui_updateFSM demo_cfg demo_env { type := EVENT_KBD, payload := key_moni_right }
        (demo_on SETTINGS_DISPLAY))).macro_menu = false :=
  ⟨((moni_macro_routing demo_cfg demo_env key_moni_right (demo_on SETTINGS_DISPLAY)
      (by decide) _ rfl).1 rfl).2.1,
   ((moni_macro_routing demo_cfg demo_env key_moni_right (demo_on SETTINGS_DISPLAY)
      (by decide) _ rfl).1 rfl).2.2.1,
   ((moni_macro_routing demo_cfg demo_env key_up
      (ui_updateFSM demo_cfg demo_env { type := EVENT_KBD, payload := key_moni_right }
        (demo_on SETTINGS_DISPLAY)) (by decide) _ rfl).2 rfl).2⟩

/-! ## Invariants of the runs -/

/-- The four ways an event is handled: ignored, answered by the low-battery
branch, routed to the macro menu, or dispatched on the screen. -/
theorem ui_updateFSM_cases (cfg : build_cfg) (e : platform_env) (event : event_t)
    (g : ui_globals) :
    ui_updateFSM cfg e event g = g ∨
    (low_battery e g = true ∧
      (ui_updateFSM cfg e event g = set_screen g LOW_BAT ∨
       ui_updateFSM cfg e event g =
        { g with state := { g.state with ui_screen := MAIN_VFO, emergency := true } })) ∨
    (low_battery e g = false ∧
      ui_updateFSM cfg e event g =
        _ui_fsm_menuMacro cfg e event.payload { g with macro_menu := true }) ∨
    (low_battery e g = false ∧
      ui_updateFSM cfg e event g =
        fsm_dispatch cfg e event.payload { g with macro_menu := false }) := by
  rw [ui_updateFSM]
  by_cases hp : (!e.pwrButtonStatus) = true
  · rw [if_pos hp]
    exact Or.inl rfl
  rw [if_neg hp]
  by_cases hb : low_battery e g = true
  · rw [if_pos hb]
    refine Or.inr (Or.inl ⟨hb, ?_⟩)
    by_cases hk : event.type = EVENT_KBD ∧ event.payload.value ≠ 0
    · exact Or.inr (by rw [if_pos hk]; rfl)
    · exact Or.inl (by rw [if_neg hk])
  rw [if_neg hb]
  have hb' : low_battery e g = false := by
    cases h : low_battery e g
    · rfl
    · exact absurd h hb
  by_cases hk : event.type = EVENT_KBD
  · rw [if_pos hk]
    by_cases hm : event.payload.KEY_MONI = true
    · exact Or.inr (Or.inr (Or.inl ⟨hb', by rw [if_pos hm]⟩))
    · exact Or.inr (Or.inr (Or.inr ⟨hb', by rw [if_neg hm]⟩))
  · rw [if_neg hk]
    exact Or.inl rfl

/-- The macro menu, run with the macro-menu flag set, keeps what the dispatch
keeps, the flag apart. -/
theorem menuMacro_keeps (cfg : build_cfg) (e : platform_env) (msg : kbd_msg_t)
    (g : ui_globals) :
    (main_inv g → main_inv (_ui_fsm_menuMacro cfg e msg { g with macro_menu := true })) ∧
    (entry_inv cfg g →
      entry_inv cfg (_ui_fsm_menuMacro cfg e msg { g with macro_menu := true })) ∧
    (_ui_fsm_menuMacro cfg e msg { g with macro_menu := true }).state.ui_screen =
      g.state.ui_screen ∧
    (_ui_fsm_menuMacro cfg e msg { g with macro_menu := true }).state.emergency =
      g.state.emergency := by
  have F := menuMacro_frame cfg e msg { g with macro_menu := true }
  refine ⟨?_, ?_, F.1, F.2.1⟩
  · unfold main_inv
    rw [F.2.2.2.2]
    exact fun h => h
  · unfold entry_inv
    rw [F.1, F.2.2.2.2]
    exact fun h => h

/-- Every event keeps the remembered main screen a main screen. -/
theorem ui_updateFSM_main_inv (cfg : build_cfg) (e : platform_env) (event : event_t)
    (g : ui_globals) (h : main_inv g) : main_inv (ui_updateFSM cfg e event g) := by
  rcases ui_updateFSM_cases cfg e event g with h1 | ⟨_, h1 | h1⟩ | ⟨_, h1⟩ | ⟨_, h1⟩
  · rw [h1]; exact h
  · rw [h1]; exact h
  · rw [h1]; exact h
  · rw [h1]; exact (menuMacro_keeps cfg e event.payload g).1 h
  · rw [h1]
    exact (frame_ok_dispatch cfg e event.payload { g with macro_menu := false }).2.2.2.1 h

/-- Every event keeps the entry position on `MAIN_VFO_INPUT` below
`FREQ_DIGITS`. -/
theorem ui_updateFSM_entry_inv (cfg : build_cfg) (h2 : 2 ≤ cfg.FREQ_DIGITS)
    (h255 : cfg.FREQ_DIGITS ≤ 255) (e : platform_env) (event : event_t) (g : ui_globals)
    (h : main_inv g) (hi : entry_inv cfg g) : entry_inv cfg (ui_updateFSM cfg e event g) := by
  rcases ui_updateFSM_cases cfg e event g with h1 | ⟨_, h1 | h1⟩ | ⟨_, h1⟩ | ⟨_, h1⟩
  · rw [h1]; exact hi
  · rw [h1]
    intro hs
    exact absurd hs (show LOW_BAT ≠ MAIN_VFO_INPUT by decide)
  · rw [h1]
    intro hs
    exact absurd hs (show MAIN_VFO ≠ MAIN_VFO_INPUT by decide)
  · rw [h1]; exact (menuMacro_keeps cfg e event.payload g).2.1 hi
  · rw [h1]
    exact (frame_ok_dispatch cfg e event.payload { g with macro_menu := false }).2.2.2.2.2
      h2 h255 h hi

/-- In every reachable state the remembered main screen is a main screen. -/
theorem reachable_main_inv (cfg : build_cfg) (g : ui_globals) (hr : reachable cfg g) :
    main_inv g := by
  induction hr with
  | init s sync h => exact Or.inl rfl
  | event g e event _ ih => exact ui_updateFSM_main_inv cfg e event g ih
  | battery g charge _ ih => exact ih
  | resync g sync _ ih => exact ih

/-- In every reachable state on `MAIN_VFO_INPUT` the entry position is below
`FREQ_DIGITS`. -/
theorem reachable_entry_inv (cfg : build_cfg) (h2 : 2 ≤ cfg.FREQ_DIGITS)
    (h255 : cfg.FREQ_DIGITS ≤ 255) (g : ui_globals) (hr : reachable cfg g) :
    entry_inv cfg g := by
  induction hr with
  | init s sync h =>
    intro hs
    exact absurd (h.symm.trans hs) (by decide)
  | event g e event hg ih =>
    exact ui_updateFSM_entry_inv cfg h2 h255 e event g (reachable_main_inv cfg g hg) ih
  | battery g charge _ ih => exact ih
  | resync g sync _ ih => exact ih

/-- A digit on the entry screen at a position below `FREQ_DIGITS`: the
accumulator is called at the next position; at the last position rx hands
over to tx and tx leaves the screen, and otherwise the position advances. -/
theorem insert_position (cfg : build_cfg) (e : platform_env) (msg : kbd_msg_t)
    (g : ui_globals) (hp : g.ui_state.input_position < cfg.FREQ_DIGITS)
    (h255 : cfg.FREQ_DIGITS ≤ 255) :
    (g.ui_state.input_set = SET_RX →
      (_ui_fsm_insertVFONumber cfg e msg g).ui_state.new_rx_frequency =
        _ui_freq_add_digit cfg
          (if g.ui_state.input_position = 0 then 0 else g.ui_state.new_rx_frequency)
          (g.ui_state.input_position + 1) msg.pressedNumber) ∧
    (g.ui_state.input_set = SET_TX →
      (_ui_fsm_insertVFONumber cfg e msg g).ui_state.new_tx_frequency =
        _ui_freq_add_digit cfg
          (if g.ui_state.input_position = 0 then 0 else g.ui_state.new_tx_frequency)
          (g.ui_state.input_position + 1) msg.pressedNumber) ∧
    (g.ui_state.input_position + 1 = cfg.FREQ_DIGITS → g.ui_state.input_set = SET_RX →
      (_ui_fsm_insertVFONumber cfg e msg g).ui_state.input_set = SET_TX ∧
      (_ui_fsm_insertVFONumber cfg e msg g).ui_state.input_position = 0 ∧
      (_ui_fsm_insertVFONumber cfg e msg g).ui_state.new_tx_frequency = 0 ∧
      (_ui_fsm_insertVFONumber cfg e msg g).state.ui_screen = g.state.ui_screen) ∧
    (g.ui_state.input_position + 1 = cfg.FREQ_DIGITS → g.ui_state.input_set = SET_TX →
      (_ui_fsm_insertVFONumber cfg e msg g).state.ui_screen = MAIN_VFO) ∧
    (g.ui_state.input_position + 1 < cfg.FREQ_DIGITS →
      (_ui_fsm_insertVFONumber cfg e msg g).ui_state.input_position =
        g.ui_state.input_position + 1 ∧
      (_ui_fsm_insertVFONumber cfg e msg g).ui_state.input_set = g.ui_state.input_set ∧
      (_ui_fsm_insertVFONumber cfg e msg g).state.ui_screen = g.state.ui_screen) := by
  have hm : (g.ui_state.input_position + 1) % 256 = g.ui_state.input_position + 1 :=
    Nat.mod_eq_of_lt (by omega)
  have hiff : g.ui_state.input_position + 1 = 1 ↔ g.ui_state.input_position = 0 := by omega
  refine ⟨?_, ?_, ?_, ?_, ?_⟩
  · intro hs
    by_cases h0 : g.ui_state.input_position = 0
    · simp [_ui_fsm_insertVFONumber, hs, h0]
      split_ifs <;> rfl
    · by_cases hl : cfg.FREQ_DIGITS ≤ g.ui_state.input_position + 1 <;>
      simp [_ui_fsm_insertVFONumber, hs, hm, hl, hiff, h0]
  · intro hs
    by_cases h0 : g.ui_state.input_position = 0
    · simp [_ui_fsm_insertVFONumber, hs, h0]
      split_ifs <;> rfl
    · by_cases hl : cfg.FREQ_DIGITS ≤ g.ui_state.input_position + 1
      · simp [_ui_fsm_insertVFONumber, hs, hm, hl, hiff, h0]
        split_ifs <;> rfl
      · simp [_ui_fsm_insertVFONumber, hs, hm, hl, hiff, h0]
  · intro hl hs
    have hge : cfg.FREQ_DIGITS ≤ g.ui_state.input_position + 1 := by omega
    simp [_ui_fsm_insertVFONumber, hs, hm, hge]
    split_ifs <;> rfl
  · intro hl hs
    have hge : cfg.FREQ_DIGITS ≤ g.ui_state.input_position + 1 := by omega
    simp [_ui_fsm_insertVFONumber, hs, hm, hge]
  · intro hl
    have hge : ¬ cfg.FREQ_DIGITS ≤ g.ui_state.input_position + 1 := by omega
    cases hs : g.ui_state.input_set <;>
    simp [_ui_fsm_insertVFONumber, hs, hm, hge] <;>
    split_ifs <;> exact ⟨rfl, rfl, rfl⟩

/-- Claim C27: with `FREQ_DIGITS` between 2 and 255, in every state reachable
from the initial state the entry position on `MAIN_VFO_INPUT` is below
`FREQ_DIGITS`; so every call of `_ui_freq_add_digit` made for a digit key has
its position between 1 and `FREQ_DIGITS`: the digit that opens the entry from
`MAIN_VFO` is added at position 1, and a digit on `MAIN_VFO_INPUT` at the
entry position plus one. When that position is `FREQ_DIGITS`, an rx entry
switches the target to tx with position 0 and pending tx 0, and a tx entry
leaves `MAIN_VFO_INPUT` for `MAIN_VFO`; below it the position advances. -/
theorem entry_position_bound (cfg : build_cfg) (h2 : 2 ≤ cfg.FREQ_DIGITS)
    (h255 : cfg.FREQ_DIGITS ≤ 255) (g : ui_globals) (hr : reachable cfg g) :
    (g.state.ui_screen = MAIN_VFO_INPUT → g.ui_state.input_position < cfg.FREQ_DIGITS) ∧
    (∀ (e : platform_env) (msg : kbd_msg_t) (g1 : ui_globals),
      checks_pass e g → is_digit_key msg →
      g1 = ui_updateFSM cfg e { type := EVENT_KBD, payload := msg } g →
      (g.state.ui_screen = MAIN_VFO →
        g1.state.ui_screen = MAIN_VFO_INPUT ∧ g1.ui_state.input_position = 1 ∧
        g1.ui_state.input_set = SET_RX ∧
        g1.ui_state.new_rx_frequency = _ui_freq_add_digit cfg 0 1 msg.pressedNumber ∧
        1 ≤ cfg.FREQ_DIGITS) ∧
      (g.state.ui_screen = MAIN_VFO_INPUT →
        1 ≤ g.ui_state.input_position + 1 ∧
        g.ui_state.input_position + 1 ≤ cfg.FREQ_DIGITS ∧
        (g.ui_state.input_set = SET_RX →
          g1.ui_state.new_rx_frequency =
            _ui_freq_add_digit cfg
              (if g.ui_state.input_position = 0 then 0 else g.ui_state.new_rx_frequency)
              (g.ui_state.input_position + 1) msg.pressedNumber) ∧
        (g.ui_state.input_set = SET_TX →
          g1.ui_state.new_tx_frequency =
            _ui_freq_add_digit cfg
              (if g.ui_state.input_position = 0 then 0 else g.ui_state.new_tx_frequency)
              (g.ui_state.input_position + 1) msg.pressedNumber) ∧
        (g.ui_state.input_position + 1 = cfg.FREQ_DIGITS → g.ui_state.input_set = SET_RX →
          g1.ui_state.input_set = SET_TX ∧ g1.ui_state.input_position = 0 ∧
          g1.ui_state.new_tx_frequency = 0 ∧ g1.state.ui_screen = MAIN_VFO_INPUT) ∧
        (g.ui_state.input_position + 1 = cfg.FREQ_DIGITS → g.ui_state.input_set = SET_TX →
          g1.state.ui_screen = MAIN_VFO) ∧
        (g.ui_state.input_position + 1 < cfg.FREQ_DIGITS →
          g1.ui_state.input_position = g.ui_state.input_position + 1 ∧
          g1.ui_state.input_set = g.ui_state.input_set ∧
          g1.state.ui_screen = MAIN_VFO_INPUT))) := by
  have hinv := reachable_entry_inv cfg h2 h255 g hr
  refine ⟨hinv, ?_⟩
  intro e msg g1 hc hk hg1
  constructor
  · intro hs
    have O := open_entry cfg e msg g hs hc hk
    rw [← hg1] at O
    exact ⟨O.1, O.2.2.1, O.2.1, O.2.2.2.1, by omega⟩
  · intro hs
    have hp := hinv hs
    have hstep := input_digit_step cfg e msg g g g.ui_state.input_set g.ui_state.input_position
      g.ui_state.new_rx_frequency g.ui_state.new_tx_frequency
      ⟨hs, rfl, rfl, rfl, rfl, rfl, rfl, rfl, rfl⟩ hc hk
    rw [← hg1] at hstep
    have P := insert_position cfg e msg { g with macro_menu := false } hp h255
    rw [← hstep] at P
    refine ⟨by omega, by omega, P.1, P.2.1, ?_, P.2.2.2.1, ?_⟩
    · intro a b
      have Q := P.2.2.1 a b
      exact ⟨Q.1, Q.2.1, Q.2.2.1, Q.2.2.2.trans hs⟩
    · intro a
      have Q := P.2.2.2.2 a
      exact ⟨Q.1, Q.2.1, Q.2.2.trans hs⟩

/-- Claim C27 in the demonstration build, on the state reached from the
initial state by digit 4: the entry position is 1, below 8, and digit 3 is
added at position 2. -/
theorem entry_position_bound_witness :
    (ui_updateFSM demo_cfg demo_env { type := EVENT_KBD, payload := key_digit 4 }
      demo_globals).ui_state.input_position < demo_cfg.FREQ_DIGITS ∧
    (ui_updateFSM demo_cfg demo_env { type := EVENT_KBD, payload := key_digit 3 }
      (ui_updateFSM demo_cfg demo_env { type := EVENT_KBD, payload := key_digit 4 }
        demo_globals)).ui_state.new_rx_frequency =
      _ui_freq_add_digit demo_cfg 400000000 2 3 :=
  have A := entry_position_bound demo_cfg (by decide) (by decide)
    (ui_updateFSM demo_cfg demo_env { type := EVENT_KBD, payload := key_digit 4 } demo_globals)
    (reachable.event demo_globals demo_env { type := EVENT_KBD, payload := key_digit 4 }
      (reachable.init demo_globals.state false rfl))
  ⟨A.1 (by decide),
   (((A.2 demo_env (key_digit 3) _ (by decide) (by decide) rfl).2 (by decide)).2.2.1
     (by decide))⟩

/-- With the emergency flag set the low-battery test fails. -/
theorem low_battery_emergency (e : platform_env) (g : ui_globals)
    (he : g.state.emergency = true) : low_battery e g = false := by
  unfold low_battery
  rw [he]
  rfl

/-- Claim C34: no event clears the emergency flag; and from a state with the
flag set, a screen other than `LOW_BAT` and a main screen remembered for the
menu, no event makes the screen `LOW_BAT`, whatever the charge and the PTT
status, and the remembered screen stays a main screen. In every state
reachable from the initial state the remembered screen is a main screen. -/
theorem low_battery_override_permanent (cfg : build_cfg) (e : platform_env) (event : event_t)
    (g : ui_globals) (he : g.state.emergency = true) :
    (ui_updateFSM cfg e event g).state.emergency = true ∧
    (main_inv g → g.state.ui_screen ≠ LOW_BAT →
      (ui_updateFSM cfg e event g).state.ui_screen ≠ LOW_BAT ∧
      main_inv (ui_updateFSM cfg e event g)) ∧
    (reachable cfg g → main_inv g) := by
  have hl := low_battery_emergency e g he
  refine ⟨?_, ?_, reachable_main_inv cfg g⟩
  · rcases ui_updateFSM_cases cfg e event g with h1 | ⟨hb, _⟩ | ⟨_, h1⟩ | ⟨_, h1⟩
    · rw [h1]; exact he
    · rw [hl] at hb
      exact absurd hb (by decide)
    · rw [h1, (menuMacro_keeps cfg e event.payload g).2.2.2]
      exact he
    · rw [h1, (frame_ok_dispatch cfg e event.payload { g with macro_menu := false }).1]
      exact he
  · intro hm hs
    refine ⟨?_, ui_updateFSM_main_inv cfg e event g hm⟩
    rcases ui_updateFSM_cases cfg e event g with h1 | ⟨hb, _⟩ | ⟨_, h1⟩ | ⟨_, h1⟩
    · rw [h1]; exact hs
    · rw [hl] at hb
      exact absurd hb (by decide)
    · rw [h1, (menuMacro_keeps cfg e event.payload g).2.2.1]
      exact hs
    · rw [h1]
      exact (frame_ok_dispatch cfg e event.payload { g with macro_menu := false }).2.2.2.2.1
        hm hs

/-- Claim C34 on the demonstration state with an empty battery and the
emergency flag set: a status event keeps the flag and the screen `MAIN_VFO`,
and so does the ENTER key, which opens the menu. -/
theorem low_battery_override_permanent_witness :
    (ui_updateFSM demo_cfg demo_env { type := EVENT_STATUS, payload := key_none }
      demo_emergency).state.emergency = true ∧
    (ui_updateFSM demo_cfg demo_env { type := EVENT_STATUS, payload := key_none }
      demo_emergency).state.ui_screen ≠ LOW_BAT ∧
    (ui_updateFSM demo_cfg demo_env { type := EVENT_KBD, payload := key_enter }
      demo_emergency).state.ui_screen ≠ LOW_BAT :=
  ⟨(low_battery_override_permanent demo_cfg demo_env
      { type := EVENT_STATUS, payload := key_none } demo_emergency rfl).1,
   ((low_battery_override_permanent demo_cfg demo_env
      { type := EVENT_STATUS, payload := key_none } demo_emergency rfl).2.1
        (by decide) (by decide)).1,
   ((low_battery_override_permanent demo_cfg demo_env
      { type := EVENT_KBD, payload := key_enter } demo_emergency rfl).2.1
        (by decide) (by decide)).1⟩
